import Mathlib

/-!
# lm-sensors, `prog/sensors/chips.c`: the report renderers

A shallow embedding of `chips.c`.

* A C `double` is the rational number it denotes (`ℚ`); there is no NaN or infinity.  The only
  arithmetic on doubles, that of `deg_ctof`, rounds each result to `double` (`round_double`).
* A C string is a `String`, one `Char` per C `char`; `strlen` is `String.length`.
* Standard output is the list of `Chunk`s written so far.  Every `printf` call appends one
  chunk per ordinary-text run and per conversion of its format string, in order; `render`
  turns the chunks into the text that reaches the terminal.
* The library (`lib/sensors.h`) is data: a chip carries the list of features that
  `sensors_get_features` enumerates and the answer of `sensors_get_value` for every subfeature
  number; a feature carries the answer of `sensors_get_label` and the list of subfeatures that
  `sensors_get_all_subfeatures` enumerates.
-/

namespace Sensors

/-! ## Output -/

/-- What one piece of a `printf` format string writes. -/
inductive Chunk where
  /-- Ordinary characters of the format string, copied unchanged. -/
  | lit (s : String)
  /-- A `%s` conversion. -/
  | str (s : String)
  /-- A `%s` conversion with a field width (`%-4s` is width `-4`, `%*s` takes the width from its
  argument); a negative width left-justifies in the field of the absolute width. -/
  | strw (w : Int) (s : String)
  /-- A `%f` conversion: `flt plus w p v` is `%+w.pf` when `plus` holds and `%w.pf` otherwise. -/
  | flt (plus : Bool) (w p : Nat) (v : ℚ)
  deriving DecidableEq

/-- `n` blanks. -/
def spaces (n : Nat) : String := String.mk (List.replicate n ' ')

/-- Field-width padding of `printf`: right-justified for `w ≥ 0`, left-justified in `-w`
columns for `w < 0`; a string longer than the field is written whole. -/
def pad_str (w : Int) (s : String) : String :=
  if w < 0 then s ++ spaces (w.natAbs - s.length) else spaces (w.toNat - s.length) ++ s

/-- The decimal digit `d`. -/
def digit_char (d : Nat) : Char := Char.ofNat (48 + d % 10)

/-- Decimal digits of `n`, most significant first (`fuel` bounds the number of digits). -/
def dec_digits : Nat → Nat → List Char
  | 0, _ => []
  | fuel + 1, n =>
    if n < 10 then [digit_char n] else dec_digits fuel (n / 10) ++ [digit_char n]

/-- Decimal numeral of `n`. -/
def nat_dec (n : Nat) : List Char := dec_digits (n + 1) n

/-- Nearest integer to `a / b`, ties to even (`b > 0`). -/
def round_div (a b : Nat) : Nat :=
  let q := a / b
  let r := a % b
  if 2 * r < b then q else if b < 2 * r then q + 1 else if q % 2 = 0 then q else q + 1

/-- The digits `printf` writes for `%.pf` of `|v|`: `|v|` rounded to `p` decimals. -/
def fixed_digits (p : Nat) (v : ℚ) : List Char :=
  let n := round_div (v.num.natAbs * 10 ^ p) v.den
  let ip := nat_dec (n / 10 ^ p)
  if p = 0 then ip
  else
    let fp := nat_dec (n % 10 ^ p)
    ip ++ '.' :: (List.replicate (p - fp.length) '0' ++ fp)

/-- Text of `%+w.pf` (`plus`) or `%w.pf` applied to `v`. -/
def fmt_f (plus : Bool) (w p : Nat) (v : ℚ) : String :=
  let sign : List Char := if v < 0 then ['-'] else if plus then ['+'] else []
  pad_str w (String.mk (sign ++ fixed_digits p v))

/-- The text a chunk puts on the terminal. -/
def Chunk.render : Chunk → String
  | .lit s => s
  | .str s => s
  | .strw w s => pad_str w s
  | .flt plus w p v => fmt_f plus w p v

/-- The text of a whole output: the texts of its chunks, one after the other. -/
def render : List Chunk → String
  | [] => ""
  | c :: out => c.render ++ render out

/-! ## The library's data -/

/-- The fields of `sensors_subfeature` that `chips.c` reads. -/
structure sensors_subfeature where
  name : String
  number : Int
  type : Int
  flags : Nat

/-- A `sensors_feature` together with what the library answers about it: `label` is the result
of `sensors_get_label` (`none` for `NULL`), `subfeatures` the sequence enumerated by
`sensors_get_all_subfeatures`. -/
structure sensors_feature where
  name : String
  number : Int
  type : Int
  label : Option String
  subfeatures : List sensors_subfeature

/-- A chip: `features` is the sequence enumerated by `sensors_get_features`; `value nr` is the
outcome of `sensors_get_value` for subfeature number `nr`, the error code it returns or the
value it stores (nothing is stored on failure). -/
structure sensors_chip_name where
  features : List sensors_feature
  value : Int → Except Int ℚ

/-- The globals of `main.c` and the library's error texts. -/
structure Env where
  fahrenheit : Bool
  degstr : String
  sensors_strerror : Int → String

def sensors_get_label (_name : sensors_chip_name) (feature : sensors_feature) : Option String :=
  feature.label

def sensors_get_value (name : sensors_chip_name) (subfeat_nr : Int) : Except Int ℚ :=
  name.value subfeat_nr

/-! ### Role constants

Modelled from the spec: the enumeration `sensors_subfeature_type` of `lib/sensors.h`, which is
not part of the sources at hand.  The roles of one kind are consecutive integers that start at
the kind's input role, in the order of the header; `chips.c` depends only on that. -/

/-- Modelled from the spec: role constant of `lib/sensors.h`. -/
def SENSORS_SUBFEATURE_IN_INPUT : Int := 0
/-- Modelled from the spec: role constant of `lib/sensors.h`. -/
def SENSORS_SUBFEATURE_IN_MIN : Int := 1
/-- Modelled from the spec: role constant of `lib/sensors.h`. -/
def SENSORS_SUBFEATURE_IN_MAX : Int := 2
/-- Modelled from the spec: role constant of `lib/sensors.h`. -/
def SENSORS_SUBFEATURE_IN_ALARM : Int := 3
/-- Modelled from the spec: role constant of `lib/sensors.h`. -/
def SENSORS_SUBFEATURE_IN_MIN_ALARM : Int := 4
/-- Modelled from the spec: role constant of `lib/sensors.h`. -/
def SENSORS_SUBFEATURE_IN_MAX_ALARM : Int := 5
/-- Modelled from the spec: role constant of `lib/sensors.h`. -/
def SENSORS_SUBFEATURE_FAN_INPUT : Int := 256
/-- Modelled from the spec: role constant of `lib/sensors.h`. -/
def SENSORS_SUBFEATURE_FAN_MIN : Int := 257
/-- Modelled from the spec: role constant of `lib/sensors.h`. -/
def SENSORS_SUBFEATURE_FAN_ALARM : Int := 258
/-- Modelled from the spec: role constant of `lib/sensors.h`. -/
def SENSORS_SUBFEATURE_FAN_FAULT : Int := 259
/-- Modelled from the spec: role constant of `lib/sensors.h`. -/
def SENSORS_SUBFEATURE_FAN_DIV : Int := 260
/-- Modelled from the spec: role constant of `lib/sensors.h`. -/
def SENSORS_SUBFEATURE_TEMP_INPUT : Int := 512
/-- Modelled from the spec: role constant of `lib/sensors.h`. -/
def SENSORS_SUBFEATURE_TEMP_MAX : Int := 513
/-- Modelled from the spec: role constant of `lib/sensors.h`. -/
def SENSORS_SUBFEATURE_TEMP_MAX_HYST : Int := 514
/-- Modelled from the spec: role constant of `lib/sensors.h`. -/
def SENSORS_SUBFEATURE_TEMP_MIN : Int := 515
/-- Modelled from the spec: role constant of `lib/sensors.h`. -/
def SENSORS_SUBFEATURE_TEMP_CRIT : Int := 516
/-- Modelled from the spec: role constant of `lib/sensors.h`. -/
def SENSORS_SUBFEATURE_TEMP_CRIT_HYST : Int := 517
/-- Modelled from the spec: role constant of `lib/sensors.h`. -/
def SENSORS_SUBFEATURE_TEMP_ALARM : Int := 518
/-- Modelled from the spec: role constant of `lib/sensors.h`. -/
def SENSORS_SUBFEATURE_TEMP_MAX_ALARM : Int := 519
/-- Modelled from the spec: role constant of `lib/sensors.h`. -/
def SENSORS_SUBFEATURE_TEMP_MIN_ALARM : Int := 520
/-- Modelled from the spec: role constant of `lib/sensors.h`. -/
def SENSORS_SUBFEATURE_TEMP_CRIT_ALARM : Int := 521
/-- Modelled from the spec: role constant of `lib/sensors.h`. -/
def SENSORS_SUBFEATURE_TEMP_FAULT : Int := 522
/-- Modelled from the spec: role constant of `lib/sensors.h`. -/
def SENSORS_SUBFEATURE_TEMP_TYPE : Int := 523
/-- Modelled from the spec: role constant of `lib/sensors.h`. -/
def SENSORS_SUBFEATURE_VID : Int := 768
/-- Modelled from the spec: role constant of `lib/sensors.h`. -/
def SENSORS_SUBFEATURE_BEEP_ENABLE : Int := 1024

/-! ## `chips.c` -/

/-- Number of binary digits of `n`; `fuel` bounds the number of halvings. -/
def bit_count : Nat → Nat → Nat
  | 0, _ => 0
  | fuel + 1, n => if n = 0 then 0 else bit_count fuel (n / 2) + 1

/-- Position of the leading binary digit of `n`. -/
def leading_bit (n : Nat) : Nat := bit_count n n - 1

/-- The binary exponent `e` of the double nearest a positive `n / d`: the one with
`2^52 ≤ n / d / 2^e < 2^53`. -/
def double_exponent (n d : Nat) : Int :=
  let e0 : Int := (leading_bit n : Int) - (leading_bit d : Int) - 52
  if n * 2 ^ (-e0).toNat < d * 2 ^ e0.toNat * 2 ^ 52 then e0 - 1
  else if n * 2 ^ (-e0).toNat ≥ d * 2 ^ e0.toNat * 2 ^ 53 then e0 + 1
  else e0

/-- Rounding of a real result to `double`: the nearest number with a significand of 53 bits,
ties to the even significand (the exponent range of `double` is not modelled). -/
def round_double (q : ℚ) : ℚ :=
  let n := q.num.natAbs
  let d := q.den
  if n = 0 then 0
  else
    let e := double_exponent n d
    let m := round_div (n * 2 ^ (-e).toNat) (d * 2 ^ e.toNat)
    mkRat ((if q.num < 0 then -1 else 1) * (m : Int) * 2 ^ e.toNat) (2 ^ (-e).toNat)

/-- The constant `9.0F / 5.0F` of line 64: the quotient is taken in `float`, so it is the
`float` nearest 1.8, which is `7549747 / 4194304` (1.7999999523162841796875). -/
def float_9_5 : ℚ := mkRat 7549747 4194304

/-- `deg_ctof` (lines 62-65): `cel * (9.0F / 5.0F) + 32.0F`, the product and the sum being
taken in `double`, each rounded. -/
def deg_ctof (cel : ℚ) : ℚ := round_double (round_double (cel * float_9_5) + 32)

/-- `print_label` (lines 67-71): `printf("%s:%*s", label, space - len, "")`. -/
def print_label (label : String) (space : Int) : List Chunk :=
  let len : Int := (label.length : Int) + 1
  [.str label, .lit ":", .strw (space - len) ""]

/-- The dense role table: the arrays `has_features` and `feature_vals`, indexed by
`role - first_val`. -/
structure Table where
  has_features : Int → Bool
  feature_vals : Int → ℚ

/-- The freshly initialised arrays: `= { 0, }` and `= { 0.0, }`. -/
def Table.init : Table := ⟨fun _ => false, fun _ => 0⟩

/-- One turn of the loop of `sensors_get_available_features` (lines 83-97), for the subfeature
`iter`: the text written so far and the two arrays go in and come out. -/
def collect_step (env : Env) (name : sensors_chip_name) (size first_val : Int)
    (st : List Chunk × Table) (iter : sensors_subfeature) : List Chunk × Table :=
  let indx := iter.type - first_val
  if indx < 0 ∨ indx ≥ size then st
  else
    match sensors_get_value name iter.number with
    | .error err =>
      (st.1 ++ [.lit "ERROR: Can\x27t get ", .str iter.name, .lit " data: ",
                .str (env.sensors_strerror err), .lit "\n"], st.2)
    | .ok v =>
      (st.1, ⟨Function.update st.2.has_features indx true,
              Function.update st.2.feature_vals indx v⟩)

/-- `sensors_get_available_features` (lines 73-99): the diagnostics it prints and the arrays it
leaves, started on the arrays `t`. -/
def sensors_get_available_features (env : Env) (name : sensors_chip_name)
    (feature : sensors_feature) (t : Table) (size first_val : Int) : List Chunk × Table :=
  feature.subfeatures.foldl (collect_step env name size first_val) ([], t)

/-- `sensors_get_label_size` (lines 101-116); `max_size` is the loop variable. -/
def sensors_get_label_size (name : sensors_chip_name) : Int :=
  let max_size := name.features.foldl
    (fun (max_size : Nat) iter =>
      match sensors_get_label name iter with
      | some label => if label.length > max_size then label.length else max_size
      | none => max_size)
    11
  ((max_size + 1 : Nat) : Int)

/-- Truth value of a `double` used as a condition: non-zero. -/
def truthy (v : ℚ) : Bool := decide (v ≠ 0)

/-- The conversion `(int)` of a `double` (line 256): the fractional part is discarded.  For a
value whose integer part does not fit an `int` the C standard leaves the conversion undefined;
the result taken here is the one of the x86-64 conversion instruction, `INT_MIN`. -/
def c_int (v : ℚ) : Int :=
  let c := Int.tdiv v.num v.den
  if -2147483648 ≤ c ∧ c ≤ 2147483647 then c else -2147483648

/-- `print_temp_limits` (lines 118-139).  `none` is a `NULL` name; for a `NULL` argument of
`%-4s` the C library writes `(null)`. -/
def print_temp_limits (env : Env) (limit1 limit2 : ℚ) (name1 name2 : Option String)
    (alarm : Bool) : List Chunk :=
  let limit1 := if env.fahrenheit then deg_ctof limit1 else limit1
  let limit2 := if env.fahrenheit then deg_ctof limit2 else limit2
  (match name2 with
   | some n2 =>
     [.lit "(", .strw (-4) (name1.getD "(null)"), .lit " = ", .flt true 5 1 limit1,
      .str env.degstr, .lit ", ", .strw (-4) n2, .lit " = ", .flt true 5 1 limit2,
      .str env.degstr, .lit ")  "]
   | none =>
     match name1 with
     | some n1 =>
       [.lit "(", .strw (-4) n1, .lit " = ", .flt true 5 1 limit1, .str env.degstr,
        .lit ")                  "]
     | none => [.lit "                                  "])
  ++ (if alarm then [.lit "ALARM  "] else [])

/-- `TEMP_FEATURE(x)` (line 141). -/
def TEMP_FEATURE (t : Table) (x : Int) : Bool :=
  t.has_features (x - SENSORS_SUBFEATURE_TEMP_INPUT)

/-- `TEMP_FEATURE_VAL(x)` (line 142). -/
def TEMP_FEATURE_VAL (t : Table) (x : Int) : ℚ :=
  t.feature_vals (x - SENSORS_SUBFEATURE_TEMP_INPUT)

/-- The locals of `print_chip_temp` that the limit selection sets. -/
structure TempLimits where
  limit1 : ℚ
  limit2 : ℚ
  s1 : Option String
  s2 : Option String
  alarm : Bool
  crit_displayed : Bool

/-- The limit selection of `print_chip_temp` (lines 165-220): the values of `limit1`, `limit2`,
`s1`, `s2`, `alarm` and `crit_displayed` when line 222 is reached.  `alarm |= 1` is
`alarm := true`. -/
def temp_limits (t : Table) : TempLimits :=
  let alarm := TEMP_FEATURE t SENSORS_SUBFEATURE_TEMP_ALARM &&
    truthy (TEMP_FEATURE_VAL t SENSORS_SUBFEATURE_TEMP_ALARM)
  if TEMP_FEATURE t SENSORS_SUBFEATURE_TEMP_MAX then
    let alarm :=
      if TEMP_FEATURE t SENSORS_SUBFEATURE_TEMP_MAX_ALARM &&
          truthy (TEMP_FEATURE_VAL t SENSORS_SUBFEATURE_TEMP_MAX_ALARM)
      then true else alarm
    if TEMP_FEATURE t SENSORS_SUBFEATURE_TEMP_MIN then
      { limit1 := TEMP_FEATURE_VAL t SENSORS_SUBFEATURE_TEMP_MIN
        s1 := some "low"
        limit2 := TEMP_FEATURE_VAL t SENSORS_SUBFEATURE_TEMP_MAX
        s2 := some "high"
        alarm :=
          if TEMP_FEATURE t SENSORS_SUBFEATURE_TEMP_MIN_ALARM &&
              truthy (TEMP_FEATURE_VAL t SENSORS_SUBFEATURE_TEMP_MIN_ALARM)
          then true else alarm
        crit_displayed := false }
    else if TEMP_FEATURE t SENSORS_SUBFEATURE_TEMP_MAX_HYST then
      { limit1 := TEMP_FEATURE_VAL t SENSORS_SUBFEATURE_TEMP_MAX
        s1 := some "high"
        limit2 := TEMP_FEATURE_VAL t SENSORS_SUBFEATURE_TEMP_MAX_HYST
        s2 := some "hyst"
        alarm := alarm
        crit_displayed := false }
    else if TEMP_FEATURE t SENSORS_SUBFEATURE_TEMP_CRIT then
      { limit1 := TEMP_FEATURE_VAL t SENSORS_SUBFEATURE_TEMP_MAX
        s1 := some "high"
        limit2 := TEMP_FEATURE_VAL t SENSORS_SUBFEATURE_TEMP_CRIT
        s2 := some "crit"
        alarm :=
          if TEMP_FEATURE t SENSORS_SUBFEATURE_TEMP_CRIT_ALARM &&
              truthy (TEMP_FEATURE_VAL t SENSORS_SUBFEATURE_TEMP_CRIT_ALARM)
          then true else alarm
        crit_displayed := true }
    else
      { limit1 := TEMP_FEATURE_VAL t SENSORS_SUBFEATURE_TEMP_MAX
        s1 := some "high"
        limit2 := 0
        s2 := none
        alarm := alarm
        crit_displayed := false }
  else if TEMP_FEATURE t SENSORS_SUBFEATURE_TEMP_CRIT then
    { limit1 := TEMP_FEATURE_VAL t SENSORS_SUBFEATURE_TEMP_CRIT
      s1 := some "crit"
      limit2 :=
        if TEMP_FEATURE t SENSORS_SUBFEATURE_TEMP_CRIT_HYST
        then TEMP_FEATURE_VAL t SENSORS_SUBFEATURE_TEMP_CRIT_HYST else 0
      s2 := if TEMP_FEATURE t SENSORS_SUBFEATURE_TEMP_CRIT_HYST then some "hyst" else none
      alarm :=
        if TEMP_FEATURE t SENSORS_SUBFEATURE_TEMP_CRIT_ALARM &&
            truthy (TEMP_FEATURE_VAL t SENSORS_SUBFEATURE_TEMP_CRIT_ALARM)
        then true else alarm
      crit_displayed := true }
  else
    { limit1 := 0, limit2 := 0, s1 := none, s2 := none, alarm := alarm,
      crit_displayed := false }

/-- The primary reading of `print_chip_temp` (lines 225-232). -/
def temp_primary (env : Env) (t : Table) : List Chunk :=
  let val := TEMP_FEATURE_VAL t SENSORS_SUBFEATURE_TEMP_INPUT
  if TEMP_FEATURE t SENSORS_SUBFEATURE_TEMP_FAULT &&
      truthy (TEMP_FEATURE_VAL t SENSORS_SUBFEATURE_TEMP_FAULT) then
    [.lit "   FAULT  "]
  else
    let val := if env.fahrenheit then deg_ctof val else val
    [.flt true 6 1 val, .str env.degstr, .lit "  "]

/-- The second line of `print_chip_temp` (lines 235-252). -/
def temp_crit_line (env : Env) (label_size : Int) (t : Table) (crit_displayed : Bool) :
    List Chunk :=
  if !crit_displayed && TEMP_FEATURE t SENSORS_SUBFEATURE_TEMP_CRIT then
    let limit1 := TEMP_FEATURE_VAL t SENSORS_SUBFEATURE_TEMP_CRIT
    let s1 : Option String := some "crit"
    let limit2 :=
      if TEMP_FEATURE t SENSORS_SUBFEATURE_TEMP_CRIT_HYST
      then TEMP_FEATURE_VAL t SENSORS_SUBFEATURE_TEMP_CRIT_HYST else 0
    let s2 : Option String :=
      if TEMP_FEATURE t SENSORS_SUBFEATURE_TEMP_CRIT_HYST then some "hyst" else none
    let alarm := TEMP_FEATURE t SENSORS_SUBFEATURE_TEMP_CRIT_ALARM &&
      truthy (TEMP_FEATURE_VAL t SENSORS_SUBFEATURE_TEMP_CRIT_ALARM)
    [.lit "\n", .strw (label_size + 10) ""] ++ print_temp_limits env limit1 limit2 s1 s2 alarm
  else []

/-- The name of sensor type `sens` (lines 263-269). -/
def sensor_type_name (sens : Int) : String :=
  if sens = 0 then "disabled"
  else if sens = 1 then "diode"
  else if sens = 2 then "transistor"
  else if sens = 3 then "thermal diode"
  else if sens = 4 then "thermistor"
  else if sens = 5 then "AMD AMDSI"
  else if sens = 6 then "Intel PECI"
  else "unknown"

/-- The sensor type of `print_chip_temp` (lines 254-270). -/
def temp_sensor (t : Table) : List Chunk :=
  if TEMP_FEATURE t SENSORS_SUBFEATURE_TEMP_TYPE then
    let sens := c_int (TEMP_FEATURE_VAL t SENSORS_SUBFEATURE_TEMP_TYPE)
    let sens := if sens > 1000 then 4 else sens
    [.lit "sensor = ", .str (sensor_type_name sens)]
  else []

/-- The limit block of the first line (line 233): `print_temp_limits` applied to the locals
that the limit selection has set. -/
def temp_first_block (env : Env) (t : Table) : List Chunk :=
  let l := temp_limits t
  print_temp_limits env l.limit1 l.limit2 l.s1 l.s2 l.alarm

/-- What `print_chip_temp` prints once the arrays are filled (lines 163-271), as a function
of the label and of the arrays `t`. -/
def print_chip_temp_body (env : Env) (label : String) (label_size : Int) (t : Table) :
    List Chunk :=
  print_label label label_size
    ++ temp_primary env t
    ++ temp_first_block env t
    ++ temp_crit_line env label_size t (temp_limits t).crit_displayed
    ++ temp_sensor t
    ++ [.lit "\n"]

/-- The call of `sensors_get_available_features` in `print_chip_temp` (lines 160-162), on the
freshly initialised arrays: the diagnostics and the filled arrays. -/
def temp_collect (env : Env) (name : sensors_chip_name) (feature : sensors_feature) :
    List Chunk × Table :=
  sensors_get_available_features env name feature Table.init
    (SENSORS_SUBFEATURE_TEMP_TYPE - SENSORS_SUBFEATURE_TEMP_INPUT + 1)
    SENSORS_SUBFEATURE_TEMP_INPUT

/-- `print_chip_temp` (lines 143-272). -/
def print_chip_temp (env : Env) (name : sensors_chip_name) (feature : sensors_feature)
    (label_size : Int) : List Chunk :=
  match sensors_get_label name feature with
  | none => [.lit "ERROR: Can\x27t get temperature label!\n"]
  | some label =>
    (temp_collect env name feature).1
      ++ print_chip_temp_body env label label_size (temp_collect env name feature).2

/-- `IN_FEATURE(x)` (line 274). -/
def IN_FEATURE (t : Table) (x : Int) : Bool :=
  t.has_features (x - SENSORS_SUBFEATURE_IN_INPUT)

/-- `IN_FEATURE_VAL(x)` (line 275). -/
def IN_FEATURE_VAL (t : Table) (x : Int) : ℚ :=
  t.feature_vals (x - SENSORS_SUBFEATURE_IN_INPUT)

/-- The limit block of `print_chip_in` (lines 300-310). -/
def in_limits (t : Table) : List Chunk :=
  if IN_FEATURE t SENSORS_SUBFEATURE_IN_MIN && IN_FEATURE t SENSORS_SUBFEATURE_IN_MAX then
    [.lit "  (min = ", .flt true 6 2 (IN_FEATURE_VAL t SENSORS_SUBFEATURE_IN_MIN),
     .lit " V, max = ", .flt true 6 2 (IN_FEATURE_VAL t SENSORS_SUBFEATURE_IN_MAX), .lit " V)"]
  else if IN_FEATURE t SENSORS_SUBFEATURE_IN_MIN then
    [.lit "  (min = ", .flt true 6 2 (IN_FEATURE_VAL t SENSORS_SUBFEATURE_IN_MIN), .lit " V)"]
  else if IN_FEATURE t SENSORS_SUBFEATURE_IN_MAX then
    [.lit "  (max = ", .flt true 6 2 (IN_FEATURE_VAL t SENSORS_SUBFEATURE_IN_MAX), .lit " V)"]
  else []

/-- The alarm tag of `print_chip_in` (lines 312-330). -/
def in_alarms (t : Table) : List Chunk :=
  if IN_FEATURE t SENSORS_SUBFEATURE_IN_MAX_ALARM ||
      IN_FEATURE t SENSORS_SUBFEATURE_IN_MIN_ALARM then
    let alarm_max := IN_FEATURE_VAL t SENSORS_SUBFEATURE_IN_MAX_ALARM
    let alarm_min := IN_FEATURE_VAL t SENSORS_SUBFEATURE_IN_MIN_ALARM
    if truthy alarm_min || truthy alarm_max then
      [.lit " ALARM ("]
        ++ (if truthy alarm_min then [.lit "MIN"] else [])
        ++ (if truthy alarm_max then
              [.str (if truthy alarm_min then ", " else ""), .lit "MAX"] else [])
        ++ [.lit ")"]
    else []
  else if IN_FEATURE t SENSORS_SUBFEATURE_IN_ALARM then
    [.lit "   ",
     .str (if truthy (IN_FEATURE_VAL t SENSORS_SUBFEATURE_IN_ALARM) then "ALARM" else "")]
  else []

/-- What `print_chip_in` prints once the arrays are filled (lines 294-332). -/
def print_chip_in_body (label : String) (label_size : Int) (t : Table) : List Chunk :=
  let val := IN_FEATURE_VAL t SENSORS_SUBFEATURE_IN_INPUT
  print_label label label_size
    ++ [.flt true 6 2 val, .lit " V"]
    ++ in_limits t
    ++ in_alarms t
    ++ [.lit "\n"]

/-- The call of `sensors_get_available_features` in `print_chip_in` (lines 291-293). -/
def in_collect (env : Env) (name : sensors_chip_name) (feature : sensors_feature) :
    List Chunk × Table :=
  sensors_get_available_features env name feature Table.init
    (SENSORS_SUBFEATURE_IN_MAX_ALARM - SENSORS_SUBFEATURE_IN_INPUT + 1)
    SENSORS_SUBFEATURE_IN_INPUT

/-- `print_chip_in` (lines 276-333). -/
def print_chip_in (env : Env) (name : sensors_chip_name) (feature : sensors_feature)
    (label_size : Int) : List Chunk :=
  match sensors_get_label name feature with
  | none => [.lit "ERROR: Can\x27t get in label!\n"]
  | some label =>
    (in_collect env name feature).1
      ++ print_chip_in_body label label_size (in_collect env name feature).2

/-- `FAN_FEATURE(x)` (line 335). -/
def FAN_FEATURE (t : Table) (x : Int) : Bool :=
  t.has_features (x - SENSORS_SUBFEATURE_FAN_INPUT)

/-- `FAN_FEATURE_VAL(x)` (line 336). -/
def FAN_FEATURE_VAL (t : Table) (x : Int) : ℚ :=
  t.feature_vals (x - SENSORS_SUBFEATURE_FAN_INPUT)

/-- What `print_chip_fan` prints once the arrays are filled (lines 358-383); the label is
already out by then. -/
def print_chip_fan_body (t : Table) : List Chunk :=
  let val := FAN_FEATURE_VAL t SENSORS_SUBFEATURE_FAN_INPUT
  (if FAN_FEATURE t SENSORS_SUBFEATURE_FAN_FAULT &&
      truthy (FAN_FEATURE_VAL t SENSORS_SUBFEATURE_FAN_FAULT) then
    [.lit "   FAULT"]
  else
    [.flt false 4 0 val, .lit " RPM"])
  ++ (if FAN_FEATURE t SENSORS_SUBFEATURE_FAN_MIN &&
        FAN_FEATURE t SENSORS_SUBFEATURE_FAN_DIV then
      [.lit "  (min = ", .flt false 4 0 (FAN_FEATURE_VAL t SENSORS_SUBFEATURE_FAN_MIN),
       .lit " RPM, div = ", .flt false 1 0 (FAN_FEATURE_VAL t SENSORS_SUBFEATURE_FAN_DIV),
       .lit ")"]
    else if FAN_FEATURE t SENSORS_SUBFEATURE_FAN_MIN then
      [.lit "  (min = ", .flt false 4 0 (FAN_FEATURE_VAL t SENSORS_SUBFEATURE_FAN_MIN),
       .lit " RPM)"]
    else if FAN_FEATURE t SENSORS_SUBFEATURE_FAN_DIV then
      [.lit "  (div = ", .flt false 1 0 (FAN_FEATURE_VAL t SENSORS_SUBFEATURE_FAN_DIV),
       .lit ")"]
    else [])
  ++ (if FAN_FEATURE t SENSORS_SUBFEATURE_FAN_ALARM &&
        truthy (FAN_FEATURE_VAL t SENSORS_SUBFEATURE_FAN_ALARM) then
      [.lit "  ALARM"]
    else [])
  ++ [.lit "\n"]

/-- The call of `sensors_get_available_features` in `print_chip_fan` (lines 355-357). -/
def fan_collect (env : Env) (name : sensors_chip_name) (feature : sensors_feature) :
    List Chunk × Table :=
  sensors_get_available_features env name feature Table.init
    (SENSORS_SUBFEATURE_FAN_DIV - SENSORS_SUBFEATURE_FAN_INPUT + 1)
    SENSORS_SUBFEATURE_FAN_INPUT

/-- `print_chip_fan` (lines 337-384). -/
def print_chip_fan (env : Env) (name : sensors_chip_name) (feature : sensors_feature)
    (label_size : Int) : List Chunk :=
  match sensors_get_label name feature with
  | none => [.lit "ERROR: Can\x27t get fan label!\n"]
  | some label =>
    print_label label label_size
      ++ (fan_collect env name feature).1
      ++ print_chip_fan_body (fan_collect env name feature).2

/-- `print_chip_vid` (lines 386-405). -/
def print_chip_vid (name : sensors_chip_name) (feature : sensors_feature)
    (label_size : Int) : List Chunk :=
  match feature.subfeatures.head? with
  | none => []
  | some subfeature =>
    match sensors_get_label name feature with
    | none => []
    | some label =>
      match sensors_get_value name subfeature.number with
      | .error _ => []
      | .ok vid => print_label label label_size ++ [.flt true 6 3 vid, .lit " V\n"]

/-- `print_chip_beep_enable` (lines 407-426). -/
def print_chip_beep_enable (name : sensors_chip_name) (feature : sensors_feature)
    (label_size : Int) : List Chunk :=
  match feature.subfeatures.head? with
  | none => []
  | some subfeature =>
    match sensors_get_label name feature with
    | none => []
    | some label =>
      match sensors_get_value name subfeature.number with
      | .error _ => []
      | .ok beep_enable =>
        print_label label label_size
          ++ [.str (if truthy beep_enable then "enabled" else "disabled"), .lit "\n"]

/-- The `switch` of `print_chip` (lines 437-455) for one feature. -/
def print_feature (env : Env) (name : sensors_chip_name) (label_size : Int)
    (feature : sensors_feature) : List Chunk :=
  if feature.type = SENSORS_SUBFEATURE_TEMP_INPUT then print_chip_temp env name feature label_size
  else if feature.type = SENSORS_SUBFEATURE_IN_INPUT then print_chip_in env name feature label_size
  else if feature.type = SENSORS_SUBFEATURE_FAN_INPUT then
    print_chip_fan env name feature label_size
  else if feature.type = SENSORS_SUBFEATURE_VID then print_chip_vid name feature label_size
  else if feature.type = SENSORS_SUBFEATURE_BEEP_ENABLE then
    print_chip_beep_enable name feature label_size
  else []

/-- `print_chip` (lines 428-457). -/
def print_chip (env : Env) (name : sensors_chip_name) : List Chunk :=
  let label_size := sensors_get_label_size name
  name.features.foldl (fun out feature => out ++ print_feature env name label_size feature) []

/-- The primary reading of `print_chip_fan` (lines 360-364). -/
def fan_primary (t : Table) : List Chunk :=
  let val := FAN_FEATURE_VAL t SENSORS_SUBFEATURE_FAN_INPUT
  if FAN_FEATURE t SENSORS_SUBFEATURE_FAN_FAULT &&
      truthy (FAN_FEATURE_VAL t SENSORS_SUBFEATURE_FAN_FAULT) then
    [.lit "   FAULT"]
  else
    [.flt false 4 0 val, .lit " RPM"]

/-- The limit annotation, the alarm tag and the newline of `print_chip_fan` (lines 366-383). -/
def fan_rest (t : Table) : List Chunk :=
  (if FAN_FEATURE t SENSORS_SUBFEATURE_FAN_MIN &&
        FAN_FEATURE t SENSORS_SUBFEATURE_FAN_DIV then
      [.lit "  (min = ", .flt false 4 0 (FAN_FEATURE_VAL t SENSORS_SUBFEATURE_FAN_MIN),
       .lit " RPM, div = ", .flt false 1 0 (FAN_FEATURE_VAL t SENSORS_SUBFEATURE_FAN_DIV),
       .lit ")"]
    else if FAN_FEATURE t SENSORS_SUBFEATURE_FAN_MIN then
      [.lit "  (min = ", .flt false 4 0 (FAN_FEATURE_VAL t SENSORS_SUBFEATURE_FAN_MIN),
       .lit " RPM)"]
    else if FAN_FEATURE t SENSORS_SUBFEATURE_FAN_DIV then
      [.lit "  (div = ", .flt false 1 0 (FAN_FEATURE_VAL t SENSORS_SUBFEATURE_FAN_DIV),
       .lit ")"]
    else [])
  ++ (if FAN_FEATURE t SENSORS_SUBFEATURE_FAN_ALARM &&
        truthy (FAN_FEATURE_VAL t SENSORS_SUBFEATURE_FAN_ALARM) then
      [.lit "  ALARM"]
    else [])
  ++ [.lit "\n"]

/-- Modelled from the spec: the capability flag `SENSORS_MODE_R` ("readable") of
`lib/sensors.h`, which is not part of the sources at hand. -/
def SENSORS_MODE_R : Nat := 1

/-- One turn of the inner loop of `print_chip_raw` (lines 50-57), for the subfeature `sub`.
Line 57 prints `label` after line 46 has freed it; `freed` is the text that is read there. -/
def print_raw_subfeature (name : sensors_chip_name) (freed : String)
    (sub : sensors_subfeature) : List Chunk :=
  if sub.flags &&& SENSORS_MODE_R ≠ 0 then
    match sensors_get_value name sub.number with
    | .error _ =>
      [.lit "ERROR: Can\x27t get feature \x60", .str sub.name, .lit "\x27 data!\n"]
    | .ok val => [.lit "  ", .str sub.name, .lit ": ", .flt false 0 2 val, .lit "\n"]
  else [.lit "(", .str freed, .lit ")\n"]

/-- One turn of the outer loop of `print_chip_raw` (lines 41-58), for the feature `feature`;
`freed label` is the text read from the freed buffer of `label`. -/
def print_raw_feature (name : sensors_chip_name) (freed : String → String)
    (feature : sensors_feature) : List Chunk :=
  match sensors_get_label name feature with
  | none => [.lit "ERROR: Can\x27t get feature label!\n"]
  | some label =>
    [.str label, .lit ":\n"]
      ++ feature.subfeatures.foldl
          (fun out sub => out ++ print_raw_subfeature name (freed label) sub) []

/-- `print_chip_raw` (lines 31-60). -/
def print_chip_raw (name : sensors_chip_name) (freed : String → String) : List Chunk :=
  name.features.foldl (fun out feature => out ++ print_raw_feature name freed feature) []

/-! ## Definitions used to state the properties -/

/-- Lengths of the labels that are fetched successfully, in enumeration order. -/
def label_lengths (name : sensors_chip_name) : List Nat :=
  name.features.filterMap (fun f => (sensors_get_label name f).map String.length)

/-- Whether the value read of subfeature `sub` succeeds. -/
def read_ok (name : sensors_chip_name) (sub : sensors_subfeature) : Bool :=
  match sensors_get_value name sub.number with
  | .ok _ => true
  | .error _ => false

/-- Whether the role of `sub` lies in the range `[first_val, first_val + size - 1]`. -/
def in_range (size first_val : Int) (sub : sensors_subfeature) : Bool :=
  decide (0 ≤ sub.type - first_val ∧ sub.type - first_val < size)

/-- The number shown for the collected temperature `v`: converted when the Fahrenheit flag is
set, raw otherwise. -/
def temp_shown (env : Env) (v : ℚ) : ℚ := if env.fahrenheit then deg_ctof v else v

/-- A paired limit block: the limit named `n1` showing `v1` and the limit named `n2` showing
`v2`. -/
def limit_pair (env : Env) (n1 : String) (v1 : ℚ) (n2 : String) (v2 : ℚ) : List Chunk :=
  [.lit "(", .strw (-4) n1, .lit " = ", .flt true 5 1 (temp_shown env v1), .str env.degstr,
   .lit ", ", .strw (-4) n2, .lit " = ", .flt true 5 1 (temp_shown env v2), .str env.degstr,
   .lit ")  "]

/-- A limit block with the single limit named `n1` showing `v1`. -/
def limit_single (env : Env) (n1 : String) (v1 : ℚ) : List Chunk :=
  [.lit "(", .strw (-4) n1, .lit " = ", .flt true 5 1 (temp_shown env v1), .str env.degstr,
   .lit ")                  "]

/-- The blank filler that stands for an absent limit block. -/
def limit_blank : List Chunk := [.lit "                                  "]

/-- The alarm tag that follows a temperature limit block. -/
def alarm_tag (alarm : Bool) : List Chunk := if alarm then [.lit "ALARM  "] else []

/-- The first-line limit block as the specification describes it: seven cases, each under its
full condition on the presence flags.  The conditions are exhaustive, so the final `[]` never
arises. -/
def claimed_first_block (env : Env) (t : Table) : List Chunk :=
  let max := TEMP_FEATURE t SENSORS_SUBFEATURE_TEMP_MAX
  let min := TEMP_FEATURE t SENSORS_SUBFEATURE_TEMP_MIN
  let max_hyst := TEMP_FEATURE t SENSORS_SUBFEATURE_TEMP_MAX_HYST
  let crit := TEMP_FEATURE t SENSORS_SUBFEATURE_TEMP_CRIT
  let crit_hyst := TEMP_FEATURE t SENSORS_SUBFEATURE_TEMP_CRIT_HYST
  if max && min then
    limit_pair env "low" (TEMP_FEATURE_VAL t SENSORS_SUBFEATURE_TEMP_MIN)
      "high" (TEMP_FEATURE_VAL t SENSORS_SUBFEATURE_TEMP_MAX)
  else if max && !min && max_hyst then
    limit_pair env "high" (TEMP_FEATURE_VAL t SENSORS_SUBFEATURE_TEMP_MAX)
      "hyst" (TEMP_FEATURE_VAL t SENSORS_SUBFEATURE_TEMP_MAX_HYST)
  else if max && !min && !max_hyst && crit then
    limit_pair env "high" (TEMP_FEATURE_VAL t SENSORS_SUBFEATURE_TEMP_MAX)
      "crit" (TEMP_FEATURE_VAL t SENSORS_SUBFEATURE_TEMP_CRIT)
  else if max && !min && !max_hyst && !crit then
    limit_single env "high" (TEMP_FEATURE_VAL t SENSORS_SUBFEATURE_TEMP_MAX)
  else if !max && crit && crit_hyst then
    limit_pair env "crit" (TEMP_FEATURE_VAL t SENSORS_SUBFEATURE_TEMP_CRIT)
      "hyst" (TEMP_FEATURE_VAL t SENSORS_SUBFEATURE_TEMP_CRIT_HYST)
  else if !max && crit && !crit_hyst then
    limit_single env "crit" (TEMP_FEATURE_VAL t SENSORS_SUBFEATURE_TEMP_CRIT)
  else if !max && !crit then
    limit_blank
  else []

/-! ### Sample inputs -/

/-- A Celsius environment. -/
def sample_env : Env := ⟨false, "°C", fun _ => "read error"⟩

/-- A Fahrenheit environment. -/
def sample_env_f : Env := ⟨true, "°F", fun _ => "read error"⟩

/-- Values of a sample chip, by subfeature number; number 9 cannot be read. -/
def sample_value (nr : Int) : Except Int ℚ :=
  if nr = 1 then .ok 25 else if nr = 2 then .ok 60 else if nr = 3 then .ok 10
  else if nr = 4 then .ok 90 else if nr = 5 then .ok 4 else if nr = 9 then .error (-5)
  else .ok 0

/-- A temperature feature with an input, a high, a low and a critical limit. -/
def sample_temp : sensors_feature :=
  { name := "temp1", number := 0, type := SENSORS_SUBFEATURE_TEMP_INPUT, label := some "temp1",
    subfeatures :=
      [⟨"temp1_input", 1, SENSORS_SUBFEATURE_TEMP_INPUT, 1⟩,
       ⟨"temp1_max", 2, SENSORS_SUBFEATURE_TEMP_MAX, 3⟩,
       ⟨"temp1_min", 3, SENSORS_SUBFEATURE_TEMP_MIN, 3⟩,
       ⟨"temp1_crit", 4, SENSORS_SUBFEATURE_TEMP_CRIT, 1⟩] }

/-- A voltage feature whose label is `in0`. -/
def sample_in : sensors_feature :=
  { name := "in0", number := 8, type := SENSORS_SUBFEATURE_IN_INPUT, label := some "in0",
    subfeatures :=
      [⟨"in0_input", 5, SENSORS_SUBFEATURE_IN_INPUT, 1⟩,
       ⟨"in0_min", 3, SENSORS_SUBFEATURE_IN_MIN, 3⟩] }

/-- A chip with the two sample features. -/
def sample_chip : sensors_chip_name := ⟨[sample_in, sample_temp], sample_value⟩

/-- The sensor-type name as the specification describes it, for the truncated code `c`; each
case stands under its full condition, and the final `""` never arises. -/
def claimed_sensor_name (c : Int) : String :=
  if c > 1000 then "thermistor"
  else if c = 0 then "disabled"
  else if c = 1 then "diode"
  else if c = 2 then "transistor"
  else if c = 3 then "thermal diode"
  else if c = 4 then "thermistor"
  else if c = 5 then "AMD AMDSI"
  else if c = 6 then "Intel PECI"
  else if c < 0 ∨ (7 ≤ c ∧ c ≤ 1000) then "unknown"
  else ""

/-- The literal texts among the chunks of an output, in order. -/
def lits : List Chunk → List String
  | [] => []
  | .lit s :: out => s :: lits out
  | _ :: out => lits out

/-- A temperature feature with a sensor type of 3435 (a thermistor beta value). -/
def sample_temp_type : sensors_feature :=
  { name := "temp2", number := 20, type := SENSORS_SUBFEATURE_TEMP_INPUT, label := some "temp2",
    subfeatures :=
      [⟨"temp2_input", 1, SENSORS_SUBFEATURE_TEMP_INPUT, 1⟩,
       ⟨"temp2_type", 21, SENSORS_SUBFEATURE_TEMP_TYPE, 3⟩] }

/-- Values of a second sample chip, by subfeature number. -/
def sample_value2 (nr : Int) : Except Int ℚ :=
  if nr = 1 then .ok 25 else if nr = 21 then .ok 3435 else .error (-5)

/-- A chip with the feature `sample_temp_type`. -/
def sample_chip2 : sensors_chip_name := ⟨[sample_temp_type], sample_value2⟩

/-- Whether the list `s` begins with the list `t`. -/
def starts_with : List Char → List Char → Bool
  | [], _ => true
  | _ :: _, [] => false
  | a :: t, b :: s => decide (a = b) && starts_with t s

/-- Whether `t` occurs in `s` as a run of consecutive characters. -/
def occurs (t : List Char) : List Char → Bool
  | [] => starts_with t []
  | c :: s => starts_with t (c :: s) || occurs t s

/-- The text `s` contains the text `t`. -/
def contains_text (s t : String) : Prop := ∃ pre post : String, s = pre ++ t ++ post

/-- The voltage limit block as the specification describes it; the four conditions are
exhaustive, so the final `[]` never arises. -/
def claimed_in_limits (t : Table) : List Chunk :=
  let min := IN_FEATURE t SENSORS_SUBFEATURE_IN_MIN
  let max := IN_FEATURE t SENSORS_SUBFEATURE_IN_MAX
  if min && max then
    [.lit "  (min = ", .flt true 6 2 (IN_FEATURE_VAL t SENSORS_SUBFEATURE_IN_MIN),
     .lit " V, max = ", .flt true 6 2 (IN_FEATURE_VAL t SENSORS_SUBFEATURE_IN_MAX), .lit " V)"]
  else if min && !max then
    [.lit "  (min = ", .flt true 6 2 (IN_FEATURE_VAL t SENSORS_SUBFEATURE_IN_MIN), .lit " V)"]
  else if !min && max then
    [.lit "  (max = ", .flt true 6 2 (IN_FEATURE_VAL t SENSORS_SUBFEATURE_IN_MAX), .lit " V)"]
  else if !min && !max then []
  else []

/-- A chip whose features are labelled `in0` and `temp1 (crit)`. -/
def sample_chip_labels : sensors_chip_name :=
  ⟨[sample_in, { sample_temp with label := some "temp1 (crit)" }], sample_value⟩

/-- A temperature feature one of whose subfeatures (number 9) cannot be read and one of whose
subfeatures has a role outside the temperature range. -/
def sample_temp_fail : sensors_feature :=
  { name := "temp3", number := 30, type := SENSORS_SUBFEATURE_TEMP_INPUT, label := some "temp3",
    subfeatures :=
      [⟨"temp3_input", 1, SENSORS_SUBFEATURE_TEMP_INPUT, 1⟩,
       ⟨"temp3_min", 9, SENSORS_SUBFEATURE_TEMP_MIN, 3⟩,
       ⟨"temp3_new", 4, SENSORS_SUBFEATURE_TEMP_TYPE + 1, 1⟩,
       ⟨"temp3_max", 2, SENSORS_SUBFEATURE_TEMP_MAX, 3⟩] }

/-- The limit entry that begins at chunk `c` of an output, `out` being the chunks after `c`:
a run `%-4s`, the text ` = `, `%f` is the entry (name, number shown). -/
def entry_at : Chunk → List Chunk → Option (String × ℚ)
  | .strw _ n, .lit s :: out =>
    if s = " = " then
      match out with
      | .flt _ _ _ v :: _ => some (n, v)
      | _ => none
    else none
  | _, _ => none

/-- The limit entries of an output, in order. -/
def limit_entries : List Chunk → List (String × ℚ)
  | [] => []
  | c :: out => (entry_at c out).toList ++ limit_entries out

/-- The limit entries labelled `crit`. -/
def crit_entries (out : List Chunk) : List (String × ℚ) :=
  (limit_entries out).filter (fun e => decide (e.1 = "crit"))

/-- Number of newline characters in a text. -/
def nl_count (s : String) : Nat := s.data.count '\n'

/-- Number of newline characters that the format strings themselves put into an output. -/
def lit_newlines (out : List Chunk) : Nat := ((lits out).map nl_count).sum

/-- The second-line block as the specification describes it: `(crit, hyst)` when the
critical-hysteresis role is present, `(crit)` alone otherwise. -/
def claimed_crit_block (env : Env) (t : Table) : List Chunk :=
  if TEMP_FEATURE t SENSORS_SUBFEATURE_TEMP_CRIT_HYST then
    limit_pair env "crit" (TEMP_FEATURE_VAL t SENSORS_SUBFEATURE_TEMP_CRIT)
      "hyst" (TEMP_FEATURE_VAL t SENSORS_SUBFEATURE_TEMP_CRIT_HYST)
  else
    limit_single env "crit" (TEMP_FEATURE_VAL t SENSORS_SUBFEATURE_TEMP_CRIT)

/-- The condition under which the specification expects a second line: the critical limit is
present, and so is the high limit together with the low limit or the high hysteresis. -/
def claimed_two_lines (t : Table) : Bool :=
  TEMP_FEATURE t SENSORS_SUBFEATURE_TEMP_CRIT &&
    (TEMP_FEATURE t SENSORS_SUBFEATURE_TEMP_MAX &&
      (TEMP_FEATURE t SENSORS_SUBFEATURE_TEMP_MIN ||
        TEMP_FEATURE t SENSORS_SUBFEATURE_TEMP_MAX_HYST))

/-- The flag of role `x` of a temperature feature is set: the role is present and its value is
not zero. -/
def temp_flag_set (t : Table) (x : Int) : Bool :=
  TEMP_FEATURE t x && truthy (TEMP_FEATURE_VAL t x)

/-- The numbers shown in an output, in order: the arguments of its `%f` conversions. -/
def flts : List Chunk → List ℚ
  | [] => []
  | .flt _ _ _ v :: out => v :: flts out
  | _ :: out => flts out

/-- The text of the voltage alarm tag as the specification describes it, from the truth of
the min-alarm and of the max-alarm value. -/
def claimed_in_alarm_text (alarm_min alarm_max : Bool) : String :=
  if alarm_min && alarm_max then " ALARM (MIN, MAX)"
  else if alarm_min && !alarm_max then " ALARM (MIN)"
  else if !alarm_min && alarm_max then " ALARM (MAX)"
  else ""

/-- A voltage feature with the combined alarm role alone, its value being 0. -/
def sample_in_combined : sensors_feature :=
  { name := "in1", number := 40, type := SENSORS_SUBFEATURE_IN_INPUT, label := some "in1",
    subfeatures :=
      [⟨"in1_input", 5, SENSORS_SUBFEATURE_IN_INPUT, 1⟩,
       ⟨"in1_alarm", 41, SENSORS_SUBFEATURE_IN_ALARM, 1⟩] }

/-- A voltage feature with the combined alarm (value 60), the min-alarm (value 0) and the
max-alarm (value 25). -/
def sample_in_alarms : sensors_feature :=
  { name := "in2", number := 50, type := SENSORS_SUBFEATURE_IN_INPUT, label := some "in2",
    subfeatures :=
      [⟨"in2_input", 5, SENSORS_SUBFEATURE_IN_INPUT, 1⟩,
       ⟨"in2_alarm", 2, SENSORS_SUBFEATURE_IN_ALARM, 1⟩,
       ⟨"in2_min_alarm", 51, SENSORS_SUBFEATURE_IN_MIN_ALARM, 1⟩,
       ⟨"in2_max_alarm", 1, SENSORS_SUBFEATURE_IN_MAX_ALARM, 1⟩] }

/-- A fan feature whose fault role is present and non-zero, next to an input of 25. -/
def sample_fan_fault : sensors_feature :=
  { name := "fan1", number := 60, type := SENSORS_SUBFEATURE_FAN_INPUT, label := some "fan1",
    subfeatures :=
      [⟨"fan1_input", 1, SENSORS_SUBFEATURE_FAN_INPUT, 1⟩,
       ⟨"fan1_fault", 2, SENSORS_SUBFEATURE_FAN_FAULT, 1⟩] }

/-- The alarm of the first line as the specification describes it. -/
def claimed_first_alarm (t : Table) : Bool :=
  temp_flag_set t SENSORS_SUBFEATURE_TEMP_ALARM
  || (TEMP_FEATURE t SENSORS_SUBFEATURE_TEMP_MAX &&
        temp_flag_set t SENSORS_SUBFEATURE_TEMP_MAX_ALARM)
  || (TEMP_FEATURE t SENSORS_SUBFEATURE_TEMP_MAX && TEMP_FEATURE t SENSORS_SUBFEATURE_TEMP_MIN &&
        temp_flag_set t SENSORS_SUBFEATURE_TEMP_MIN_ALARM)
  || (((TEMP_FEATURE t SENSORS_SUBFEATURE_TEMP_MAX &&
          !TEMP_FEATURE t SENSORS_SUBFEATURE_TEMP_MIN &&
          !TEMP_FEATURE t SENSORS_SUBFEATURE_TEMP_MAX_HYST &&
          TEMP_FEATURE t SENSORS_SUBFEATURE_TEMP_CRIT)
        || (!TEMP_FEATURE t SENSORS_SUBFEATURE_TEMP_MAX &&
              TEMP_FEATURE t SENSORS_SUBFEATURE_TEMP_CRIT))
      && temp_flag_set t SENSORS_SUBFEATURE_TEMP_CRIT_ALARM)

/-- A temperature feature with a high, a low and a critical limit, whose min-alarm is set
(value 25) and whose crit-alarm is clear (value 0). -/
def sample_temp_alarm : sensors_feature :=
  { name := "temp4", number := 70, type := SENSORS_SUBFEATURE_TEMP_INPUT, label := some "temp4",
    subfeatures :=
      [⟨"temp4_input", 1, SENSORS_SUBFEATURE_TEMP_INPUT, 1⟩,
       ⟨"temp4_max", 2, SENSORS_SUBFEATURE_TEMP_MAX, 3⟩,
       ⟨"temp4_min", 3, SENSORS_SUBFEATURE_TEMP_MIN, 3⟩,
       ⟨"temp4_crit", 4, SENSORS_SUBFEATURE_TEMP_CRIT, 1⟩,
       ⟨"temp4_min_alarm", 1, SENSORS_SUBFEATURE_TEMP_MIN_ALARM, 1⟩,
       ⟨"temp4_crit_alarm", 71, SENSORS_SUBFEATURE_TEMP_CRIT_ALARM, 1⟩] }

/-- A feature whose label cannot be fetched. -/
def sample_no_label : sensors_feature :=
  { name := "temp5", number := 80, type := SENSORS_SUBFEATURE_TEMP_INPUT, label := none,
    subfeatures :=
      [⟨"temp5_input", 1, SENSORS_SUBFEATURE_TEMP_INPUT, 1⟩,
       ⟨"temp5_max", 9, SENSORS_SUBFEATURE_TEMP_MAX, 3⟩] }

/-- A voltage-identification feature with one readable subfeature (value 4). -/
def sample_vid : sensors_feature :=
  { name := "cpu0_vid", number := 90, type := SENSORS_SUBFEATURE_VID, label := some "vid",
    subfeatures := [⟨"cpu0_vid", 5, SENSORS_SUBFEATURE_VID, 1⟩] }

/-- A voltage-identification feature whose subfeature (number 9) cannot be read. -/
def sample_vid_fail : sensors_feature :=
  { name := "cpu1_vid", number := 91, type := SENSORS_SUBFEATURE_VID, label := some "vid1",
    subfeatures := [⟨"cpu1_vid", 9, SENSORS_SUBFEATURE_VID, 1⟩] }

/-- The outputs `outs`, one after the other. -/
def concat_outputs : List (List Chunk) → List Chunk
  | [] => []
  | out :: outs => out ++ concat_outputs outs

/-- Whether the kind of `feature` is one of the five that `print_chip` renders. -/
def known_kind (feature : sensors_feature) : Bool :=
  decide (feature.type = SENSORS_SUBFEATURE_TEMP_INPUT
    ∨ feature.type = SENSORS_SUBFEATURE_IN_INPUT
    ∨ feature.type = SENSORS_SUBFEATURE_FAN_INPUT
    ∨ feature.type = SENSORS_SUBFEATURE_VID
    ∨ feature.type = SENSORS_SUBFEATURE_BEEP_ENABLE)

/-- A feature of a kind that `print_chip` does not know, with a long label. -/
def sample_other_kind : sensors_feature :=
  { name := "power1", number := 95, type := 1280, label := some "a label of some length",
    subfeatures := [⟨"power1_input", 9, 1280, 1⟩] }

/-- A chip with a feature of unknown kind between two known ones. -/
def sample_chip_mixed : sensors_chip_name :=
  ⟨[sample_in, sample_other_kind, sample_vid], sample_value⟩

/-- The chunks `line` stand in the output `out`, one after the other. -/
def within (line out : List Chunk) : Prop := ∃ pre post, out = pre ++ line ++ post

/-- Whether `sub` has the capability flag `SENSORS_MODE_R`. -/
def readable (sub : sensors_subfeature) : Bool := decide (sub.flags &&& SENSORS_MODE_R ≠ 0)

/-- A chip whose first feature has no label and whose second is `sample_in`. -/
def sample_chip_raw : sensors_chip_name := ⟨[sample_no_label, sample_in], sample_value⟩

/-- Values of a third sample chip: subfeature 1 reads 30.75 + 2^-21. -/
def sample_value3 (nr : Int) : Except Int ℚ :=
  if nr = 1 then .ok (mkRat 64487425 2097152) else .error (-5)

/-- A temperature feature with the input role alone. -/
def sample_temp_input : sensors_feature :=
  { name := "temp8", number := 100, type := SENSORS_SUBFEATURE_TEMP_INPUT,
    label := some "temp8",
    subfeatures := [⟨"temp8_input", 1, SENSORS_SUBFEATURE_TEMP_INPUT, 1⟩] }

/-- A chip with the feature `sample_temp_input`. -/
def sample_chip3 : sensors_chip_name := ⟨[sample_temp_input], sample_value3⟩

/-- The number `c` is the integer truncation of `v`: the integer nearest `v` among those
between zero and `v`. -/
def truncates (v : ℚ) (c : Int) : Prop :=
  (0 ≤ v → (c : ℚ) ≤ v ∧ v < (c : ℚ) + 1) ∧ (v ≤ 0 → v ≤ (c : ℚ) ∧ (c : ℚ) - 1 < v)

instance (v : ℚ) (c : Int) : Decidable (truncates v c) := by
  unfold truncates
  infer_instance

/-- A temperature feature with an input (subfeature 1) and a sensor type (subfeature `nr`). -/
def sample_typed (nr : Int) : sensors_feature :=
  { name := "temp3", number := 30, type := SENSORS_SUBFEATURE_TEMP_INPUT, label := some "temp3",
    subfeatures :=
      [⟨"temp3_input", 1, SENSORS_SUBFEATURE_TEMP_INPUT, 1⟩,
       ⟨"temp3_type", nr, SENSORS_SUBFEATURE_TEMP_TYPE, 1⟩] }

/-- Values of a chip with several sensor types, by subfeature number. -/
def sample_value4 (nr : Int) : Except Int ℚ :=
  if nr = 1 then .ok 25
  else if nr = 21 then .ok (mkRat 7 2)
  else if nr = 22 then .ok (mkRat (-1) 2)
  else if nr = 23 then .ok 3000000000
  else if nr = 24 then .ok (mkRat 2001 2)
  else if nr = 25 then .ok (mkRat (-7) 2)
  else if nr = 26 then .ok 3435
  else .error (-5)

/-- A chip whose features differ in the value of the sensor type. -/
def sample_chip4 : sensors_chip_name :=
  ⟨[sample_typed 21, sample_typed 22, sample_typed 23, sample_typed 24, sample_typed 25,
    sample_typed 26], sample_value4⟩

/-- A fan feature one of whose subfeatures (number 9) cannot be read. -/
def sample_fan_fail : sensors_feature :=
  { name := "fan2", number := 80, type := SENSORS_SUBFEATURE_FAN_INPUT, label := some "fan2",
    subfeatures :=
      [⟨"fan2_input", 1, SENSORS_SUBFEATURE_FAN_INPUT, 1⟩,
       ⟨"fan2_min", 9, SENSORS_SUBFEATURE_FAN_MIN, 3⟩] }

/-- A fan feature with a fault subfeature of number `nr`, after an input subfeature (number 1)
when `input` is set. -/
def sample_faulty_fan (input : Bool) (nr : Int) : sensors_feature :=
  { name := "fan3", number := 90, type := SENSORS_SUBFEATURE_FAN_INPUT, label := some "fan3",
    subfeatures :=
      (if input then [⟨"fan3_input", 1, SENSORS_SUBFEATURE_FAN_INPUT, 1⟩] else [])
        ++ [⟨"fan3_fault", nr, SENSORS_SUBFEATURE_FAN_FAULT, 1⟩] }

/-- A temperature feature with a fault subfeature of number `nr`, after an input subfeature
(number 1) when `input` is set. -/
def sample_faulty_temp (input : Bool) (nr : Int) : sensors_feature :=
  { name := "temp4", number := 91, type := SENSORS_SUBFEATURE_TEMP_INPUT, label := some "temp4",
    subfeatures :=
      (if input then [⟨"temp4_input", 1, SENSORS_SUBFEATURE_TEMP_INPUT, 1⟩] else [])
        ++ [⟨"temp4_fault", nr, SENSORS_SUBFEATURE_TEMP_FAULT, 1⟩] }

/-- The column that the text `s` leaves the output in: the number of characters written since
the last newline. -/
def column (s : String) : Nat :=
  (s.data.reverse.takeWhile (fun c => decide (c ≠ '\n'))).length

/-- A chip with a fan and a temperature feature, each with a subfeature that cannot be read. -/
def sample_chip_fail : sensors_chip_name := ⟨[sample_fan_fail, sample_temp_fail], sample_value⟩

/-! ## Properties -/

theorem label_size_loop (name : sensors_chip_name) (l : List sensors_feature) (acc : Nat) :
    l.foldl (fun (max_size : Nat) iter =>
        match sensors_get_label name iter with
        | some label => if label.length > max_size then label.length else max_size
        | none => max_size) acc
      = max acc ((l.filterMap
          (fun f => (sensors_get_label name f).map String.length)).foldr max 0) := by
  induction l generalizing acc with
  | nil => simp
  | cons f l ih =>
    rw [List.foldl_cons, ih]
    cases hl : sensors_get_label name f with
    | none => simp [List.filterMap_cons, hl]
    | some label =>
      simp only [List.filterMap_cons, hl, Option.map_some', List.foldr_cons]
      split <;> omega

theorem label_size_eq (name : sensors_chip_name) :
    sensors_get_label_size name
      = ((max 11 ((label_lengths name).foldr max 0) + 1 : Nat) : Int) := by
  unfold sensors_get_label_size label_lengths
  simp only [label_size_loop]

theorem foldr_max_le (l : List Nat) (b : Nat) (h : ∀ x ∈ l, x ≤ b) : l.foldr max 0 ≤ b := by
  induction l with
  | nil => simp
  | cons a l ih =>
    simp only [List.foldr_cons]
    have h1 := h a (by simp)
    have h2 := ih (fun x hx => h x (by simp [hx]))
    omega

/-- C7: `sensors_get_label_size` returns `max(11, m) + 1`, where `m` is the greatest length
among the labels that are fetched successfully (`0` when there is none).  Features whose label
fetch fails neither change the result nor stop the scan: the result is that of the chip with
those features removed.  Labels `in0` and `temp1 (crit)` give 13; a chip all of whose labels
have at most 11 characters gives 12. -/
theorem C7_label_size (name : sensors_chip_name) :
    sensors_get_label_size name
        = ((max 11 ((label_lengths name).foldr max 0) + 1 : Nat) : Int)
    ∧ sensors_get_label_size name
        = sensors_get_label_size
            { name with features := name.features.filter (fun f => f.label.isSome) }
    ∧ (name.features.map (fun f => f.label) = [some "in0", some "temp1 (crit)"] →
        sensors_get_label_size name = 13)
    ∧ ((∀ f ∈ name.features, ∀ l, f.label = some l → l.length ≤ 11) →
        sensors_get_label_size name = 12) := by
  refine ⟨label_size_eq name, ?_, ?_, ?_⟩
  · rw [label_size_eq, label_size_eq]
    have : label_lengths { name with features := name.features.filter (fun f => f.label.isSome) }
        = label_lengths name := by
      unfold label_lengths sensors_get_label
      simp only
      induction name.features with
      | nil => rfl
      | cons f l ih =>
        cases hf : f.label <;> simp [List.filter_cons, List.filterMap_cons, hf, ih]
    rw [this]
  · intro h
    rw [label_size_eq]
    have : label_lengths name = [3, 12] := by
      unfold label_lengths sensors_get_label
      rcases hfs : name.features with _ | ⟨f1, _ | ⟨f2, _ | ⟨f3, l⟩⟩⟩ <;> rw [hfs] at h <;>
        simp only [List.map_cons, List.map_nil, List.cons.injEq, and_true, reduceCtorEq,
          false_and, and_false] at h
      obtain ⟨h1, h2⟩ := h
      simp only [List.filterMap_cons, List.filterMap_nil, h1, h2, Option.map_some']
      rfl
    rw [this]; decide
  · intro h
    rw [label_size_eq]
    have : (label_lengths name).foldr max 0 ≤ 11 := by
      apply foldr_max_le
      intro x hx
      unfold label_lengths sensors_get_label at hx
      simp only [List.mem_filterMap, Option.map_eq_some'] at hx
      obtain ⟨f, hf, l, hl, rfl⟩ := hx
      exact h f hf l hl
    have : max 11 ((label_lengths name).foldr max 0) = 11 := by omega
    rw [this]; rfl

theorem C7_witness :
    (sample_chip_labels.features.map (fun f => f.label) = [some "in0", some "temp1 (crit)"]
      ∧ sensors_get_label_size sample_chip_labels = 13)
    ∧ ((∀ f ∈ sample_chip.features, ∀ l, f.label = some l → l.length ≤ 11)
      ∧ sensors_get_label_size sample_chip = 12) := by
  have h1 : sample_chip_labels.features.map (fun f => f.label)
      = [some "in0", some "temp1 (crit)"] := by decide
  have h2 : ∀ f ∈ sample_chip.features, ∀ l, f.label = some l → l.length ≤ 11 := by decide
  exact ⟨⟨h1, (C7_label_size sample_chip_labels).2.2.1 h1⟩,
    ⟨h2, (C7_label_size sample_chip).2.2.2 h2⟩⟩

theorem collect_step_skip (env : Env) (name : sensors_chip_name) (size first_val : Int)
    (st : List Chunk × Table) (iter : sensors_subfeature)
    (h : iter.type - first_val < 0 ∨ iter.type - first_val ≥ size) :
    collect_step env name size first_val st iter = st := by
  unfold collect_step
  exact if_pos h

theorem collect_step_error (env : Env) (name : sensors_chip_name) (size first_val : Int)
    (st : List Chunk × Table) (iter : sensors_subfeature) (err : Int)
    (h : sensors_get_value name iter.number = .error err) :
    (collect_step env name size first_val st iter).2 = st.2 := by
  unfold collect_step
  simp only [h]
  split <;> rfl

theorem collect_step_ok (env : Env) (name : sensors_chip_name) (size first_val : Int)
    (st : List Chunk × Table) (iter : sensors_subfeature) (v : ℚ)
    (hr : ¬ (iter.type - first_val < 0 ∨ iter.type - first_val ≥ size))
    (h : sensors_get_value name iter.number = .ok v) :
    collect_step env name size first_val st iter
      = (st.1, ⟨Function.update st.2.has_features (iter.type - first_val) true,
                Function.update st.2.feature_vals (iter.type - first_val) v⟩) := by
  unfold collect_step
  simp only [h, if_neg hr]

/-- The state of the loop after the subfeatures `l`, and what it says about entry `i`. -/
theorem collect_loop_has (env : Env) (name : sensors_chip_name) (size first_val : Int)
    (i : Int) (h0 : 0 ≤ i) (h1 : i < size) (l : List sensors_subfeature)
    (st : List Chunk × Table) :
    ((l.foldl (collect_step env name size first_val) st).2.has_features i = true ↔
      st.2.has_features i = true ∨
        ∃ sub ∈ l, sub.type = first_val + i ∧ ∃ v, sensors_get_value name sub.number = .ok v) := by
  induction l generalizing st with
  | nil => simp
  | cons a l ih =>
    rw [List.foldl_cons, ih]
    by_cases hr : a.type - first_val < 0 ∨ a.type - first_val ≥ size
    · rw [collect_step_skip env name size first_val st a hr]
      constructor
      · rintro (h | ⟨sub, hs, ht, hv⟩)
        · exact Or.inl h
        · exact Or.inr ⟨sub, List.mem_cons_of_mem _ hs, ht, hv⟩
      · rintro (h | ⟨sub, hs, ht, hv⟩)
        · exact Or.inl h
        · rcases List.mem_cons.mp hs with rfl | hs
          · exfalso; rcases hr with hr | hr <;> omega
          · exact Or.inr ⟨sub, hs, ht, hv⟩
    · cases hv : sensors_get_value name a.number with
      | error err =>
        rw [collect_step_error env name size first_val st a err hv]
        constructor
        · rintro (h | ⟨sub, hs, ht, hv2⟩)
          · exact Or.inl h
          · exact Or.inr ⟨sub, List.mem_cons_of_mem _ hs, ht, hv2⟩
        · rintro (h | ⟨sub, hs, ht, v, hv2⟩)
          · exact Or.inl h
          · rcases List.mem_cons.mp hs with rfl | hs
            · rw [hv] at hv2; cases hv2
            · exact Or.inr ⟨sub, hs, ht, v, hv2⟩
      | ok v =>
        rw [collect_step_ok env name size first_val st a v hr hv]
        simp only
        by_cases hi : i = a.type - first_val
        · subst hi
          simp only [Function.update_same, true_or, true_iff]
          exact Or.inr ⟨a, List.mem_cons_self _ _, by omega, v, hv⟩
        · rw [Function.update_noteq hi]
          constructor
          · rintro (h | ⟨sub, hs, ht, hv2⟩)
            · exact Or.inl h
            · exact Or.inr ⟨sub, List.mem_cons_of_mem _ hs, ht, hv2⟩
          · rintro (h | ⟨sub, hs, ht, hv2⟩)
            · exact Or.inl h
            · rcases List.mem_cons.mp hs with rfl | hs
              · exfalso; omega
              · exact Or.inr ⟨sub, hs, ht, hv2⟩

theorem collect_loop_val (env : Env) (name : sensors_chip_name) (size first_val : Int)
    (i : Int) (l : List sensors_subfeature) (st : List Chunk × Table) :
    (∃ sub ∈ l, sub.type = first_val + i ∧
        sensors_get_value name sub.number
          = .ok ((l.foldl (collect_step env name size first_val) st).2.feature_vals i)) ∨
      ((l.foldl (collect_step env name size first_val) st).2.feature_vals i = st.2.feature_vals i
        ∧ (l.foldl (collect_step env name size first_val) st).2.has_features i
            = st.2.has_features i) := by
  induction l generalizing st with
  | nil => simp
  | cons a l ih =>
    rw [List.foldl_cons]
    rcases ih (collect_step env name size first_val st a) with ⟨sub, hs, ht, hv⟩ | ⟨h1, h2⟩
    · exact Or.inl ⟨sub, List.mem_cons_of_mem _ hs, ht, hv⟩
    · rw [h1, h2]
      by_cases hr : a.type - first_val < 0 ∨ a.type - first_val ≥ size
      · rw [collect_step_skip env name size first_val st a hr]
        exact Or.inr ⟨rfl, rfl⟩
      · cases hv : sensors_get_value name a.number with
        | error err =>
          rw [collect_step_error env name size first_val st a err hv]
          exact Or.inr ⟨rfl, rfl⟩
        | ok v =>
          rw [collect_step_ok env name size first_val st a v hr hv]
          simp only
          by_cases hi : i = a.type - first_val
          · subst hi
            refine Or.inl ⟨a, List.mem_cons_self _ _, by omega, ?_⟩
            rw [hv, Function.update_same]
          · rw [Function.update_noteq hi, Function.update_noteq hi]
            exact Or.inr ⟨rfl, rfl⟩

theorem collect_step_table (env : Env) (name : sensors_chip_name) (size first_val : Int)
    (st st2 : List Chunk × Table) (iter : sensors_subfeature) (h : st.2 = st2.2) :
    (collect_step env name size first_val st iter).2
      = (collect_step env name size first_val st2 iter).2 := by
  unfold collect_step
  simp only [h]
  split
  · exact h
  · split <;> simp [h]

theorem collect_loop_table (env : Env) (name : sensors_chip_name) (size first_val : Int)
    (l : List sensors_subfeature) (st st2 : List Chunk × Table) (h : st.2 = st2.2) :
    (l.foldl (collect_step env name size first_val) st).2
      = (l.foldl (collect_step env name size first_val) st2).2 := by
  induction l generalizing st st2 with
  | nil => exact h
  | cons a l ih =>
    rw [List.foldl_cons, List.foldl_cons]
    exact ih _ _ (collect_step_table env name size first_val st st2 a h)

theorem collect_loop_filter (env : Env) (name : sensors_chip_name) (size first_val : Int)
    (l : List sensors_subfeature) (st : List Chunk × Table) :
    (l.foldl (collect_step env name size first_val) st).2
      = ((l.filter (fun sub => in_range size first_val sub && read_ok name sub)).foldl
          (collect_step env name size first_val) st).2 := by
  induction l generalizing st with
  | nil => rfl
  | cons a l ih =>
    rw [List.foldl_cons, List.filter_cons]
    by_cases hr : a.type - first_val < 0 ∨ a.type - first_val ≥ size
    · have : in_range size first_val a = false := by
        unfold in_range; rw [decide_eq_false_iff_not]; omega
      rw [collect_step_skip env name size first_val st a hr, this]
      simpa using ih st
    · have hin : in_range size first_val a = true := by
        unfold in_range; rw [decide_eq_true_iff]; omega
      cases hv : sensors_get_value name a.number with
      | error err =>
        have : read_ok name a = false := by unfold read_ok; rw [hv]
        rw [this, hin]
        simp only [Bool.and_false, Bool.false_eq_true, if_false]
        rw [← ih st]
        exact collect_loop_table env name size first_val l _ _
          (collect_step_error env name size first_val st a err hv)
      | ok v =>
        have : read_ok name a = true := by unfold read_ok; rw [hv]
        rw [this, hin]
        simp only [Bool.and_self, if_true, List.foldl_cons]
        exact ih _

/-- C8: `sensors_get_available_features`, run on arrays whose presence flags are all false,
leaves for every index `i` of the range `has_features[i]` true exactly when the feature has a
subfeature of role `first_val + i` whose value read succeeds, and then `feature_vals[i]` is the
value returned by such a read.  A subfeature whose role lies outside the range changes nothing
(neither array nor the output), and the arrays are the same as if the out-of-range and the
unreadable subfeatures were not there: a failed read stops nothing. -/
theorem C8_collect (env : Env) (name : sensors_chip_name) (feature : sensors_feature)
    (t : Table) (size first_val : Int) (i : Int)
    (ht : ∀ j, t.has_features j = false) (h0 : 0 ≤ i) (h1 : i < size) :
    ((sensors_get_available_features env name feature t size first_val).2.has_features i
        = true ↔
      ∃ sub ∈ feature.subfeatures, sub.type = first_val + i ∧
        ∃ v, sensors_get_value name sub.number = .ok v)
    ∧ ((sensors_get_available_features env name feature t size first_val).2.has_features i
        = true →
      ∃ sub ∈ feature.subfeatures, sub.type = first_val + i ∧
        sensors_get_value name sub.number
          = .ok ((sensors_get_available_features env name feature t size
                    first_val).2.feature_vals i))
    ∧ (∀ (st : List Chunk × Table) (iter : sensors_subfeature),
        (iter.type < first_val ∨ iter.type > first_val + size - 1) →
        collect_step env name size first_val st iter = st)
    ∧ (sensors_get_available_features env name feature t size first_val).2
        = (sensors_get_available_features env name
            { feature with
              subfeatures := feature.subfeatures.filter
                (fun sub => in_range size first_val sub && read_ok name sub) }
            t size first_val).2 := by
  unfold sensors_get_available_features
  refine ⟨?_, ?_, ?_, ?_⟩
  · rw [collect_loop_has env name size first_val i h0 h1]
    simp [ht]
  · intro h
    rcases collect_loop_val env name size first_val i feature.subfeatures ([], t) with
      hex | ⟨_, h2⟩
    · exact hex
    · rw [h2] at h
      simp [ht] at h
  · intro st iter hr
    apply collect_step_skip
    rcases hr with hr | hr
    · left; omega
    · right; omega
  · exact collect_loop_filter env name size first_val feature.subfeatures _

theorem C8_witness :
    (∀ j, Table.init.has_features j = false) ∧ (0 : Int) ≤ 1 ∧ (1 : Int) < 12
    ∧ (sensors_get_available_features sample_env sample_chip sample_temp_fail Table.init 12
          SENSORS_SUBFEATURE_TEMP_INPUT).2.has_features 1 = true
    ∧ (sensors_get_available_features sample_env sample_chip sample_temp_fail Table.init 12
          SENSORS_SUBFEATURE_TEMP_INPUT).2.has_features 3 = false := by
  have h := C8_collect sample_env sample_chip sample_temp_fail Table.init 12
    SENSORS_SUBFEATURE_TEMP_INPUT 1 (fun _ => rfl) (by decide) (by decide)
  refine ⟨fun _ => rfl, by decide, by decide, ?_, by decide⟩
  exact h.1.mpr ⟨⟨"temp3_max", 2, SENSORS_SUBFEATURE_TEMP_MAX, 3⟩,
    by simp [sample_temp_fail], by decide, 60, rfl⟩

theorem temp_first_block_eq (env : Env) (t : Table) :
    temp_first_block env t = claimed_first_block env t ++ alarm_tag (temp_limits t).alarm := by
  unfold temp_first_block claimed_first_block temp_limits
  cases h1 : TEMP_FEATURE t SENSORS_SUBFEATURE_TEMP_MAX <;>
  cases h2 : TEMP_FEATURE t SENSORS_SUBFEATURE_TEMP_MIN <;>
  cases h3 : TEMP_FEATURE t SENSORS_SUBFEATURE_TEMP_MAX_HYST <;>
  cases h4 : TEMP_FEATURE t SENSORS_SUBFEATURE_TEMP_CRIT <;>
  cases h5 : TEMP_FEATURE t SENSORS_SUBFEATURE_TEMP_CRIT_HYST <;>
  simp [print_temp_limits, limit_pair, limit_single, limit_blank, alarm_tag, temp_shown]

/-- C1: when the label fetch succeeds, the output of `print_chip_temp` is the diagnostics of
the collector, the label, the primary reading, the first-line limit block and the rest of the
line; and the first-line limit block is the one the specification's seven cases give from the
presence flags (`claimed_first_block`), followed by the alarm tag. -/
theorem C1_first_line_block (env : Env) (name : sensors_chip_name) (feature : sensors_feature)
    (label_size : Int) (label : String) (hl : sensors_get_label name feature = some label) :
    print_chip_temp env name feature label_size
        = (temp_collect env name feature).1
          ++ print_label label label_size
          ++ temp_primary env (temp_collect env name feature).2
          ++ temp_first_block env (temp_collect env name feature).2
          ++ (temp_crit_line env label_size (temp_collect env name feature).2
                (temp_limits (temp_collect env name feature).2).crit_displayed
              ++ temp_sensor (temp_collect env name feature).2
              ++ [.lit "\n"])
    ∧ temp_first_block env (temp_collect env name feature).2
        = claimed_first_block env (temp_collect env name feature).2
          ++ alarm_tag (temp_limits (temp_collect env name feature).2).alarm := by
  refine ⟨?_, temp_first_block_eq env _⟩
  unfold print_chip_temp print_chip_temp_body
  rw [hl]
  simp only [List.append_assoc]

theorem C1_witness :
    sensors_get_label sample_chip sample_temp = some "temp1"
    ∧ temp_first_block sample_env (temp_collect sample_env sample_chip sample_temp).2
        = limit_pair sample_env "low" 10 "high" 60 := by
  refine ⟨rfl, ?_⟩
  rw [(C1_first_line_block sample_env sample_chip sample_temp 12 "temp1" rfl).2]
  decide
@[simp] theorem lits_nil : lits [] = [] := rfl
@[simp] theorem lits_lit (s : String) (out : List Chunk) :
    lits (.lit s :: out) = s :: lits out := rfl
@[simp] theorem lits_str (s : String) (out : List Chunk) : lits (.str s :: out) = lits out := rfl
@[simp] theorem lits_strw (w : Int) (s : String) (out : List Chunk) :
    lits (.strw w s :: out) = lits out := rfl
@[simp] theorem lits_flt (plus : Bool) (w p : Nat) (v : ℚ) (out : List Chunk) :
    lits (.flt plus w p v :: out) = lits out := rfl

@[simp] theorem lits_append (a b : List Chunk) : lits (a ++ b) = lits a ++ lits b := by
  induction a with
  | nil => rfl
  | cons c a ih => cases c <;> simp [ih]

theorem mem_lits (s : String) (out : List Chunk) : s ∈ lits out ↔ Chunk.lit s ∈ out := by
  induction out with
  | nil => simp
  | cons c out ih => cases c <;> simp [ih]

/-- The literal texts of the diagnostics of the collector. -/
theorem collect_loop_lits (env : Env) (name : sensors_chip_name) (size first_val : Int)
    (l : List sensors_subfeature) (st : List Chunk × Table) (s : String)
    (h : s ∈ lits (l.foldl (collect_step env name size first_val) st).1) :
    s ∈ lits st.1 ∨ s ∈ ["ERROR: Can\x27t get ", " data: ", "\n"] := by
  induction l generalizing st with
  | nil => exact Or.inl h
  | cons a l ih =>
    rw [List.foldl_cons] at h
    rcases ih _ h with h | h
    · unfold collect_step at h
      simp only at h
      split at h
      · exact Or.inl h
      · split at h
        · simp only [lits_append, lits_lit, lits_str, lits_nil, List.mem_append,
            List.mem_cons] at h
          rcases h with h | h
          · exact Or.inl h
          · right; simpa using h
        · exact Or.inl h
    · exact Or.inr h

theorem collect_lits (env : Env) (name : sensors_chip_name) (feature : sensors_feature)
    (t : Table) (size first_val : Int) (s : String)
    (h : s ∈ lits (sensors_get_available_features env name feature t size first_val).1) :
    s ∈ ["ERROR: Can\x27t get ", " data: ", "\n"] := by
  rcases collect_loop_lits env name size first_val _ _ s h with h | h
  · simp at h
  · exact h

theorem print_label_lits (label : String) (space : Int) : lits (print_label label space) = [":"] :=
  rfl

theorem temp_primary_lits (env : Env) (t : Table) (s : String)
    (h : s ∈ lits (temp_primary env t)) : s ∈ ["   FAULT  ", "  "] := by
  unfold temp_primary at h
  simp only at h
  split at h <;> simp at h <;> simp [h]

theorem print_temp_limits_lits (env : Env) (limit1 limit2 : ℚ) (name1 name2 : Option String)
    (alarm : Bool) (s : String)
    (h : s ∈ lits (print_temp_limits env limit1 limit2 name1 name2 alarm)) :
    s ∈ ["(", " = ", ", ", ")  ", ")                  ",
         "                                  ", "ALARM  "] := by
  unfold print_temp_limits at h
  cases name1 <;> cases name2 <;> cases alarm <;> simp at h <;> 
    simp only [List.mem_cons] <;> tauto

theorem temp_crit_line_lits (env : Env) (label_size : Int) (t : Table) (cd : Bool) (s : String)
    (h : s ∈ lits (temp_crit_line env label_size t cd)) :
    s ∈ ["\n", "(", " = ", ", ", ")  ", ")                  ",
         "                                  ", "ALARM  "] := by
  unfold temp_crit_line at h
  simp only at h
  split at h
  · simp only [List.cons_append, List.nil_append, lits_lit, lits_strw, List.mem_cons] at h
    rcases h with h | h
    · simp [h]
    · exact List.mem_cons_of_mem _ (print_temp_limits_lits _ _ _ _ _ _ _ h)
  · simp at h

theorem sensor_type_name_eq (c : Int) :
    sensor_type_name (if c > 1000 then 4 else c) = claimed_sensor_name c := by
  unfold claimed_sensor_name
  by_cases h : c > 1000
  · simp [h, sensor_type_name]
  · unfold sensor_type_name
    simp only [h, if_false]
    split_ifs <;> first | rfl | omega

theorem render_append (a b : List Chunk) : render (a ++ b) = render a ++ render b := by
  induction a with
  | nil => simp [render]
  | cons c a ih => simp [render, ih, String.append_assoc]

theorem starts_with_iff (t s : List Char) :
    starts_with t s = true ↔ ∃ post, s = t ++ post := by
  induction t generalizing s with
  | nil => simp [starts_with]
  | cons a t ih =>
    cases s with
    | nil => simp [starts_with]
    | cons b s =>
      simp only [starts_with, Bool.and_eq_true, decide_eq_true_eq, ih, List.cons_append,
        List.cons.injEq]
      constructor
      · rintro ⟨rfl, post, rfl⟩
        exact ⟨post, rfl, rfl⟩
      · rintro ⟨post, rfl, rfl⟩
        exact ⟨rfl, post, rfl⟩

theorem occurs_iff (t s : List Char) :
    occurs t s = true ↔ ∃ pre post, s = pre ++ t ++ post := by
  induction s with
  | nil =>
    simp only [occurs, starts_with_iff]
    constructor
    · rintro ⟨post, h⟩
      exact ⟨[], post, by simpa using h⟩
    · rintro ⟨pre, post, h⟩
      have h2 := congrArg List.length h
      simp only [List.length_nil, List.length_append] at h2
      have hp : pre = [] := List.length_eq_zero.mp (by omega)
      subst hp
      exact ⟨post, by simpa using h⟩
  | cons c s ih =>
    simp only [occurs, Bool.or_eq_true, starts_with_iff, ih]
    constructor
    · rintro (⟨post, h⟩ | ⟨pre, post, h⟩)
      · exact ⟨[], post, by simpa using h⟩
      · exact ⟨c :: pre, post, by simp [h]⟩
    · rintro ⟨pre, post, h⟩
      cases pre with
      | nil => exact Or.inl ⟨post, by simpa using h⟩
      | cons d pre =>
        simp only [List.cons_append, List.cons.injEq] at h
        exact Or.inr ⟨pre, post, by simpa using h.2⟩

theorem contains_text_iff (s t : String) :
    contains_text s t ↔ occurs t.data s.data = true := by
  rw [occurs_iff]
  constructor
  · rintro ⟨pre, post, rfl⟩
    exact ⟨pre.data, post.data, by simp [String.data_append]⟩
  · rintro ⟨pre, post, h⟩
    refine ⟨⟨pre⟩, ⟨post⟩, ?_⟩
    apply String.ext
    simp [String.data_append, h]

example : ¬ contains_text "  (min = " "max" := by
  rw [contains_text_iff]; decide

theorem in_limits_eq (t : Table) : in_limits t = claimed_in_limits t := by
  unfold in_limits claimed_in_limits
  cases IN_FEATURE t SENSORS_SUBFEATURE_IN_MIN <;>
  cases IN_FEATURE t SENSORS_SUBFEATURE_IN_MAX <;> simp

theorem in_alarms_lits (t : Table) (s : String) (h : s ∈ lits (in_alarms t)) :
    s ∈ [" ALARM (", "MIN", "MAX", ")", "   "] := by
  revert h
  unfold in_alarms
  dsimp only
  cases IN_FEATURE t SENSORS_SUBFEATURE_IN_MAX_ALARM <;>
  cases IN_FEATURE t SENSORS_SUBFEATURE_IN_MIN_ALARM <;>
  cases IN_FEATURE t SENSORS_SUBFEATURE_IN_ALARM <;>
  cases truthy (IN_FEATURE_VAL t SENSORS_SUBFEATURE_IN_MIN_ALARM) <;>
  cases truthy (IN_FEATURE_VAL t SENSORS_SUBFEATURE_IN_MAX_ALARM) <;>
  simp <;> tauto

/-- C10: when the label fetch succeeds, `print_chip_in` prints the label and the input value,
then the limit block the specification describes (`claimed_in_limits`: both limits, the minimum
alone, the maximum alone, or nothing), then the alarm tag and the newline.  With the minimum
present and the maximum absent the text of the output contains `(min = <value> V)`, the value
formatted by `%+6.2f`, and no text written from a format string contains `max`. -/
theorem C10_in_limit_block (env : Env) (name : sensors_chip_name) (feature : sensors_feature)
    (label_size : Int) (label : String) (hl : sensors_get_label name feature = some label) :
    print_chip_in env name feature label_size
        = ((in_collect env name feature).1
            ++ print_label label label_size
            ++ [Chunk.flt true 6 2
                  (IN_FEATURE_VAL (in_collect env name feature).2 SENSORS_SUBFEATURE_IN_INPUT),
                Chunk.lit " V"])
          ++ claimed_in_limits (in_collect env name feature).2
          ++ (in_alarms (in_collect env name feature).2 ++ [Chunk.lit "\n"])
    ∧ (IN_FEATURE (in_collect env name feature).2 SENSORS_SUBFEATURE_IN_MIN = true →
       IN_FEATURE (in_collect env name feature).2 SENSORS_SUBFEATURE_IN_MAX = false →
        contains_text (render (print_chip_in env name feature label_size))
          ("(min = "
            ++ fmt_f true 6 2
                (IN_FEATURE_VAL (in_collect env name feature).2 SENSORS_SUBFEATURE_IN_MIN)
            ++ " V)")
        ∧ ∀ s ∈ lits (print_chip_in env name feature label_size), ¬ contains_text s "max") := by
  have heq : print_chip_in env name feature label_size
        = ((in_collect env name feature).1
            ++ print_label label label_size
            ++ [Chunk.flt true 6 2
                  (IN_FEATURE_VAL (in_collect env name feature).2 SENSORS_SUBFEATURE_IN_INPUT),
                Chunk.lit " V"])
          ++ claimed_in_limits (in_collect env name feature).2
          ++ (in_alarms (in_collect env name feature).2 ++ [Chunk.lit "\n"]) := by
    unfold print_chip_in print_chip_in_body
    rw [hl, ← in_limits_eq]
    simp only [List.append_assoc]
  refine ⟨heq, ?_⟩
  intro hmin hmax
  have hblock : claimed_in_limits (in_collect env name feature).2
      = [Chunk.lit "  (min = ",
         Chunk.flt true 6 2
          (IN_FEATURE_VAL (in_collect env name feature).2 SENSORS_SUBFEATURE_IN_MIN),
         Chunk.lit " V)"] := by
    unfold claimed_in_limits
    simp [hmin, hmax]
  rw [heq, hblock]
  constructor
  · refine ⟨render ((in_collect env name feature).1
            ++ print_label label label_size
            ++ [Chunk.flt true 6 2
                  (IN_FEATURE_VAL (in_collect env name feature).2 SENSORS_SUBFEATURE_IN_INPUT),
                Chunk.lit " V"]) ++ "  ",
      render (in_alarms (in_collect env name feature).2 ++ [Chunk.lit "\n"]), ?_⟩
    rw [render_append, render_append]
    have : render [Chunk.lit "  (min = ",
         Chunk.flt true 6 2
          (IN_FEATURE_VAL (in_collect env name feature).2 SENSORS_SUBFEATURE_IN_MIN),
         Chunk.lit " V)"]
        = "  " ++ ("(min = " ++ fmt_f true 6 2
            (IN_FEATURE_VAL (in_collect env name feature).2 SENSORS_SUBFEATURE_IN_MIN) ++ " V)") := by
      simp only [render, Chunk.render]
      have e : "  (min = " = "  " ++ "(min = " := by decide
      rw [e]
      simp only [String.append_assoc, String.append_empty]
    rw [this]
    simp only [String.append_assoc]
  · intro s hs
    simp only [lits_append, List.mem_append] at hs
    have hin : s ∈ ["ERROR: Can\x27t get ", " data: ", "\n", ":", " V", "  (min = ", " V)",
        " ALARM (", "MIN", "MAX", ")", "   "] := by
      rcases hs with ((((hs | hs) | hs) | hs) | (hs | hs))
      · have := collect_lits _ _ _ _ _ _ _ hs
        simp only [List.mem_cons] at this ⊢; tauto
      · rw [print_label_lits] at hs
        simp only [List.mem_cons] at hs ⊢; tauto
      · simp at hs; simp [hs]
      · simp at hs; simp only [List.mem_cons]; tauto
      · have := in_alarms_lits _ _ hs
        simp only [List.mem_cons] at this ⊢; tauto
      · simp at hs; simp [hs]
    rw [contains_text_iff]
    clear hs
    revert s
    decide

theorem C10_witness :
    sensors_get_label sample_chip sample_in = some "in0"
    ∧ contains_text (render (print_chip_in sample_env sample_chip sample_in 12))
        "(min = +10.00 V)" := by
  refine ⟨rfl, ?_⟩
  exact (C10_in_limit_block sample_env sample_chip sample_in 12 "in0" rfl).2
    (by decide) (by decide) |>.1
theorem limit_entries_cons (c : Chunk) (out : List Chunk) :
    limit_entries (c :: out) = (entry_at c out).toList ++ limit_entries out := rfl

theorem entry_at_append (c : Chunk) (a b : List Chunk) (s : String) (h : s ≠ " = ") :
    entry_at c (a ++ .lit s :: b) = entry_at c (a ++ [.lit s]) := by
  cases c with
  | lit _ => simp [entry_at]
  | str _ => simp [entry_at]
  | flt _ _ _ _ => simp [entry_at]
  | strw w n =>
    match a with
    | [] => 
      cases b with
      | nil => rfl
      | cons y b => cases y <;> simp [entry_at, h]
    | [x] => cases x <;> simp [entry_at]
    | x :: y :: a => cases x <;> cases y <;> simp [entry_at]

/-- Limit entries do not straddle a literal text other than ` = `. -/
theorem limit_entries_append (a b : List Chunk) (s : String) (h : s ≠ " = ") :
    limit_entries (a ++ .lit s :: b) = limit_entries (a ++ [.lit s]) ++ limit_entries b := by
  induction a with
  | nil => simp [limit_entries, entry_at]
  | cons c a ih =>
    simp only [List.cons_append, limit_entries_cons, ih, entry_at_append c a b s h,
      List.append_assoc]

/-- Every chunk of the collector's diagnostics is a literal text or a `%s`, and the last one
is the newline. -/
theorem collect_loop_shape (env : Env) (name : sensors_chip_name) (size first_val : Int)
    (l : List sensors_subfeature) (st : List Chunk × Table)
    (h1 : ∀ c ∈ st.1, (∃ s, c = .lit s) ∨ (∃ s, c = .str s))
    (h2 : st.1 = [] ∨ ∃ a, st.1 = a ++ [.lit "\n"]) :
    (∀ c ∈ (l.foldl (collect_step env name size first_val) st).1,
        (∃ s, c = .lit s) ∨ (∃ s, c = .str s))
    ∧ ((l.foldl (collect_step env name size first_val) st).1 = [] ∨
        ∃ a, (l.foldl (collect_step env name size first_val) st).1 = a ++ [.lit "\n"]) := by
  induction l generalizing st with
  | nil => exact ⟨h1, h2⟩
  | cons x l ih =>
    rw [List.foldl_cons]
    apply ih
    · unfold collect_step
      simp only
      split
      · exact h1
      · split
        · intro c hc
          simp only [List.mem_append, List.mem_cons, List.mem_singleton] at hc
          rcases hc with hc | hc
          · exact h1 c hc
          · simp only [List.not_mem_nil, or_false] at hc
            rcases hc with rfl | rfl | rfl | rfl | rfl <;> simp
        · exact h1
    · unfold collect_step
      simp only
      split
      · exact h2
      · split
        · right
          rename_i _ err _
          exact ⟨st.1 ++ [.lit "ERROR: Can\x27t get ", .str x.name, .lit " data: ",
            .str (env.sensors_strerror err)], by simp⟩
        · exact h2

theorem limit_entries_plain (a : List Chunk)
    (h : ∀ c ∈ a, (∃ s, c = .lit s) ∨ (∃ s, c = .str s)) : limit_entries a = [] := by
  induction a with
  | nil => rfl
  | cons c a ih =>
    rw [limit_entries_cons, ih (fun c hc => h c (List.mem_cons_of_mem _ hc))]
    rcases h c (List.mem_cons_self _ _) with ⟨s, rfl⟩ | ⟨s, rfl⟩ <;> simp [entry_at]

/-- The diagnostics of the collector hold no limit entry and hide none of what follows. -/
theorem limit_entries_collect (env : Env) (name : sensors_chip_name) (feature : sensors_feature)
    (t : Table) (size first_val : Int) (b : List Chunk) :
    limit_entries ((sensors_get_available_features env name feature t size first_val).1 ++ b)
      = limit_entries b := by
  unfold sensors_get_available_features
  obtain ⟨h1, h2⟩ := collect_loop_shape env name size first_val feature.subfeatures ([], t)
    (by simp) (Or.inl rfl)
  rcases h2 with h2 | ⟨a, h2⟩
  · rw [h2]; rfl
  · have ha : ∀ c ∈ a ++ [Chunk.lit "\n"], (∃ s, c = .lit s) ∨ (∃ s, c = .str s) := by
      rw [← h2]; exact h1
    rw [h2, List.append_assoc, List.singleton_append,
      limit_entries_append a b "\n" (by decide), limit_entries_plain _ ha]
    rfl

theorem limit_entries_print_temp_limits (env : Env) (limit1 limit2 : ℚ)
    (name1 name2 : Option String) (alarm : Bool) (b : List Chunk) :
    limit_entries (print_temp_limits env limit1 limit2 name1 name2 alarm ++ b)
      = (match name2 with
         | some n2 => [(name1.getD "(null)", temp_shown env limit1), (n2, temp_shown env limit2)]
         | none =>
           match name1 with
           | some n1 => [(n1, temp_shown env limit1)]
           | none => [])
        ++ limit_entries b := by
  unfold print_temp_limits
  cases name1 <;> cases name2 <;> cases alarm <;>
    simp [limit_entries_cons, entry_at, temp_shown]

theorem limit_entries_label_primary (env : Env) (label : String) (label_size : Int) (t : Table)
    (b : List Chunk) :
    limit_entries (print_label label label_size ++ temp_primary env t ++ b)
      = limit_entries b := by
  unfold print_label temp_primary
  simp only
  split <;> simp [limit_entries_cons, entry_at]

theorem limit_entries_crit_line (env : Env) (label_size : Int) (t : Table) (cd : Bool)
    (b : List Chunk) :
    limit_entries (temp_crit_line env label_size t cd ++ b)
      = (if !cd && TEMP_FEATURE t SENSORS_SUBFEATURE_TEMP_CRIT then
          (if TEMP_FEATURE t SENSORS_SUBFEATURE_TEMP_CRIT_HYST then
            [("crit", temp_shown env (TEMP_FEATURE_VAL t SENSORS_SUBFEATURE_TEMP_CRIT)),
             ("hyst", temp_shown env (TEMP_FEATURE_VAL t SENSORS_SUBFEATURE_TEMP_CRIT_HYST))]
          else [("crit", temp_shown env (TEMP_FEATURE_VAL t SENSORS_SUBFEATURE_TEMP_CRIT))])
        else [])
        ++ limit_entries b := by
  unfold temp_crit_line
  simp only
  split
  · simp only [List.cons_append, List.nil_append, limit_entries_cons, List.append_assoc,
      limit_entries_print_temp_limits]
    cases TEMP_FEATURE t SENSORS_SUBFEATURE_TEMP_CRIT_HYST <;>
      simp [entry_at, print_temp_limits]
  · simp

theorem limit_entries_sensor (t : Table) :
    limit_entries (temp_sensor t ++ [.lit "\n"]) = [] := by
  unfold temp_sensor
  simp only
  split <;> simp [limit_entries_cons, entry_at, limit_entries]

theorem limit_entries_print_chip_temp (env : Env) (name : sensors_chip_name)
    (feature : sensors_feature) (label_size : Int) (label : String)
    (hl : sensors_get_label name feature = some label) :
    limit_entries (print_chip_temp env name feature label_size)
      = limit_entries (temp_first_block env (temp_collect env name feature).2)
        ++ limit_entries (temp_crit_line env label_size (temp_collect env name feature).2
            (temp_limits (temp_collect env name feature).2).crit_displayed) := by
  have e1 := limit_entries_print_temp_limits env
    (temp_limits (temp_collect env name feature).2).limit1
    (temp_limits (temp_collect env name feature).2).limit2
    (temp_limits (temp_collect env name feature).2).s1
    (temp_limits (temp_collect env name feature).2).s2
    (temp_limits (temp_collect env name feature).2).alarm
  have e2 := limit_entries_crit_line env label_size (temp_collect env name feature).2
    (temp_limits (temp_collect env name feature).2).crit_displayed
  unfold print_chip_temp print_chip_temp_body temp_collect
  rw [hl]
  simp only [List.append_assoc]
  rw [limit_entries_collect, ← List.append_assoc (print_label label label_size),
    limit_entries_label_primary]
  unfold temp_first_block temp_collect at *
  rw [e1, e2, limit_entries_sensor]
  have e1b := e1 []
  have e2b := e2 []
  rw [List.append_nil] at e1b e2b
  rw [e1b, e2b]
  simp [limit_entries]

/-- C2: when the label fetch succeeds, the limit entries of the output of `print_chip_temp` are
those of the first-line block followed by those of the second-line block, and the entries
labelled `crit` among them are exactly one entry, showing the critical value, if the
critical-limit role is present, and none if it is absent. -/
theorem C2_crit_once (env : Env) (name : sensors_chip_name) (feature : sensors_feature)
    (label_size : Int) (label : String) (hl : sensors_get_label name feature = some label) :
    crit_entries (print_chip_temp env name feature label_size)
      = (if TEMP_FEATURE (temp_collect env name feature).2 SENSORS_SUBFEATURE_TEMP_CRIT then
          [("crit", temp_shown env
            (TEMP_FEATURE_VAL (temp_collect env name feature).2 SENSORS_SUBFEATURE_TEMP_CRIT))]
        else [])
    ∧ limit_entries (print_chip_temp env name feature label_size)
      = limit_entries (temp_first_block env (temp_collect env name feature).2)
        ++ limit_entries (temp_crit_line env label_size (temp_collect env name feature).2
            (temp_limits (temp_collect env name feature).2).crit_displayed) := by
  refine ⟨?_, limit_entries_print_chip_temp env name feature label_size label hl⟩
  unfold crit_entries
  rw [limit_entries_print_chip_temp env name feature label_size label hl]
  have e1 := limit_entries_print_temp_limits env
    (temp_limits (temp_collect env name feature).2).limit1
    (temp_limits (temp_collect env name feature).2).limit2
    (temp_limits (temp_collect env name feature).2).s1
    (temp_limits (temp_collect env name feature).2).s2
    (temp_limits (temp_collect env name feature).2).alarm []
  have e2 := limit_entries_crit_line env label_size (temp_collect env name feature).2
    (temp_limits (temp_collect env name feature).2).crit_displayed []
  rw [List.append_nil] at e1 e2
  unfold temp_first_block
  rw [e1, e2]
  generalize (temp_collect env name feature).2 = t
  unfold temp_limits
  cases h1 : TEMP_FEATURE t SENSORS_SUBFEATURE_TEMP_MAX <;>
  cases h2 : TEMP_FEATURE t SENSORS_SUBFEATURE_TEMP_MIN <;>
  cases h3 : TEMP_FEATURE t SENSORS_SUBFEATURE_TEMP_MAX_HYST <;>
  cases h4 : TEMP_FEATURE t SENSORS_SUBFEATURE_TEMP_CRIT <;>
  cases h5 : TEMP_FEATURE t SENSORS_SUBFEATURE_TEMP_CRIT_HYST <;>
  simp [limit_entries]

theorem C2_witness :
    sensors_get_label sample_chip sample_temp = some "temp1"
    ∧ crit_entries (print_chip_temp sample_env sample_chip sample_temp 12) = [("crit", 90)] := by
  refine ⟨rfl, ?_⟩
  rw [(C2_crit_once sample_env sample_chip sample_temp 12 "temp1" rfl).1]
  decide
theorem nl_count_append (a b : String) : nl_count (a ++ b) = nl_count a + nl_count b := by
  simp [nl_count, String.data_append, List.count_append]

theorem nl_count_spaces (n : Nat) : nl_count (spaces n) = 0 := by
  simp [nl_count, spaces, List.count_replicate]

theorem nl_count_pad_str (w : Int) (s : String) : nl_count (pad_str w s) = nl_count s := by
  unfold pad_str
  split <;> simp [nl_count_append, nl_count_spaces]

theorem digit_char_ne_nl (d : Nat) : digit_char d ≠ '\n' := by
  unfold digit_char
  have h : d % 10 < 10 := Nat.mod_lt _ (by decide)
  interval_cases (d % 10) <;> decide

theorem dec_digits_count (fuel n : Nat) : (dec_digits fuel n).count '\n' = 0 := by
  induction fuel generalizing n with
  | zero => simp [dec_digits]
  | succ fuel ih =>
    unfold dec_digits
    split
    · simp [List.count_cons, digit_char_ne_nl]
    · simp [List.count_append, ih, List.count_cons, digit_char_ne_nl]

theorem fixed_digits_count (p : Nat) (v : ℚ) : (fixed_digits p v).count '\n' = 0 := by
  unfold fixed_digits nat_dec
  simp only
  split
  · exact dec_digits_count _ _
  · simp [List.count_append, List.count_cons, dec_digits_count, List.count_replicate]

theorem nl_count_fmt_f (plus : Bool) (w p : Nat) (v : ℚ) : nl_count (fmt_f plus w p v) = 0 := by
  unfold fmt_f
  simp only [nl_count_pad_str]
  unfold nl_count
  simp only [List.count_append, fixed_digits_count, add_zero]
  split
  · decide
  · split <;> decide


theorem lit_newlines_append (a b : List Chunk) :
    lit_newlines (a ++ b) = lit_newlines a + lit_newlines b := by
  simp [lit_newlines]

theorem nl_render_append (a b : List Chunk) :
    nl_count (render (a ++ b)) = nl_count (render a) + nl_count (render b) := by
  rw [render_append, nl_count_append]

/-- When every read that the collector performs succeeds, it prints nothing. -/
theorem collect_loop_quiet (env : Env) (name : sensors_chip_name) (size first_val : Int)
    (l : List sensors_subfeature) (st : List Chunk × Table)
    (hr : ∀ sub ∈ l, in_range size first_val sub = true → read_ok name sub = true) :
    (l.foldl (collect_step env name size first_val) st).1 = st.1 := by
  induction l generalizing st with
  | nil => rfl
  | cons a l ih =>
    rw [List.foldl_cons, ih _ (fun sub hs => hr sub (List.mem_cons_of_mem _ hs))]
    by_cases hrange : a.type - first_val < 0 ∨ a.type - first_val ≥ size
    · rw [collect_step_skip env name size first_val st a hrange]
    · have hin : in_range size first_val a = true := by
        unfold in_range; rw [decide_eq_true_iff]; omega
      have hok := hr a (List.mem_cons_self _ _) hin
      unfold read_ok at hok
      cases hv : sensors_get_value name a.number with
      | error err => rw [hv] at hok; cases hok
      | ok v => rw [collect_step_ok env name size first_val st a v hrange hv]

theorem nl_lit_facts :
    nl_count "(" = 0 ∧ nl_count " = " = 0 ∧ nl_count ", " = 0 ∧ nl_count ")  " = 0
    ∧ nl_count ")                  " = 0 ∧ nl_count "                                  " = 0
    ∧ nl_count "ALARM  " = 0 ∧ nl_count "   FAULT  " = 0 ∧ nl_count "  " = 0
    ∧ nl_count ":" = 0 ∧ nl_count "\n" = 1 ∧ nl_count "sensor = " = 0 ∧ nl_count "" = 0
    ∧ nl_count "crit" = 0 ∧ nl_count "hyst" = 0 ∧ nl_count "low" = 0 ∧ nl_count "high" = 0 := by
  decide

theorem nl_sensor_type_name (c : Int) : nl_count (sensor_type_name c) = 0 := by
  unfold sensor_type_name
  split_ifs <;> decide

theorem nl_print_temp_limits (env : Env) (limit1 limit2 : ℚ) (name1 name2 : Option String)
    (alarm : Bool) (hd : nl_count env.degstr = 0)
    (h1 : nl_count (name1.getD "") = 0) (h2 : nl_count (name2.getD "") = 0) :
    nl_count (render (print_temp_limits env limit1 limit2 name1 name2 alarm)) = 0 := by
  obtain ⟨f1, f2, f3, f4, f5, f6, f7, -⟩ := nl_lit_facts
  have f8 : nl_count "" = 0 := by decide
  have f9 : nl_count "(null)" = 0 := by decide
  unfold print_temp_limits
  cases name1 <;> cases name2 <;> cases alarm <;>
    simp_all [render, Chunk.render, nl_count_append, nl_count_pad_str, nl_count_fmt_f] <;>
    decide

theorem lit_newlines_print_temp_limits (env : Env) (limit1 limit2 : ℚ)
    (name1 name2 : Option String) (alarm : Bool) :
    lit_newlines (print_temp_limits env limit1 limit2 name1 name2 alarm) = 0 := by
  obtain ⟨f1, f2, f3, f4, f5, f6, f7, -⟩ := nl_lit_facts
  unfold print_temp_limits lit_newlines
  cases name1 <;> cases name2 <;> cases alarm <;> simp_all

theorem temp_limits_names (t : Table) :
    nl_count ((temp_limits t).s1.getD "") = 0 ∧ nl_count ((temp_limits t).s2.getD "") = 0 := by
  unfold temp_limits
  cases TEMP_FEATURE t SENSORS_SUBFEATURE_TEMP_MAX <;>
  cases TEMP_FEATURE t SENSORS_SUBFEATURE_TEMP_MIN <;>
  cases TEMP_FEATURE t SENSORS_SUBFEATURE_TEMP_MAX_HYST <;>
  cases TEMP_FEATURE t SENSORS_SUBFEATURE_TEMP_CRIT <;>
  cases TEMP_FEATURE t SENSORS_SUBFEATURE_TEMP_CRIT_HYST <;>
  simp <;> decide

theorem claimed_two_lines_eq (t : Table) :
    claimed_two_lines t
      = (!(temp_limits t).crit_displayed && TEMP_FEATURE t SENSORS_SUBFEATURE_TEMP_CRIT) := by
  unfold claimed_two_lines temp_limits
  cases TEMP_FEATURE t SENSORS_SUBFEATURE_TEMP_MAX <;>
  cases TEMP_FEATURE t SENSORS_SUBFEATURE_TEMP_MIN <;>
  cases TEMP_FEATURE t SENSORS_SUBFEATURE_TEMP_MAX_HYST <;>
  cases TEMP_FEATURE t SENSORS_SUBFEATURE_TEMP_CRIT <;>
  simp

theorem temp_crit_line_eq (env : Env) (label_size : Int) (t : Table) :
    temp_crit_line env label_size t (temp_limits t).crit_displayed
      = if claimed_two_lines t then
          [Chunk.lit "\n", Chunk.strw (label_size + 10) ""] ++ claimed_crit_block env t
            ++ alarm_tag (TEMP_FEATURE t SENSORS_SUBFEATURE_TEMP_CRIT_ALARM &&
                truthy (TEMP_FEATURE_VAL t SENSORS_SUBFEATURE_TEMP_CRIT_ALARM))
        else [] := by
  rw [claimed_two_lines_eq]
  unfold temp_crit_line claimed_crit_block
  simp only
  split
  · cases TEMP_FEATURE t SENSORS_SUBFEATURE_TEMP_CRIT_HYST <;>
      simp [print_temp_limits, limit_pair, limit_single, alarm_tag, temp_shown]
  · rfl

theorem temp_collect_quiet (env : Env) (name : sensors_chip_name) (feature : sensors_feature)
    (hr : ∀ sub ∈ feature.subfeatures,
      in_range (SENSORS_SUBFEATURE_TEMP_TYPE - SENSORS_SUBFEATURE_TEMP_INPUT + 1)
        SENSORS_SUBFEATURE_TEMP_INPUT sub = true → read_ok name sub = true) :
    (temp_collect env name feature).1 = [] := by
  unfold temp_collect sensors_get_available_features
  rw [collect_loop_quiet env name _ _ _ _ hr]

theorem nl_temp_line_parts (env : Env) (label : String) (label_size : Int) (t : Table) :
    lit_newlines (print_label label label_size) = 0
    ∧ lit_newlines (temp_primary env t) = 0
    ∧ lit_newlines (temp_sensor t) = 0
    ∧ (nl_count env.degstr = 0 → nl_count (render (temp_primary env t)) = 0)
    ∧ nl_count (render (print_label label label_size)) = nl_count label
    ∧ nl_count (render (temp_sensor t)) = 0 := by
  obtain ⟨f1, f2, f3, f4, f5, f6, f7, f8, f9, f10, f11, f12, f13, -⟩ := nl_lit_facts
  refine ⟨?_, ?_, ?_, ?_, ?_, ?_⟩
  · simp [print_label, lit_newlines, f10]
  · unfold temp_primary lit_newlines
    simp only
    split <;> simp [f8, f9]
  · unfold temp_sensor lit_newlines
    simp only
    split <;> simp [f12]
  · intro hd
    unfold temp_primary
    simp only
    split <;>
      simp [render, Chunk.render, nl_count_append, nl_count_fmt_f, hd, f8, f9, f13]
  · simp [print_label, render, Chunk.render, nl_count_append, nl_count_pad_str, f10, f13]
  · unfold temp_sensor
    simp only
    split <;>
      simp [render, Chunk.render, nl_count_append, nl_sensor_type_name, f12, f13]

/-- C3: when the label fetch succeeds and every value read that the collector performs
succeeds, `print_chip_temp` writes two newline characters if the critical limit is present
together with the high limit and the low limit or the high hysteresis, and one newline
character otherwise; that condition is the one of the code (critical limit present and not
shown in the first-line block).  This holds for the newlines of the format strings whatever
the label and the unit suffix are, and for the whole text when the label and the unit suffix
contain no newline.  The second line is the indentation followed by the block `(crit, hyst)`
when the critical-hysteresis role is present and by `(crit)` alone otherwise. -/
theorem C3_line_count (env : Env) (name : sensors_chip_name) (feature : sensors_feature)
    (label_size : Int) (label : String) (hl : sensors_get_label name feature = some label)
    (hr : ∀ sub ∈ feature.subfeatures,
      in_range (SENSORS_SUBFEATURE_TEMP_TYPE - SENSORS_SUBFEATURE_TEMP_INPUT + 1)
        SENSORS_SUBFEATURE_TEMP_INPUT sub = true → read_ok name sub = true) :
    lit_newlines (print_chip_temp env name feature label_size)
        = (if claimed_two_lines (temp_collect env name feature).2 then 2 else 1)
    ∧ (nl_count label = 0 → nl_count env.degstr = 0 →
        nl_count (render (print_chip_temp env name feature label_size))
          = (if claimed_two_lines (temp_collect env name feature).2 then 2 else 1))
    ∧ claimed_two_lines (temp_collect env name feature).2
        = (!(temp_limits (temp_collect env name feature).2).crit_displayed &&
            TEMP_FEATURE (temp_collect env name feature).2 SENSORS_SUBFEATURE_TEMP_CRIT)
    ∧ temp_crit_line env label_size (temp_collect env name feature).2
          (temp_limits (temp_collect env name feature).2).crit_displayed
        = (if claimed_two_lines (temp_collect env name feature).2 then
            [Chunk.lit "\n", Chunk.strw (label_size + 10) ""]
              ++ claimed_crit_block env (temp_collect env name feature).2
              ++ alarm_tag
                  (TEMP_FEATURE (temp_collect env name feature).2
                      SENSORS_SUBFEATURE_TEMP_CRIT_ALARM &&
                    truthy (TEMP_FEATURE_VAL (temp_collect env name feature).2
                      SENSORS_SUBFEATURE_TEMP_CRIT_ALARM))
          else []) := by
  have hq := temp_collect_quiet env name feature hr
  have heq : print_chip_temp env name feature label_size
      = print_label label label_size
        ++ temp_primary env (temp_collect env name feature).2
        ++ temp_first_block env (temp_collect env name feature).2
        ++ temp_crit_line env label_size (temp_collect env name feature).2
            (temp_limits (temp_collect env name feature).2).crit_displayed
        ++ temp_sensor (temp_collect env name feature).2
        ++ [Chunk.lit "\n"] := by
    unfold print_chip_temp print_chip_temp_body
    rw [hl]
    simp only [hq, List.nil_append]
  refine ⟨?_, ?_, claimed_two_lines_eq _, temp_crit_line_eq env label_size _⟩
  · rw [heq, temp_crit_line_eq]
    generalize (temp_collect env name feature).2 = t
    obtain ⟨p1, p2, p3, -⟩ := nl_temp_line_parts env label label_size t
    have p4 : lit_newlines (temp_first_block env t) = 0 := lit_newlines_print_temp_limits _ _ _ _ _ _
    have p5 : lit_newlines [Chunk.lit "\n"] = 1 := by decide
    simp only [lit_newlines_append, p1, p2, p3, p4, p5]
    split
    · have p6 : lit_newlines (claimed_crit_block env t) = 0 := by
        obtain ⟨f1, f2, f3, f4, f5, -⟩ := nl_lit_facts
        unfold claimed_crit_block limit_pair limit_single lit_newlines
        split <;> simp [f1, f2, f3, f4, f5]
      have p7 : ∀ b, lit_newlines (alarm_tag b) = 0 := by
        intro b; cases b <;> decide
      have p8 : lit_newlines [Chunk.lit "\n", Chunk.strw (label_size + 10) ""] = 1 := by
        simp [lit_newlines]; decide
      simp only [lit_newlines_append, p6, p7, p8]
    · rfl
  · intro hlab hdeg
    rw [heq]
    generalize (temp_collect env name feature).2 = t
    obtain ⟨-, -, -, q1, q2, q3⟩ := nl_temp_line_parts env label label_size t
    have q4 : nl_count (render (temp_first_block env t)) = 0 :=
      nl_print_temp_limits env _ _ _ _ _ hdeg (temp_limits_names t).1 (temp_limits_names t).2
    have q5 : nl_count (render [Chunk.lit "\n"]) = 1 := by decide
    have q6 : nl_count (render (temp_crit_line env label_size t (temp_limits t).crit_displayed))
        = if claimed_two_lines t then 1 else 0 := by
      rw [claimed_two_lines_eq]
      unfold temp_crit_line
      simp only
      split
      · rw [List.cons_append, List.cons_append, List.nil_append]
        have e := nl_print_temp_limits env (TEMP_FEATURE_VAL t SENSORS_SUBFEATURE_TEMP_CRIT)
          (if TEMP_FEATURE t SENSORS_SUBFEATURE_TEMP_CRIT_HYST
            then TEMP_FEATURE_VAL t SENSORS_SUBFEATURE_TEMP_CRIT_HYST else 0)
          (some "crit")
          (if TEMP_FEATURE t SENSORS_SUBFEATURE_TEMP_CRIT_HYST then some "hyst" else none)
          (TEMP_FEATURE t SENSORS_SUBFEATURE_TEMP_CRIT_ALARM &&
            truthy (TEMP_FEATURE_VAL t SENSORS_SUBFEATURE_TEMP_CRIT_ALARM))
          hdeg (by decide) (by split <;> decide)
        have n1 : nl_count "\n" = 1 := by decide
        have n2 : nl_count "" = 0 := by decide
        simp only [render, Chunk.render, nl_count_append, nl_count_pad_str, n1, n2, e]
      · rfl
    simp only [nl_render_append, q1 hdeg, q2, q3, q4, q5, q6, hlab]
    split <;> rfl

theorem C3_witness :
    sensors_get_label sample_chip sample_temp = some "temp1"
    ∧ (∀ sub ∈ sample_temp.subfeatures,
        in_range (SENSORS_SUBFEATURE_TEMP_TYPE - SENSORS_SUBFEATURE_TEMP_INPUT + 1)
          SENSORS_SUBFEATURE_TEMP_INPUT sub = true → read_ok sample_chip sub = true)
    ∧ nl_count "temp1" = 0 ∧ nl_count sample_env.degstr = 0
    ∧ nl_count (render (print_chip_temp sample_env sample_chip sample_temp 12)) = 2 := by
  have hr : ∀ sub ∈ sample_temp.subfeatures,
      in_range (SENSORS_SUBFEATURE_TEMP_TYPE - SENSORS_SUBFEATURE_TEMP_INPUT + 1)
        SENSORS_SUBFEATURE_TEMP_INPUT sub = true → read_ok sample_chip sub = true := by
    decide
  refine ⟨rfl, hr, by decide, by decide, ?_⟩
  rw [(C3_line_count sample_env sample_chip sample_temp 12 "temp1" rfl hr).2.1
    (by decide) (by decide)]
  decide

theorem contains_text_left (s a b : String) (h : contains_text s (a ++ b)) :
    contains_text s a := by
  obtain ⟨pre, post, rfl⟩ := h
  exact ⟨pre, b ++ post, by simp only [String.append_assoc]⟩

/-- C4, counterexample: for the sample feature (low, high and critical limit present, no
alarm role present) the text written is shown below; it contains `(low  = ` with two blanks
and nowhere `(low = <low>, high = <high>)`, whatever `<low>` and `<high>` are. -/
theorem C4_counterexample :
    sensors_get_label sample_chip sample_temp = some "temp1"
    ∧ TEMP_FEATURE (temp_collect sample_env sample_chip sample_temp).2
        SENSORS_SUBFEATURE_TEMP_MIN = true
    ∧ TEMP_FEATURE (temp_collect sample_env sample_chip sample_temp).2
        SENSORS_SUBFEATURE_TEMP_MAX = true
    ∧ (∀ x ∈ [SENSORS_SUBFEATURE_TEMP_ALARM, SENSORS_SUBFEATURE_TEMP_MAX_ALARM,
          SENSORS_SUBFEATURE_TEMP_MIN_ALARM, SENSORS_SUBFEATURE_TEMP_CRIT_ALARM],
        TEMP_FEATURE (temp_collect sample_env sample_chip sample_temp).2 x = false)
    ∧ render (print_chip_temp sample_env sample_chip sample_temp 12)
        = "temp1:       +25.0°C  (low  = +10.0°C, high = +60.0°C)  \n"
          ++ "                      (crit = +90.0°C)                  \n"
    ∧ ¬ ∃ low high : String,
        contains_text (render (print_chip_temp sample_env sample_chip sample_temp 12))
          ("(low = " ++ low ++ ", high = " ++ high ++ ")") := by
  refine ⟨rfl, by decide, by decide, by decide, by decide, ?_⟩
  rintro ⟨low, high, h⟩
  rw [String.append_assoc, String.append_assoc, String.append_assoc] at h
  have h2 := contains_text_left _ _ _ h
  rw [contains_text_iff] at h2
  revert h2
  decide

theorem print_temp_limits_lits_quiet (env : Env) (limit1 limit2 : ℚ)
    (name1 name2 : Option String) (s : String)
    (h : s ∈ lits (print_temp_limits env limit1 limit2 name1 name2 false)) :
    s ∈ ["(", " = ", ", ", ")  ", ")                  ",
         "                                  "] := by
  unfold print_temp_limits at h
  cases name1 <;> cases name2 <;> simp at h <;>
    simp only [List.mem_cons] <;> tauto

/-- C4 (amended): when the label fetch succeeds, the low and the high limit are both present
and none of the four alarm flags is set, the text written by `print_chip_temp` contains
`(low  = <low>, high = <high>)`, with the name `low` padded to four columns (two blanks before
the first `=`), `<low>` and `<high>` being the minimum and the maximum formatted by `%+5.1f`
and followed by the unit suffix; and no text written from a format string contains `ALARM`. -/
theorem C4_low_high_block (env : Env) (name : sensors_chip_name) (feature : sensors_feature)
    (label_size : Int) (label : String) (hl : sensors_get_label name feature = some label)
    (hmin : TEMP_FEATURE (temp_collect env name feature).2 SENSORS_SUBFEATURE_TEMP_MIN = true)
    (hmax : TEMP_FEATURE (temp_collect env name feature).2 SENSORS_SUBFEATURE_TEMP_MAX = true)
    (ha : ∀ x ∈ [SENSORS_SUBFEATURE_TEMP_ALARM, SENSORS_SUBFEATURE_TEMP_MAX_ALARM,
            SENSORS_SUBFEATURE_TEMP_MIN_ALARM, SENSORS_SUBFEATURE_TEMP_CRIT_ALARM],
          temp_flag_set (temp_collect env name feature).2 x = false) :
    contains_text (render (print_chip_temp env name feature label_size))
        ("(low  = "
          ++ fmt_f true 5 1 (temp_shown env
              (TEMP_FEATURE_VAL (temp_collect env name feature).2 SENSORS_SUBFEATURE_TEMP_MIN))
          ++ env.degstr ++ ", high = "
          ++ fmt_f true 5 1 (temp_shown env
              (TEMP_FEATURE_VAL (temp_collect env name feature).2 SENSORS_SUBFEATURE_TEMP_MAX))
          ++ env.degstr ++ ")")
    ∧ ∀ s ∈ lits (print_chip_temp env name feature label_size), ¬ contains_text s "ALARM" := by
  have heq : print_chip_temp env name feature label_size
      = ((temp_collect env name feature).1
          ++ print_label label label_size
          ++ temp_primary env (temp_collect env name feature).2)
        ++ temp_first_block env (temp_collect env name feature).2
        ++ (temp_crit_line env label_size (temp_collect env name feature).2
              (temp_limits (temp_collect env name feature).2).crit_displayed
            ++ temp_sensor (temp_collect env name feature).2
            ++ [Chunk.lit "\n"]) := by
    unfold print_chip_temp print_chip_temp_body
    rw [hl]
    simp only [List.append_assoc]
  have a1 := ha SENSORS_SUBFEATURE_TEMP_ALARM (by simp)
  have a2 := ha SENSORS_SUBFEATURE_TEMP_MAX_ALARM (by simp)
  have a3 := ha SENSORS_SUBFEATURE_TEMP_MIN_ALARM (by simp)
  have a4 := ha SENSORS_SUBFEATURE_TEMP_CRIT_ALARM (by simp)
  unfold temp_flag_set at a1 a2 a3 a4
  have hfirst : temp_first_block env (temp_collect env name feature).2
      = print_temp_limits env
          (TEMP_FEATURE_VAL (temp_collect env name feature).2 SENSORS_SUBFEATURE_TEMP_MIN)
          (TEMP_FEATURE_VAL (temp_collect env name feature).2 SENSORS_SUBFEATURE_TEMP_MAX)
          (some "low") (some "high") false := by
    unfold temp_first_block temp_limits
    simp [hmin, hmax, a1, a2, a3]
  have hcrit : ∀ s ∈ lits (temp_crit_line env label_size (temp_collect env name feature).2
      (temp_limits (temp_collect env name feature).2).crit_displayed),
      s ∈ ["\n", "(", " = ", ", ", ")  ", ")                  ",
           "                                  "] := by
    intro s hs
    unfold temp_crit_line at hs
    simp only [a4] at hs
    split at hs
    · simp only [List.cons_append, List.nil_append, lits_lit, lits_strw, List.mem_cons] at hs
      rcases hs with hs | hs
      · simp [hs]
      · exact List.mem_cons_of_mem _ (print_temp_limits_lits_quiet _ _ _ _ _ _ hs)
    · simp at hs
  rw [heq, hfirst]
  constructor
  · refine ⟨render ((temp_collect env name feature).1
          ++ print_label label label_size
          ++ temp_primary env (temp_collect env name feature).2),
      "  " ++ render (temp_crit_line env label_size (temp_collect env name feature).2
              (temp_limits (temp_collect env name feature).2).crit_displayed
            ++ temp_sensor (temp_collect env name feature).2
            ++ [Chunk.lit "\n"]), ?_⟩
    rw [render_append, render_append]
    have e1 : pad_str (-4) "low" = "low " := by decide
    have e2 : pad_str (-4) "high" = "high" := by decide
    have e3 : "(low  = " = "(" ++ ("low " ++ " = ") := by decide
    have e4 : ", high = " = ", " ++ ("high" ++ " = ") := by decide
    have e5 : ")  " = ")" ++ "  " := by decide
    simp only [print_temp_limits, render, Chunk.render, Option.getD_some, e1, e2]
    rw [e3, e4, e5]
    simp only [temp_shown, String.append_assoc, String.append_empty, Bool.false_eq_true,
      if_false, List.append_nil]
  · intro s hs
    simp only [lits_append, List.mem_append] at hs
    have hin : s ∈ ["ERROR: Can\x27t get ", " data: ", "\n", ":", "   FAULT  ", "  ", "(",
        " = ", ", ", ")  ", ")                  ", "                                  ",
        "sensor = "] := by
      rcases hs with (((hs | hs) | hs) | hs) | ((hs | hs) | hs)
      · have := collect_lits _ _ _ _ _ _ _ hs
        simp only [List.mem_cons] at this ⊢; tauto
      · rw [print_label_lits] at hs
        simp only [List.mem_cons] at hs ⊢; tauto
      · have := temp_primary_lits _ _ _ hs
        simp only [List.mem_cons] at this ⊢; tauto
      · have := print_temp_limits_lits_quiet _ _ _ _ _ _ hs
        simp only [List.mem_cons] at this ⊢; tauto
      · have := hcrit s hs
        simp only [List.mem_cons] at this ⊢; tauto
      · unfold temp_sensor at hs
        simp only at hs
        split at hs <;> simp at hs
        simp [hs]
      · simp at hs; simp [hs]
    rw [contains_text_iff]
    clear hs
    revert s
    decide

theorem C4_witness :
    sensors_get_label sample_chip sample_temp = some "temp1"
    ∧ contains_text (render (print_chip_temp sample_env sample_chip sample_temp 12))
        "(low  = +10.0°C, high = +60.0°C)" := by
  refine ⟨rfl, ?_⟩
  exact (C4_low_high_block sample_env sample_chip sample_temp 12 "temp1" rfl (by decide)
    (by decide) (by decide)).1
theorem flts_append (a b : List Chunk) : flts (a ++ b) = flts a ++ flts b := by
  induction a with
  | nil => rfl
  | cons c a ih => cases c <;> simp [flts, ih]

theorem flts_plain (a : List Chunk)
    (h : ∀ c ∈ a, (∃ s, c = .lit s) ∨ (∃ s, c = .str s)) : flts a = [] := by
  induction a with
  | nil => rfl
  | cons c a ih =>
    have := ih (fun c hc => h c (List.mem_cons_of_mem _ hc))
    rcases h c (List.mem_cons_self _ _) with ⟨s, rfl⟩ | ⟨s, rfl⟩ <;> simp [flts, this]

theorem flts_collect (env : Env) (name : sensors_chip_name) (feature : sensors_feature)
    (t : Table) (size first_val : Int) :
    flts (sensors_get_available_features env name feature t size first_val).1 = [] := by
  unfold sensors_get_available_features
  exact flts_plain _ (collect_loop_shape env name size first_val feature.subfeatures ([], t)
    (by simp) (Or.inl rfl)).1

theorem flts_print_temp_limits (env : Env) (limit1 limit2 : ℚ) (name1 name2 : Option String)
    (alarm : Bool) :
    flts (print_temp_limits env limit1 limit2 name1 name2 alarm)
      = (match name2 with
         | some _ => [temp_shown env limit1, temp_shown env limit2]
         | none =>
           match name1 with
           | some _ => [temp_shown env limit1]
           | none => []) := by
  unfold print_temp_limits
  cases name1 <;> cases name2 <;> cases alarm <;> simp [flts, temp_shown]

/-- The numbers of the body of `print_chip_temp`: the primary reading unless `FAULT` stands
for it, then the limits of the first-line block, then those of the second-line block. -/
theorem flts_body (env : Env) (label : String) (label_size : Int) (t : Table) :
    flts (print_chip_temp_body env label label_size t)
      = (if temp_flag_set t SENSORS_SUBFEATURE_TEMP_FAULT then []
          else [temp_shown env (TEMP_FEATURE_VAL t SENSORS_SUBFEATURE_TEMP_INPUT)])
        ++ (match (temp_limits t).s2 with
            | some _ => [temp_shown env (temp_limits t).limit1,
                         temp_shown env (temp_limits t).limit2]
            | none =>
              match (temp_limits t).s1 with
              | some _ => [temp_shown env (temp_limits t).limit1]
              | none => [])
        ++ (if !(temp_limits t).crit_displayed && TEMP_FEATURE t SENSORS_SUBFEATURE_TEMP_CRIT
            then
              (if TEMP_FEATURE t SENSORS_SUBFEATURE_TEMP_CRIT_HYST then
                [temp_shown env (TEMP_FEATURE_VAL t SENSORS_SUBFEATURE_TEMP_CRIT),
                 temp_shown env (TEMP_FEATURE_VAL t SENSORS_SUBFEATURE_TEMP_CRIT_HYST)]
              else [temp_shown env (TEMP_FEATURE_VAL t SENSORS_SUBFEATURE_TEMP_CRIT)])
            else []) := by
  unfold print_chip_temp_body temp_first_block
  simp only [flts_append, flts_print_temp_limits]
  have e1 : flts (print_label label label_size) = [] := rfl
  have e2 : flts (temp_primary env t)
      = (if temp_flag_set t SENSORS_SUBFEATURE_TEMP_FAULT then []
          else [temp_shown env (TEMP_FEATURE_VAL t SENSORS_SUBFEATURE_TEMP_INPUT)]) := by
    unfold temp_primary temp_flag_set
    simp only
    split <;> simp [flts, temp_shown]
  have e3 : flts (temp_sensor t) = [] := by
    unfold temp_sensor
    simp only
    split <;> rfl
  have e4 : flts [Chunk.lit "\n"] = [] := rfl
  have e5 : flts (temp_crit_line env label_size t (temp_limits t).crit_displayed)
      = (if !(temp_limits t).crit_displayed && TEMP_FEATURE t SENSORS_SUBFEATURE_TEMP_CRIT
            then
              (if TEMP_FEATURE t SENSORS_SUBFEATURE_TEMP_CRIT_HYST then
                [temp_shown env (TEMP_FEATURE_VAL t SENSORS_SUBFEATURE_TEMP_CRIT),
                 temp_shown env (TEMP_FEATURE_VAL t SENSORS_SUBFEATURE_TEMP_CRIT_HYST)]
              else [temp_shown env (TEMP_FEATURE_VAL t SENSORS_SUBFEATURE_TEMP_CRIT)])
            else []) := by
    unfold temp_crit_line
    simp only
    split
    · simp only [List.cons_append, List.nil_append, flts]
      split <;> simp [flts_print_temp_limits]
    · rfl
  rw [e1, e2, e3, e4, e5]
  simp

theorem temp_limits_vals (t : Table) :
    (∃ x, (temp_limits t).limit1 = TEMP_FEATURE_VAL t x ∨ (temp_limits t).s1 = none)
    ∧ (∃ x, (temp_limits t).limit2 = TEMP_FEATURE_VAL t x ∨ (temp_limits t).s2 = none) := by
  unfold temp_limits
  cases TEMP_FEATURE t SENSORS_SUBFEATURE_TEMP_MAX <;>
  cases TEMP_FEATURE t SENSORS_SUBFEATURE_TEMP_MIN <;>
  cases TEMP_FEATURE t SENSORS_SUBFEATURE_TEMP_MAX_HYST <;>
  cases TEMP_FEATURE t SENSORS_SUBFEATURE_TEMP_CRIT <;>
  cases TEMP_FEATURE t SENSORS_SUBFEATURE_TEMP_CRIT_HYST <;>
  simp

theorem in_alarms_dedicated (t : Table)
    (hp : (IN_FEATURE t SENSORS_SUBFEATURE_IN_MAX_ALARM ||
            IN_FEATURE t SENSORS_SUBFEATURE_IN_MIN_ALARM) = true) :
    render (in_alarms t)
      = claimed_in_alarm_text (truthy (IN_FEATURE_VAL t SENSORS_SUBFEATURE_IN_MIN_ALARM))
          (truthy (IN_FEATURE_VAL t SENSORS_SUBFEATURE_IN_MAX_ALARM)) := by
  unfold in_alarms claimed_in_alarm_text
  simp only [hp, if_true]
  cases truthy (IN_FEATURE_VAL t SENSORS_SUBFEATURE_IN_MIN_ALARM) <;>
  cases truthy (IN_FEATURE_VAL t SENSORS_SUBFEATURE_IN_MAX_ALARM) <;>
  decide

theorem print_chip_in_parts (env : Env) (name : sensors_chip_name) (feature : sensors_feature)
    (label_size : Int) (label : String) (hl : sensors_get_label name feature = some label) :
    print_chip_in env name feature label_size
      = ((in_collect env name feature).1
          ++ print_label label label_size
          ++ [Chunk.flt true 6 2
                (IN_FEATURE_VAL (in_collect env name feature).2 SENSORS_SUBFEATURE_IN_INPUT),
              Chunk.lit " V"]
          ++ in_limits (in_collect env name feature).2)
        ++ in_alarms (in_collect env name feature).2
        ++ [Chunk.lit "\n"] := by
  unfold print_chip_in print_chip_in_body
  rw [hl]
  simp only [List.append_assoc]

theorem render_newline : render [Chunk.lit "\n"] = "\n" := by decide

/-- C11: when the label fetch succeeds and at least one of the min-alarm and max-alarm roles
is present, the text of `print_chip_in` is the text up to the limit block, then ` ALARM (MIN)`
if only the min-alarm value is non-zero, ` ALARM (MAX)` if only the max-alarm value is,
` ALARM (MIN, MAX)` if both are and nothing if neither is, then the newline; the combined
alarm role has no part in it. -/
theorem C11_in_dedicated_alarms (env : Env) (name : sensors_chip_name)
    (feature : sensors_feature) (label_size : Int) (label : String)
    (hl : sensors_get_label name feature = some label)
    (hp : (IN_FEATURE (in_collect env name feature).2 SENSORS_SUBFEATURE_IN_MAX_ALARM ||
            IN_FEATURE (in_collect env name feature).2 SENSORS_SUBFEATURE_IN_MIN_ALARM)
          = true) :
    render (print_chip_in env name feature label_size)
      = render ((in_collect env name feature).1
          ++ print_label label label_size
          ++ [Chunk.flt true 6 2
                (IN_FEATURE_VAL (in_collect env name feature).2 SENSORS_SUBFEATURE_IN_INPUT),
              Chunk.lit " V"]
          ++ in_limits (in_collect env name feature).2)
        ++ claimed_in_alarm_text
            (truthy (IN_FEATURE_VAL (in_collect env name feature).2
              SENSORS_SUBFEATURE_IN_MIN_ALARM))
            (truthy (IN_FEATURE_VAL (in_collect env name feature).2
              SENSORS_SUBFEATURE_IN_MAX_ALARM))
        ++ "\n" := by
  rw [print_chip_in_parts env name feature label_size label hl, render_append, render_append,
    in_alarms_dedicated _ hp, render_newline]

theorem C11_witness :
    sensors_get_label sample_chip sample_in_alarms = some "in2"
    ∧ (IN_FEATURE (in_collect sample_env sample_chip sample_in_alarms).2
          SENSORS_SUBFEATURE_IN_MAX_ALARM ||
        IN_FEATURE (in_collect sample_env sample_chip sample_in_alarms).2
          SENSORS_SUBFEATURE_IN_MIN_ALARM) = true
    ∧ render (print_chip_in sample_env sample_chip sample_in_alarms 12)
        = "in2:         +4.00 V ALARM (MAX)\n" := by
  refine ⟨rfl, by decide, ?_⟩
  rw [C11_in_dedicated_alarms sample_env sample_chip sample_in_alarms 12 "in2" rfl (by decide)]
  decide

/-- C12, counterexample: a voltage feature whose only alarm role is the combined one, with
value 0: three blanks stand between the input value and the end of the line. -/
theorem C12_counterexample :
    sensors_get_label sample_chip sample_in_combined = some "in1"
    ∧ IN_FEATURE (in_collect sample_env sample_chip sample_in_combined).2
        SENSORS_SUBFEATURE_IN_MAX_ALARM = false
    ∧ IN_FEATURE (in_collect sample_env sample_chip sample_in_combined).2
        SENSORS_SUBFEATURE_IN_MIN_ALARM = false
    ∧ IN_FEATURE (in_collect sample_env sample_chip sample_in_combined).2
        SENSORS_SUBFEATURE_IN_ALARM = true
    ∧ truthy (IN_FEATURE_VAL (in_collect sample_env sample_chip sample_in_combined).2
        SENSORS_SUBFEATURE_IN_ALARM) = false
    ∧ render (print_chip_in sample_env sample_chip sample_in_combined 12)
        = "in1:         +4.00 V" ++ "   " ++ "\n" := by
  decide

/-- C12 (amended): when the label fetch succeeds, neither the min-alarm nor the max-alarm role
is present and the combined alarm role is present, `print_chip_in` writes, after the limit
block (or the input value), three blanks followed by `ALARM` if the combined alarm value is
non-zero and three blanks alone if it is zero, and then the newline. -/
theorem C12_in_combined_alarm (env : Env) (name : sensors_chip_name)
    (feature : sensors_feature) (label_size : Int) (label : String)
    (hl : sensors_get_label name feature = some label)
    (hmax : IN_FEATURE (in_collect env name feature).2 SENSORS_SUBFEATURE_IN_MAX_ALARM = false)
    (hmin : IN_FEATURE (in_collect env name feature).2 SENSORS_SUBFEATURE_IN_MIN_ALARM = false)
    (hc : IN_FEATURE (in_collect env name feature).2 SENSORS_SUBFEATURE_IN_ALARM = true) :
    print_chip_in env name feature label_size
        = ((in_collect env name feature).1
            ++ print_label label label_size
            ++ [Chunk.flt true 6 2
                  (IN_FEATURE_VAL (in_collect env name feature).2 SENSORS_SUBFEATURE_IN_INPUT),
                Chunk.lit " V"]
            ++ in_limits (in_collect env name feature).2)
          ++ [Chunk.lit "   ",
              Chunk.str (if truthy (IN_FEATURE_VAL (in_collect env name feature).2
                  SENSORS_SUBFEATURE_IN_ALARM) then "ALARM" else "")]
          ++ [Chunk.lit "\n"]
    ∧ render (print_chip_in env name feature label_size)
        = render ((in_collect env name feature).1
            ++ print_label label label_size
            ++ [Chunk.flt true 6 2
                  (IN_FEATURE_VAL (in_collect env name feature).2 SENSORS_SUBFEATURE_IN_INPUT),
                Chunk.lit " V"]
            ++ in_limits (in_collect env name feature).2)
          ++ (if truthy (IN_FEATURE_VAL (in_collect env name feature).2
                  SENSORS_SUBFEATURE_IN_ALARM) then "   ALARM" else "   ")
          ++ "\n" := by
  have ha : in_alarms (in_collect env name feature).2
      = [Chunk.lit "   ",
         Chunk.str (if truthy (IN_FEATURE_VAL (in_collect env name feature).2
            SENSORS_SUBFEATURE_IN_ALARM) then "ALARM" else "")] := by
    unfold in_alarms
    simp [hmax, hmin, hc]
  rw [print_chip_in_parts env name feature label_size label hl, ha]
  refine ⟨rfl, ?_⟩
  rw [render_append, render_append, render_newline]
  congr 2
  cases truthy (IN_FEATURE_VAL (in_collect env name feature).2 SENSORS_SUBFEATURE_IN_ALARM) <;>
    decide

theorem C12_witness :
    sensors_get_label sample_chip sample_in_combined = some "in1"
    ∧ IN_FEATURE (in_collect sample_env sample_chip sample_in_combined).2
        SENSORS_SUBFEATURE_IN_MAX_ALARM = false
    ∧ IN_FEATURE (in_collect sample_env sample_chip sample_in_combined).2
        SENSORS_SUBFEATURE_IN_MIN_ALARM = false
    ∧ IN_FEATURE (in_collect sample_env sample_chip sample_in_combined).2
        SENSORS_SUBFEATURE_IN_ALARM = true
    ∧ print_chip_in sample_env sample_chip sample_in_combined 12
        = [Chunk.str "in1", Chunk.lit ":", Chunk.strw 8 "", Chunk.flt true 6 2 4,
           Chunk.lit " V", Chunk.lit "   ", Chunk.str "", Chunk.lit "\n"] := by
  refine ⟨rfl, by decide, by decide, by decide, ?_⟩
  rw [(C12_in_combined_alarm sample_env sample_chip sample_in_combined 12 "in1" rfl
    (by decide) (by decide) (by decide)).1]
  decide

theorem print_chip_fan_body_parts (t : Table) :
    print_chip_fan_body t = fan_primary t ++ fan_rest t := by
  unfold print_chip_fan_body fan_primary fan_rest
  simp only [List.append_assoc]

theorem fan_rest_lits (t : Table) (s : String) (h : s ∈ lits (fan_rest t)) :
    s ∈ ["  (min = ", " RPM, div = ", ")", " RPM)", "  (div = ", "  ALARM", "\n"] := by
  revert h
  unfold fan_rest
  cases FAN_FEATURE t SENSORS_SUBFEATURE_FAN_MIN <;>
  cases FAN_FEATURE t SENSORS_SUBFEATURE_FAN_DIV <;>
  cases (FAN_FEATURE t SENSORS_SUBFEATURE_FAN_ALARM &&
      truthy (FAN_FEATURE_VAL t SENSORS_SUBFEATURE_FAN_ALARM)) <;>
  simp <;> tauto

theorem temp_limits_alarm (t : Table) : (temp_limits t).alarm = claimed_first_alarm t := by
  unfold temp_limits claimed_first_alarm temp_flag_set
  cases TEMP_FEATURE t SENSORS_SUBFEATURE_TEMP_MAX <;>
  cases TEMP_FEATURE t SENSORS_SUBFEATURE_TEMP_MIN <;>
  cases TEMP_FEATURE t SENSORS_SUBFEATURE_TEMP_MAX_HYST <;>
  cases TEMP_FEATURE t SENSORS_SUBFEATURE_TEMP_CRIT <;>
  cases (TEMP_FEATURE t SENSORS_SUBFEATURE_TEMP_ALARM &&
    truthy (TEMP_FEATURE_VAL t SENSORS_SUBFEATURE_TEMP_ALARM)) <;>
  cases (TEMP_FEATURE t SENSORS_SUBFEATURE_TEMP_MAX_ALARM &&
    truthy (TEMP_FEATURE_VAL t SENSORS_SUBFEATURE_TEMP_MAX_ALARM)) <;>
  cases (TEMP_FEATURE t SENSORS_SUBFEATURE_TEMP_MIN_ALARM &&
    truthy (TEMP_FEATURE_VAL t SENSORS_SUBFEATURE_TEMP_MIN_ALARM)) <;>
  cases (TEMP_FEATURE t SENSORS_SUBFEATURE_TEMP_CRIT_ALARM &&
    truthy (TEMP_FEATURE_VAL t SENSORS_SUBFEATURE_TEMP_CRIT_ALARM)) <;>
  simp

/-- C17: when the label fetch succeeds, the first line of `print_chip_temp` carries the tag
`ALARM` right after its limit block exactly when the combined alarm flag is set, or the high
limit is present and the max-alarm flag is set, or the high and the low limit are present and
the min-alarm flag is set, or the critical limit is shown in the first-line block and the
crit-alarm flag is set (`claimed_first_alarm`); the second-line block, when there is one,
carries the tag exactly when the crit-alarm flag is set. -/
theorem C17_alarm_tags (env : Env) (name : sensors_chip_name) (feature : sensors_feature)
    (label_size : Int) (label : String) (hl : sensors_get_label name feature = some label) :
    print_chip_temp env name feature label_size
      = ((temp_collect env name feature).1 ++ print_label label label_size
          ++ temp_primary env (temp_collect env name feature).2)
        ++ (claimed_first_block env (temp_collect env name feature).2
            ++ alarm_tag (claimed_first_alarm (temp_collect env name feature).2))
        ++ (if claimed_two_lines (temp_collect env name feature).2 then
              [Chunk.lit "\n", Chunk.strw (label_size + 10) ""]
                ++ claimed_crit_block env (temp_collect env name feature).2
                ++ alarm_tag (temp_flag_set (temp_collect env name feature).2
                    SENSORS_SUBFEATURE_TEMP_CRIT_ALARM)
            else [])
        ++ (temp_sensor (temp_collect env name feature).2 ++ [Chunk.lit "\n"]) := by
  unfold print_chip_temp print_chip_temp_body
  rw [hl]
  simp only [temp_first_block_eq, temp_crit_line_eq, temp_limits_alarm, temp_flag_set,
    List.append_assoc]

theorem C17_witness :
    sensors_get_label sample_chip sample_temp_alarm = some "temp4"
    ∧ claimed_first_alarm (temp_collect sample_env sample_chip sample_temp_alarm).2 = true
    ∧ temp_flag_set (temp_collect sample_env sample_chip sample_temp_alarm).2
        SENSORS_SUBFEATURE_TEMP_CRIT_ALARM = false
    ∧ render (print_chip_temp sample_env sample_chip sample_temp_alarm 12)
        = "temp4:       +25.0°C  (low  = +10.0°C, high = +60.0°C)  ALARM  \n"
          ++ "                      (crit = +90.0°C)                  \n" := by
  refine ⟨rfl, by decide, by decide, ?_⟩
  rw [C17_alarm_tags sample_env sample_chip sample_temp_alarm 12 "temp4" rfl]
  decide

/-- C14: when the label fetch fails, `print_chip_temp`, `print_chip_in` and `print_chip_fan`
each write their one diagnostic line and nothing else, and `print_chip_vid` and
`print_chip_beep_enable` write nothing.  The latter two also write nothing when the feature
has no subfeature and when the read of its first subfeature fails; when there is a first
subfeature, the label is fetched and the read succeeds, they write one line: the label column
and the value. -/
theorem C14_label_failure (env : Env) (name : sensors_chip_name) (feature : sensors_feature)
    (label_size : Int) :
    (sensors_get_label name feature = none →
      print_chip_temp env name feature label_size
          = [Chunk.lit "ERROR: Can\x27t get temperature label!\n"]
      ∧ print_chip_in env name feature label_size = [Chunk.lit "ERROR: Can\x27t get in label!\n"]
      ∧ print_chip_fan env name feature label_size
          = [Chunk.lit "ERROR: Can\x27t get fan label!\n"]
      ∧ print_chip_vid name feature label_size = []
      ∧ print_chip_beep_enable name feature label_size = [])
    ∧ (feature.subfeatures = [] →
        print_chip_vid name feature label_size = []
        ∧ print_chip_beep_enable name feature label_size = [])
    ∧ (∀ sub rest err, feature.subfeatures = sub :: rest →
        sensors_get_value name sub.number = .error err →
        print_chip_vid name feature label_size = []
        ∧ print_chip_beep_enable name feature label_size = [])
    ∧ (∀ sub rest label v, feature.subfeatures = sub :: rest →
        sensors_get_label name feature = some label →
        sensors_get_value name sub.number = .ok v →
        print_chip_vid name feature label_size
            = print_label label label_size ++ [Chunk.flt true 6 3 v, Chunk.lit " V\n"]
        ∧ print_chip_beep_enable name feature label_size
            = print_label label label_size
              ++ [Chunk.str (if truthy v then "enabled" else "disabled"), Chunk.lit "\n"]
        ∧ lit_newlines (print_chip_vid name feature label_size) = 1
        ∧ lit_newlines (print_chip_beep_enable name feature label_size) = 1) := by
  refine ⟨?_, ?_, ?_, ?_⟩
  · intro h
    unfold print_chip_temp print_chip_in print_chip_fan print_chip_vid print_chip_beep_enable
    rw [h]
    refine ⟨rfl, rfl, rfl, ?_, ?_⟩ <;> cases feature.subfeatures.head? <;> rfl
  · intro h
    unfold print_chip_vid print_chip_beep_enable
    rw [h]
    exact ⟨rfl, rfl⟩
  · intro sub rest err h hv
    unfold print_chip_vid print_chip_beep_enable
    rw [h]
    simp only [List.head?_cons, hv]
    constructor <;> cases sensors_get_label name feature <;> rfl
  · intro sub rest label v h hl hv
    have e1 : print_chip_vid name feature label_size
        = print_label label label_size ++ [Chunk.flt true 6 3 v, Chunk.lit " V\n"] := by
      unfold print_chip_vid
      rw [h]
      simp only [List.head?_cons, hv, hl]
    have e2 : print_chip_beep_enable name feature label_size
        = print_label label label_size
          ++ [Chunk.str (if truthy v then "enabled" else "disabled"), Chunk.lit "\n"] := by
      unfold print_chip_beep_enable
      rw [h]
      simp only [List.head?_cons, hv, hl]
    refine ⟨e1, e2, ?_, ?_⟩
    · rw [e1]; simp [lit_newlines, print_label]; decide
    · rw [e2]; simp [lit_newlines, print_label]; decide

theorem C14_witness :
    (sensors_get_label sample_chip sample_no_label = none
      ∧ render (print_chip_temp sample_env sample_chip sample_no_label 12)
          = "ERROR: Can\x27t get temperature label!\n")
    ∧ (sample_vid_fail.subfeatures = [⟨"cpu1_vid", 9, SENSORS_SUBFEATURE_VID, 1⟩]
      ∧ sensors_get_value sample_chip 9 = .error (-5)
      ∧ print_chip_vid sample_chip sample_vid_fail 12 = [])
    ∧ (sample_vid.subfeatures = [⟨"cpu0_vid", 5, SENSORS_SUBFEATURE_VID, 1⟩]
      ∧ sensors_get_label sample_chip sample_vid = some "vid"
      ∧ sensors_get_value sample_chip 5 = .ok 4
      ∧ render (print_chip_vid sample_chip sample_vid 12) = "vid:        +4.000 V\n") := by
  refine ⟨⟨rfl, ?_⟩, ⟨rfl, rfl, ?_⟩, ⟨rfl, rfl, rfl, ?_⟩⟩
  · rw [((C14_label_failure sample_env sample_chip sample_no_label 12).1 rfl).1]
    decide
  · exact ((C14_label_failure sample_env sample_chip sample_vid_fail 12).2.2.1
      _ _ (-5) rfl rfl).1
  · rw [((C14_label_failure sample_env sample_chip sample_vid 12).2.2.2
      _ _ "vid" 4 rfl rfl rfl).1]
    decide

theorem foldl_append_outputs {α : Type} (f : α → List Chunk) (l : List α)
    (init : List Chunk) :
    l.foldl (fun out x => out ++ f x) init = init ++ concat_outputs (l.map f) := by
  induction l generalizing init with
  | nil => simp [concat_outputs]
  | cons a l ih => simp [ih, concat_outputs, List.append_assoc]

theorem concat_outputs_filter (f : sensors_feature → List Chunk) (p : sensors_feature → Bool)
    (l : List sensors_feature) (h : ∀ x ∈ l, p x = false → f x = []) :
    concat_outputs (l.map f) = concat_outputs ((l.filter p).map f) := by
  induction l with
  | nil => rfl
  | cons a l ih =>
    have ih2 := ih (fun x hx => h x (List.mem_cons_of_mem _ hx))
    cases hp : p a
    · simp [List.filter_cons, hp, concat_outputs, h a (List.mem_cons_self _ _) hp, ih2]
    · simp [List.filter_cons, hp, concat_outputs, ih2]

/-- C15: the output of `print_chip` is the concatenation, in enumeration order, of what the
`switch` prints for each feature with the label width computed once for the chip: the output
of `print_chip_temp`, `print_chip_in`, `print_chip_fan`, `print_chip_vid` or
`print_chip_beep_enable` for a feature of that kind, and nothing for a feature of any other
kind, so that the output is the same as if only the features of the five kinds were
rendered, with the same width. -/
theorem C15_print_chip (env : Env) (name : sensors_chip_name) :
    print_chip env name
        = concat_outputs
            (name.features.map (print_feature env name (sensors_get_label_size name)))
    ∧ (∀ (feature : sensors_feature) (w : Int),
        (feature.type = SENSORS_SUBFEATURE_TEMP_INPUT →
          print_feature env name w feature = print_chip_temp env name feature w)
        ∧ (feature.type = SENSORS_SUBFEATURE_IN_INPUT →
          print_feature env name w feature = print_chip_in env name feature w)
        ∧ (feature.type = SENSORS_SUBFEATURE_FAN_INPUT →
          print_feature env name w feature = print_chip_fan env name feature w)
        ∧ (feature.type = SENSORS_SUBFEATURE_VID →
          print_feature env name w feature = print_chip_vid name feature w)
        ∧ (feature.type = SENSORS_SUBFEATURE_BEEP_ENABLE →
          print_feature env name w feature = print_chip_beep_enable name feature w)
        ∧ (known_kind feature = false → print_feature env name w feature = []))
    ∧ print_chip env name
        = concat_outputs
            ((name.features.filter known_kind).map
              (print_feature env name (sensors_get_label_size name))) := by
  have hdisp : ∀ (feature : sensors_feature) (w : Int),
      known_kind feature = false → print_feature env name w feature = [] := by
    intro feature w h
    unfold known_kind at h
    simp only [decide_eq_false_iff_not, not_or] at h
    unfold print_feature
    simp [h.1, h.2.1, h.2.2.1, h.2.2.2.1, h.2.2.2.2]
  have hcat : print_chip env name
      = concat_outputs
          (name.features.map (print_feature env name (sensors_get_label_size name))) := by
    unfold print_chip
    simp only [foldl_append_outputs, List.nil_append]
  refine ⟨hcat, ?_, ?_⟩
  · intro feature w
    refine ⟨?_, ?_, ?_, ?_, ?_, hdisp feature w⟩ <;> intro h <;> unfold print_feature <;>
      rw [h] <;> simp [SENSORS_SUBFEATURE_TEMP_INPUT, SENSORS_SUBFEATURE_IN_INPUT,
        SENSORS_SUBFEATURE_FAN_INPUT, SENSORS_SUBFEATURE_VID, SENSORS_SUBFEATURE_BEEP_ENABLE]
  · rw [hcat]
    exact concat_outputs_filter _ _ _ (fun x _ hx => hdisp x _ hx)

theorem C15_witness :
    known_kind sample_other_kind = false
    ∧ sample_in.type = SENSORS_SUBFEATURE_IN_INPUT
    ∧ sample_vid.type = SENSORS_SUBFEATURE_VID
    ∧ sensors_get_label_size sample_chip_mixed = 23
    ∧ print_chip sample_env sample_chip_mixed
        = print_chip_in sample_env sample_chip_mixed sample_in 23
          ++ print_chip_vid sample_chip_mixed sample_vid 23 := by
  have h := C15_print_chip sample_env sample_chip_mixed
  have d1 := (h.2.1 sample_in 23).2.1 rfl
  have d2 := (h.2.1 sample_vid 23).2.2.2.1 rfl
  have d3 := (h.2.1 sample_other_kind 23).2.2.2.2.2 (by decide)
  have hw : sensors_get_label_size sample_chip_mixed = 23 := by decide
  have hf : sample_chip_mixed.features = [sample_in, sample_other_kind, sample_vid] := rfl
  refine ⟨by decide, rfl, rfl, hw, ?_⟩
  rw [h.1, hw, hf]
  simp only [List.map_cons, List.map_nil, concat_outputs, d1, d2, d3, List.nil_append,
    List.append_nil]

theorem within_concat {α : Type} (f : α → List Chunk) (l : List α) (x : α) (h : x ∈ l) :
    within (f x) (concat_outputs (l.map f)) := by
  induction l with
  | nil => cases h
  | cons a l ih =>
    rcases List.mem_cons.mp h with rfl | h
    · exact ⟨[], concat_outputs (l.map f), by simp [concat_outputs]⟩
    · obtain ⟨pre, post, e⟩ := ih h
      exact ⟨f a ++ pre, post, by simp [concat_outputs, e, List.append_assoc]⟩

theorem within_trans (a b c : List Chunk) (h1 : within a b) (h2 : within b c) :
    within a c := by
  obtain ⟨p1, q1, rfl⟩ := h1
  obtain ⟨p2, q2, rfl⟩ := h2
  exact ⟨p2 ++ p1, q1 ++ q2, by simp only [List.append_assoc]⟩

theorem print_raw_feature_eq (name : sensors_chip_name) (freed : String → String)
    (feature : sensors_feature) (label : String)
    (hl : sensors_get_label name feature = some label) :
    print_raw_feature name freed feature
      = [Chunk.str label, Chunk.lit ":\n"]
        ++ concat_outputs
            (feature.subfeatures.map (print_raw_subfeature name (freed label))) := by
  unfold print_raw_feature
  rw [hl]
  simp only [foldl_append_outputs, List.nil_append]

/-- C16, counterexample: the label of the first feature of the sample chip cannot be fetched;
its subfeature `temp5_input` is readable and its value can be read, yet the output names it
nowhere: the feature gives the one line `ERROR: Can't get feature label!`. -/
theorem C16_counterexample :
    sample_no_label ∈ sample_chip_raw.features
    ∧ sensors_get_label sample_chip_raw sample_no_label = none
    ∧ (⟨"temp5_input", 1, SENSORS_SUBFEATURE_TEMP_INPUT, 1⟩ : sensors_subfeature)
        ∈ sample_no_label.subfeatures
    ∧ readable ⟨"temp5_input", 1, SENSORS_SUBFEATURE_TEMP_INPUT, 1⟩ = true
    ∧ sensors_get_value sample_chip_raw 1 = .ok 25
    ∧ render (print_chip_raw sample_chip_raw (fun l => l))
        = "ERROR: Can\x27t get feature label!\n"
          ++ "in0:\n" ++ "  in0_input: 4.00\n" ++ "  in0_min: 10.00\n"
    ∧ Chunk.str "temp5_input" ∉ print_chip_raw sample_chip_raw (fun l => l) := by
  refine ⟨by simp [sample_chip_raw], rfl, by simp [sample_no_label], by decide, rfl,
    by decide, by decide⟩

/-- C16 (amended): the output of `print_chip_raw` is the concatenation, in enumeration order,
of one part per feature.  A feature whose label fetch fails gives the one line
`ERROR: Can't get feature label!`, and its subfeatures are not listed.  A feature whose label
is fetched gives the label line followed by one line per subfeature, in order, and each of
these lines stands in the output; for a readable subfeature it is the name with the value when
the read succeeds and the error line naming the subfeature when the read fails. -/
theorem C16_print_chip_raw (name : sensors_chip_name) (freed : String → String) :
    print_chip_raw name freed
        = concat_outputs (name.features.map (print_raw_feature name freed))
    ∧ (∀ feature, sensors_get_label name feature = none →
        print_raw_feature name freed feature
          = [Chunk.lit "ERROR: Can\x27t get feature label!\n"])
    ∧ (∀ feature ∈ name.features, ∀ label, sensors_get_label name feature = some label →
        print_raw_feature name freed feature
            = [Chunk.str label, Chunk.lit ":\n"]
              ++ concat_outputs
                  (feature.subfeatures.map (print_raw_subfeature name (freed label)))
        ∧ ∀ sub ∈ feature.subfeatures,
            within (print_raw_subfeature name (freed label) sub) (print_chip_raw name freed)
            ∧ (readable sub = true →
                (∀ v, sensors_get_value name sub.number = .ok v →
                  print_raw_subfeature name (freed label) sub
                    = [Chunk.lit "  ", Chunk.str sub.name, Chunk.lit ": ",
                       Chunk.flt false 0 2 v, Chunk.lit "\n"])
                ∧ (∀ err, sensors_get_value name sub.number = .error err →
                  print_raw_subfeature name (freed label) sub
                    = [Chunk.lit "ERROR: Can\x27t get feature \x60", Chunk.str sub.name,
                       Chunk.lit "\x27 data!\n"]))) := by
  have hcat : print_chip_raw name freed
      = concat_outputs (name.features.map (print_raw_feature name freed)) := by
    unfold print_chip_raw
    simp only [foldl_append_outputs, List.nil_append]
  refine ⟨hcat, ?_, ?_⟩
  · intro feature hl
    unfold print_raw_feature
    rw [hl]
  · intro feature hf label hl
    refine ⟨print_raw_feature_eq name freed feature label hl, ?_⟩
    intro sub hs
    refine ⟨?_, ?_⟩
    · rw [hcat]
      apply within_trans _ (print_raw_feature name freed feature)
      · rw [print_raw_feature_eq name freed feature label hl]
        obtain ⟨pre, post, e⟩ :=
          within_concat (print_raw_subfeature name (freed label)) _ sub hs
        exact ⟨[Chunk.str label, Chunk.lit ":\n"] ++ pre, post, by
          rw [e]; simp only [List.append_assoc]⟩
      · exact within_concat (print_raw_feature name freed) _ feature hf
    · intro hr
      unfold readable at hr
      rw [decide_eq_true_iff] at hr
      constructor
      · intro v hv
        unfold print_raw_subfeature
        rw [if_pos hr, hv]
      · intro err hv
        unfold print_raw_subfeature
        rw [if_pos hr, hv]

theorem C16_witness :
    sample_in ∈ sample_chip_raw.features
    ∧ sensors_get_label sample_chip_raw sample_in = some "in0"
    ∧ (⟨"in0_min", 3, SENSORS_SUBFEATURE_IN_MIN, 3⟩ : sensors_subfeature) ∈ sample_in.subfeatures
    ∧ readable ⟨"in0_min", 3, SENSORS_SUBFEATURE_IN_MIN, 3⟩ = true
    ∧ sensors_get_value sample_chip_raw 3 = .ok 10
    ∧ within [Chunk.lit "  ", Chunk.str "in0_min", Chunk.lit ": ", Chunk.flt false 0 2 10,
          Chunk.lit "\n"]
        (print_chip_raw sample_chip_raw (fun l => l)) := by
  have hf : sample_in ∈ sample_chip_raw.features := by simp [sample_chip_raw]
  have hs : (⟨"in0_min", 3, SENSORS_SUBFEATURE_IN_MIN, 3⟩ : sensors_subfeature)
      ∈ sample_in.subfeatures := by simp [sample_in]
  have h := ((C16_print_chip_raw sample_chip_raw (fun l => l)).2.2 sample_in hf "in0" rfl).2
    _ hs
  refine ⟨hf, rfl, hs, by decide, rfl, ?_⟩
  rw [← (h.2 (by decide)).1 10 rfl]
  exact h.1
theorem length_spaces (n : Nat) : (spaces n).length = n := by
  simp [spaces, String.length]

theorem length_pad_str (w : Int) (s : String) :
    (pad_str w s).length = max w.natAbs s.length := by
  unfold pad_str
  split
  · simp only [String.length_append, length_spaces]
    omega
  · simp only [String.length_append, length_spaces]
    omega

theorem render_cons (c : Chunk) (out : List Chunk) :
    render (c :: out) = c.render ++ render out := rfl

theorem label_le_label_size (name : sensors_chip_name) (feature : sensors_feature)
    (label : String) (hf : feature ∈ name.features)
    (hl : sensors_get_label name feature = some label) :
    (label.length : Int) + 1 ≤ sensors_get_label_size name := by
  rw [label_size_eq]
  have hmem : label.length ∈ label_lengths name := by
    unfold label_lengths
    simp only [List.mem_filterMap, Option.map_eq_some']
    exact ⟨feature, hf, label, hl, rfl⟩
  have hle : ∀ (l : List Nat) (x : Nat), x ∈ l → x ≤ l.foldr max 0 := by
    intro l
    induction l with
    | nil => intro x hx; cases hx
    | cons a l ih =>
      intro x hx
      simp only [List.foldr_cons]
      rcases List.mem_cons.mp hx with rfl | hx
      · omega
      · have := ih x hx
        omega
  have := hle _ _ hmem
  omega

theorem print_label_text (label : String) (space : Int)
    (h : (label.length : Int) + 1 ≤ space) :
    render (print_label label space)
        = label ++ ":" ++ spaces (space - ((label.length : Int) + 1)).toNat
    ∧ ((render (print_label label space)).length : Int) = space := by
  have e : render (print_label label space)
      = label ++ ":" ++ spaces (space - ((label.length : Int) + 1)).toNat := by
    unfold print_label
    simp only [render, Chunk.render, pad_str]
    rw [if_neg (by omega)]
    have : "".length = 0 := rfl
    simp only [this, Nat.sub_zero, String.append_empty, String.append_assoc]
  refine ⟨e, ?_⟩
  rw [e]
  simp only [String.length_append, length_spaces]
  have : ":".length = 1 := rfl
  rw [this]
  push_cast
  omega

theorem length_strw_name (n : String) (h : n.length ≤ 4) :
    (Chunk.strw (-4) n).render.length = 4 := by
  simp only [Chunk.render, length_pad_str]
  have : (-4 : Int).natAbs = 4 := rfl
  omega

theorem print_temp_limits_alarm (env : Env) (limit1 limit2 : ℚ) (name1 name2 : Option String)
    (alarm : Bool) :
    print_temp_limits env limit1 limit2 name1 name2 alarm
      = print_temp_limits env limit1 limit2 name1 name2 false ++ alarm_tag alarm := by
  unfold print_temp_limits alarm_tag
  simp

/-- C19: when the unit suffix is 2 characters wide, each limit name has at most 4 characters
and each limit number as formatted by `%+5.1f` fills exactly its 5 columns, the limit block
that `print_temp_limits` writes before the alarm tag is 34 characters wide in each of its
three variants: two limits, one limit, blank filler.  The alarm tag comes right after the
block. -/
theorem C19_block_width (env : Env) (limit1 limit2 : ℚ) (n1 n2 : String)
    (hd : env.degstr.length = 2) (hn1 : n1.length ≤ 4) (hn2 : n2.length ≤ 4)
    (h1 : (fmt_f true 5 1 (temp_shown env limit1)).length = 5)
    (h2 : (fmt_f true 5 1 (temp_shown env limit2)).length = 5) :
    (render (print_temp_limits env limit1 limit2 (some n1) (some n2) false)).length = 34
    ∧ (render (print_temp_limits env limit1 limit2 (some n1) none false)).length = 34
    ∧ (render (print_temp_limits env limit1 limit2 none none false)).length = 34
    ∧ ∀ (name1 name2 : Option String) (alarm : Bool),
        print_temp_limits env limit1 limit2 name1 name2 alarm
          = print_temp_limits env limit1 limit2 name1 name2 false ++ alarm_tag alarm := by
  have k1 := length_strw_name n1 hn1
  have k2 := length_strw_name n2 hn2
  unfold temp_shown at h1 h2
  simp only [Chunk.render] at k1 k2
  refine ⟨?_, ?_, ?_, fun _ _ _ => print_temp_limits_alarm _ _ _ _ _ _⟩
  · simp only [print_temp_limits, render, Chunk.render, String.length_append, Option.getD_some,
      k1, k2, h1, h2, hd, Bool.false_eq_true, if_false, List.append_nil]
    rfl
  · simp only [print_temp_limits, render, Chunk.render, String.length_append,
      k1, h1, hd, Bool.false_eq_true, if_false, List.append_nil]
    rfl
  · simp only [print_temp_limits, render, Chunk.render, String.length_append,
      Bool.false_eq_true, if_false, List.append_nil]
    rfl

theorem C19_witness :
    sample_env.degstr.length = 2 ∧ "high".length ≤ 4 ∧ "crit".length ≤ 4
    ∧ (fmt_f true 5 1 (temp_shown sample_env 60)).length = 5
    ∧ (fmt_f true 5 1 (temp_shown sample_env 90)).length = 5
    ∧ (render (print_temp_limits sample_env 60 90 (some "high") (some "crit") false)).length
        = 34 := by
  refine ⟨by decide, by decide, by decide, by decide, by decide, ?_⟩
  exact (C19_block_width sample_env 60 90 "high" "crit" (by decide) (by decide) (by decide)
    (by decide) (by decide)).1
theorem length_temp_primary (env : Env) (t : Table) (hd : env.degstr.length = 2)
    (hv : (fmt_f true 6 1
      (temp_shown env (TEMP_FEATURE_VAL t SENSORS_SUBFEATURE_TEMP_INPUT))).length = 6) :
    (render (temp_primary env t)).length = 10 := by
  unfold temp_shown at hv
  unfold temp_primary
  simp only
  split
  · rfl
  · simp only [render, Chunk.render, String.length_append, hv, hd]
    rfl

/-- C20: when the label fetch succeeds, the label is no longer than `label_size - 1`, the unit
suffix is 2 characters wide and the primary reading as formatted by `%+6.1f` fills exactly its
6 columns, the first line of `print_chip_temp` places `label_size + 10` characters (the label
column and the primary reading, number or `FAULT`) before its limit block, and the second
line, when there is one, begins with `label_size + 10` blanks followed by its block. -/
theorem C20_indent (env : Env) (name : sensors_chip_name) (feature : sensors_feature)
    (label_size : Int) (label : String) (hl : sensors_get_label name feature = some label)
    (hlab : (label.length : Int) + 1 ≤ label_size) (hd : env.degstr.length = 2)
    (hv : (fmt_f true 6 1 (temp_shown env
      (TEMP_FEATURE_VAL (temp_collect env name feature).2
        SENSORS_SUBFEATURE_TEMP_INPUT))).length = 6) :
    print_chip_temp env name feature label_size
        = (temp_collect env name feature).1
          ++ (print_label label label_size
              ++ temp_primary env (temp_collect env name feature).2)
          ++ temp_first_block env (temp_collect env name feature).2
          ++ (if claimed_two_lines (temp_collect env name feature).2 then
                [Chunk.lit "\n", Chunk.strw (label_size + 10) ""]
                  ++ claimed_crit_block env (temp_collect env name feature).2
                  ++ alarm_tag (temp_flag_set (temp_collect env name feature).2
                      SENSORS_SUBFEATURE_TEMP_CRIT_ALARM)
              else [])
          ++ (temp_sensor (temp_collect env name feature).2 ++ [Chunk.lit "\n"])
    ∧ ((render (print_label label label_size
          ++ temp_primary env (temp_collect env name feature).2)).length : Int)
        = label_size + 10
    ∧ (Chunk.strw (label_size + 10) "").render = spaces (label_size + 10).toNat
    ∧ (((Chunk.strw (label_size + 10) "").render).length : Int) = label_size + 10 := by
  have e : (Chunk.strw (label_size + 10) "").render = spaces (label_size + 10).toNat := by
    simp only [Chunk.render, pad_str]
    rw [if_neg (by omega)]
    have : "".length = 0 := rfl
    simp only [this, Nat.sub_zero, String.append_empty]
  refine ⟨?_, ?_, e, ?_⟩
  · unfold print_chip_temp print_chip_temp_body
    rw [hl]
    simp only [temp_crit_line_eq, temp_flag_set, List.append_assoc]
  · rw [render_append, String.length_append, length_temp_primary env _ hd hv]
    have := (print_label_text label label_size hlab).2
    push_cast
    omega
  · rw [e, length_spaces]
    omega

theorem C20_witness :
    sensors_get_label sample_chip sample_temp = some "temp1"
    ∧ (("temp1".length : Int) + 1 ≤ 12) ∧ sample_env.degstr.length = 2
    ∧ (fmt_f true 6 1 (temp_shown sample_env
        (TEMP_FEATURE_VAL (temp_collect sample_env sample_chip sample_temp).2
          SENSORS_SUBFEATURE_TEMP_INPUT))).length = 6
    ∧ claimed_two_lines (temp_collect sample_env sample_chip sample_temp).2 = true
    ∧ ((render (print_label "temp1" 12
          ++ temp_primary sample_env (temp_collect sample_env sample_chip sample_temp).2)).length
        : Int) = 12 + 10 := by
  refine ⟨rfl, by decide, by decide, by decide, by decide, ?_⟩
  exact (C20_indent sample_env sample_chip sample_temp 12 "temp1" rfl (by decide) (by decide)
    (by decide)).2.1

/-! ## Fahrenheit conversion (C5) -/

theorem round_double_third :
    round_double (mkRat 1 3) = mkRat 6004799503160661 18014398509481984 := by decide

theorem round_double_neg_tenth :
    round_double (mkRat (-1) 10) = mkRat (-3602879701896397) 36028797018963968 := by decide

theorem deg_ctof_of (v p p2 s s2 : ℚ) (h1 : v * float_9_5 = p) (h2 : round_double p = p2)
    (h3 : p2 + 32 = s) (h4 : round_double s = s2) : deg_ctof v = s2 := by
  unfold deg_ctof
  rw [h1, h2, h3, h4]

theorem deg_ctof_25 : deg_ctof 25 = mkRat 322961403 4194304 :=
  deg_ctof_of 25 (mkRat 188743675 4194304) (mkRat 188743675 4194304)
    (mkRat 322961403 4194304) (mkRat 322961403 4194304)
    (by norm_num [Rat.mkRat_eq_div, float_9_5]) (by decide)
    (by norm_num [Rat.mkRat_eq_div]) (by decide)

theorem deg_ctof_10 : deg_ctof 10 = mkRat 104857599 2097152 :=
  deg_ctof_of 10 (mkRat 37748735 2097152) (mkRat 37748735 2097152)
    (mkRat 104857599 2097152) (mkRat 104857599 2097152)
    (by norm_num [Rat.mkRat_eq_div, float_9_5]) (by decide)
    (by norm_num [Rat.mkRat_eq_div]) (by decide)

theorem deg_ctof_60 : deg_ctof 60 = mkRat 146800637 1048576 :=
  deg_ctof_of 60 (mkRat 113246205 1048576) (mkRat 113246205 1048576)
    (mkRat 146800637 1048576) (mkRat 146800637 1048576)
    (by norm_num [Rat.mkRat_eq_div, float_9_5]) (by decide)
    (by norm_num [Rat.mkRat_eq_div]) (by decide)

theorem deg_ctof_90 : deg_ctof 90 = mkRat 406847479 2097152 :=
  deg_ctof_of 90 (mkRat 339738615 2097152) (mkRat 339738615 2097152)
    (mkRat 406847479 2097152) (mkRat 406847479 2097152)
    (by norm_num [Rat.mkRat_eq_div, float_9_5]) (by decide)
    (by norm_num [Rat.mkRat_eq_div]) (by decide)

theorem deg_ctof_tenth :
    deg_ctof (mkRat 3602879701896397 36028797018963968)
      = mkRat 2264466187301683 70368744177664 :=
  deg_ctof_of _ (mkRat 27200830220753217561559 151115727451828646838272)
    (mkRat 6485183291614823 36028797018963968)
    (mkRat 1159406687898461799 36028797018963968) (mkRat 2264466187301683 70368744177664)
    (by norm_num [Rat.mkRat_eq_div, float_9_5]) (by decide)
    (by norm_num [Rat.mkRat_eq_div]) (by decide)

theorem deg_ctof_sample :
    deg_ctof (mkRat 64487425 2097152) = mkRat 768338720142131 8796093022208 :=
  deg_ctof_of _ (mkRat 486863743431475 8796093022208) (mkRat 486863743431475 8796093022208)
    (mkRat 768338720142131 8796093022208) (mkRat 768338720142131 8796093022208)
    (by norm_num [Rat.mkRat_eq_div, float_9_5]) (by decide)
    (by norm_num [Rat.mkRat_eq_div]) (by decide)


theorem flts_print_chip_temp (env : Env) (name : sensors_chip_name) (feature : sensors_feature)
    (label_size : Int) (label : String) (hl : sensors_get_label name feature = some label) :
    flts (print_chip_temp env name feature label_size)
      = flts (print_chip_temp_body env label label_size (temp_collect env name feature).2) := by
  unfold print_chip_temp
  rw [hl]
  simp only [flts_append]
  unfold temp_collect
  rw [flts_collect]
  rfl

/-- C5, counterexample: with the Fahrenheit flag set and a collected input of
`30.75 + 2^-21`, the number shown is `768338720142131 / 8796093022208` (87.3499994), printed
as `+87.3`, whereas `v * 9 / 5 + 32` is `183186229 / 2097152` (87.3500009), which `%+6.1f`
prints as `+87.4`; and for 25 the number shown is `322961403 / 4194304` (76.9999988), not
77. -/
theorem C5_counterexample :
    sensors_get_label sample_chip3 sample_temp_input = some "temp8"
    ∧ sample_env_f.fahrenheit = true
    ∧ TEMP_FEATURE_VAL (temp_collect sample_env_f sample_chip3 sample_temp_input).2
        SENSORS_SUBFEATURE_TEMP_INPUT = mkRat 64487425 2097152
    ∧ flts (print_chip_temp sample_env_f sample_chip3 sample_temp_input 12)
        = [mkRat 768338720142131 8796093022208]
    ∧ (mkRat 64487425 2097152 : ℚ) * 9 / 5 + 32 = mkRat 183186229 2097152
    ∧ fmt_f true 6 1 (mkRat 768338720142131 8796093022208) = " +87.3"
    ∧ fmt_f true 6 1 (mkRat 183186229 2097152) = " +87.4"
    ∧ deg_ctof 25 = mkRat 322961403 4194304
    ∧ (mkRat 322961403 4194304 : ℚ) ≠ 25 * 9 / 5 + 32 := by
  have hv : TEMP_FEATURE_VAL (temp_collect sample_env_f sample_chip3 sample_temp_input).2
      SENSORS_SUBFEATURE_TEMP_INPUT = mkRat 64487425 2097152 := by decide
  refine ⟨rfl, rfl, hv, ?_, by norm_num [Rat.mkRat_eq_div], by decide, by decide, deg_ctof_25,
    by norm_num [Rat.mkRat_eq_div]⟩
  rw [flts_print_chip_temp sample_env_f sample_chip3 sample_temp_input 12 "temp8" rfl,
    flts_body]
  have h1 : temp_flag_set (temp_collect sample_env_f sample_chip3 sample_temp_input).2
      SENSORS_SUBFEATURE_TEMP_FAULT = false := by decide
  have h2 : (temp_limits (temp_collect sample_env_f sample_chip3 sample_temp_input).2).s1
      = none := by decide
  have h3 : (temp_limits (temp_collect sample_env_f sample_chip3 sample_temp_input).2).s2
      = none := by decide
  have h4 : TEMP_FEATURE (temp_collect sample_env_f sample_chip3 sample_temp_input).2
      SENSORS_SUBFEATURE_TEMP_CRIT = false := by decide
  have h5 : temp_shown sample_env_f (mkRat 64487425 2097152)
      = mkRat 768338720142131 8796093022208 := by
    unfold temp_shown
    rw [if_pos (show sample_env_f.fahrenheit = true from rfl), deg_ctof_sample]
  simp only [h1, h2, h3, h4, hv, h5, Bool.and_false, Bool.false_eq_true, if_false,
    List.append_nil]

/-- C5 (amended): when the label fetch succeeds, the numbers that `print_chip_temp` shows (the
primary reading and the limit values of both blocks) are, one for one, the numbers it shows
with the Fahrenheit flag clear, each converted once by `deg_ctof` when the flag is set and left
as it is otherwise; with the flag clear every number shown is a collected value.  `deg_ctof`
multiplies by the `float` constant `7549747 / 4194304` in place of `9 / 5` and adds 32, each
result rounded to `double` (the `double` nearest 0.1 becomes `2264466187301683 / 70368744177664`).  A primary
reading of 25 with the flag set is the number `322961403 / 4194304`, which `%+6.1f` prints as
`+77.0`. -/
theorem C5_fahrenheit (env : Env) (name : sensors_chip_name) (feature : sensors_feature)
    (label_size : Int) (label : String) (hl : sensors_get_label name feature = some label) :
    flts (print_chip_temp env name feature label_size)
        = (flts (print_chip_temp { env with fahrenheit := false } name feature label_size)).map
            (fun v => if env.fahrenheit then deg_ctof v else v)
    ∧ (∀ v ∈ flts (print_chip_temp { env with fahrenheit := false } name feature label_size),
        ∃ x, v = TEMP_FEATURE_VAL (temp_collect env name feature).2 x)
    ∧ (∀ v : ℚ, deg_ctof v
        = round_double (round_double (v * mkRat 7549747 4194304) + 32))
    ∧ deg_ctof (mkRat 3602879701896397 36028797018963968)
        = mkRat 2264466187301683 70368744177664
    ∧ (env.fahrenheit = true →
        TEMP_FEATURE_VAL (temp_collect env name feature).2 SENSORS_SUBFEATURE_TEMP_INPUT = 25 →
        temp_flag_set (temp_collect env name feature).2 SENSORS_SUBFEATURE_TEMP_FAULT = false →
        temp_primary env (temp_collect env name feature).2
            = [Chunk.flt true 6 1 (mkRat 322961403 4194304), Chunk.str env.degstr,
               Chunk.lit "  "]
          ∧ (Chunk.flt true 6 1 (mkRat 322961403 4194304)).render = " +77.0") := by
  have hc : temp_collect { env with fahrenheit := false } name feature
      = temp_collect env name feature := rfl
  have hshown : ∀ v, temp_shown env v
      = (fun v => if env.fahrenheit then deg_ctof v else v)
          (temp_shown { env with fahrenheit := false } v) := by
    intro v
    simp only [temp_shown, Bool.false_eq_true, if_false]
  refine ⟨?_, ?_, fun _ => rfl, deg_ctof_tenth, ?_⟩
  · rw [flts_print_chip_temp env name feature label_size label hl,
      flts_print_chip_temp _ name feature label_size label hl, hc, flts_body, flts_body]
    simp only [List.map_append]
    congr 1
    congr 1
    · split
      · rfl
      · simp only [List.map_cons, List.map_nil]
        rw [hshown]
    · split
      · simp only [List.map_cons, List.map_nil]
        rw [hshown, hshown (temp_limits (temp_collect env name feature).2).limit2]
      · split
        · simp only [List.map_cons, List.map_nil]
          rw [hshown]
        · rfl
    · split
      · split
        · simp only [List.map_cons, List.map_nil]
          rw [hshown, hshown (TEMP_FEATURE_VAL _ SENSORS_SUBFEATURE_TEMP_CRIT_HYST)]
        · simp only [List.map_cons, List.map_nil]
          rw [hshown]
      · rfl
  · intro v hv
    rw [flts_print_chip_temp _ name feature label_size label hl, hc, flts_body] at hv
    obtain ⟨⟨x1, h1⟩, ⟨x2, h2⟩⟩ := temp_limits_vals (temp_collect env name feature).2
    simp only [temp_shown, Bool.false_eq_true, if_false, List.mem_append] at hv
    rcases hv with (hv | hv) | hv
    · split at hv
      · simp at hv
      · exact ⟨_, by simpa using hv⟩
    · split at hv
      · rename_i hs2
        simp only [List.mem_cons, List.mem_singleton, List.not_mem_nil, or_false] at hv
        rcases hv with hv | hv
        · rcases h1 with h1 | h1
          · exact ⟨x1, by rw [hv, h1]⟩
          · exfalso
            revert hs2 h1
            unfold temp_limits
            cases TEMP_FEATURE (temp_collect env name feature).2 SENSORS_SUBFEATURE_TEMP_MAX <;>
            cases TEMP_FEATURE (temp_collect env name feature).2 SENSORS_SUBFEATURE_TEMP_MIN <;>
            cases TEMP_FEATURE (temp_collect env name feature).2
              SENSORS_SUBFEATURE_TEMP_MAX_HYST <;>
            cases TEMP_FEATURE (temp_collect env name feature).2 SENSORS_SUBFEATURE_TEMP_CRIT <;>
            cases TEMP_FEATURE (temp_collect env name feature).2
              SENSORS_SUBFEATURE_TEMP_CRIT_HYST <;>
            simp
        · rcases h2 with h2 | h2
          · exact ⟨x2, by rw [hv, h2]⟩
          · rw [h2] at hs2; cases hs2
      · split at hv
        · rename_i hs1
          simp only [List.mem_singleton] at hv
          rcases h1 with h1 | h1
          · exact ⟨x1, by rw [hv, h1]⟩
          · rw [h1] at hs1; cases hs1
        · simp at hv
    · split at hv
      · split at hv
        · simp only [List.mem_cons, List.mem_singleton, List.not_mem_nil, or_false] at hv
          rcases hv with hv | hv
          · exact ⟨_, hv⟩
          · exact ⟨_, hv⟩
        · exact ⟨_, by simpa using hv⟩
      · simp at hv
  · intro hf hv hfault
    constructor
    · unfold temp_flag_set at hfault
      unfold temp_primary
      simp only [hfault, hf, hv, if_true, Bool.false_eq_true, if_false]
      rw [deg_ctof_25]
    · decide

theorem C5_witness :
    sensors_get_label sample_chip sample_temp = some "temp1"
    ∧ flts (print_chip_temp sample_env sample_chip sample_temp 12) = [25, 10, 60, 90]
    ∧ flts (print_chip_temp sample_env_f sample_chip sample_temp 12)
        = [mkRat 322961403 4194304, mkRat 104857599 2097152, mkRat 146800637 1048576,
           mkRat 406847479 2097152]
    ∧ (sample_env_f.fahrenheit = true
      ∧ TEMP_FEATURE_VAL (temp_collect sample_env_f sample_chip sample_temp).2
          SENSORS_SUBFEATURE_TEMP_INPUT = 25
      ∧ temp_flag_set (temp_collect sample_env_f sample_chip sample_temp).2
          SENSORS_SUBFEATURE_TEMP_FAULT = false
      ∧ render (temp_primary sample_env_f (temp_collect sample_env_f sample_chip sample_temp).2)
          = " +77.0°F  ") := by
  have h := C5_fahrenheit sample_env_f sample_chip sample_temp 12 "temp1" rfl
  have e : flts (print_chip_temp sample_env sample_chip sample_temp 12) = [25, 10, 60, 90] := by
    decide
  have e2 : flts (print_chip_temp { sample_env_f with fahrenheit := false } sample_chip
      sample_temp 12) = [25, 10, 60, 90] := by decide
  have hf : sample_env_f.fahrenheit = true := rfl
  refine ⟨rfl, e, ?_, hf, by decide, by decide, ?_⟩
  · rw [h.1, e2]
    simp only [List.map_cons, List.map_nil, hf, if_true, deg_ctof_25, deg_ctof_10, deg_ctof_60,
      deg_ctof_90]
  · rw [(h.2.2.2.2 hf (by decide) (by decide)).1]
    decide

/-! ## Sensor type (C6) -/

theorem truncates_tdiv (v : ℚ) (c : Int) (h : truncates v c) : Int.tdiv v.num v.den = c := by
  have hd : (0 : Int) ≤ (v.den : Int) := Int.ofNat_nonneg _
  rcases le_total 0 v with hv | hv
  · have hn : 0 ≤ v.num := Rat.num_nonneg.mpr hv
    rw [Int.tdiv_eq_ediv hn hd, ← Rat.floor_def, Int.floor_eq_iff]
    exact h.1 hv
  · have hn : 0 ≤ -v.num := by
      have := Rat.num_nonpos.mpr hv
      omega
    have h2 := h.2 hv
    have e : Int.tdiv v.num v.den = -Int.tdiv (-v.num) v.den := by
      rw [Int.neg_tdiv, neg_neg]
    rw [e, Int.tdiv_eq_ediv hn hd]
    have hf : ⌊-v⌋ = -c := by
      rw [Int.floor_eq_iff]
      push_cast
      constructor <;> linarith [h2.1, h2.2]
    rw [Rat.floor_def] at hf
    simp only [Rat.neg_num, Rat.neg_den] at hf
    rw [hf, neg_neg]

theorem c_int_of_truncates (v : ℚ) (c : Int) (h : truncates v c) (hlo : -2147483648 ≤ c)
    (hhi : c ≤ 2147483647) : c_int v = c := by
  unfold c_int
  rw [truncates_tdiv v c h]
  exact if_pos ⟨hlo, hhi⟩

theorem print_chip_temp_sensor (env : Env) (name : sensors_chip_name) (feature : sensors_feature)
    (label_size : Int) (label : String) (hl : sensors_get_label name feature = some label) :
    print_chip_temp env name feature label_size
      = ((temp_collect env name feature).1
          ++ print_label label label_size
          ++ temp_primary env (temp_collect env name feature).2
          ++ temp_first_block env (temp_collect env name feature).2
          ++ temp_crit_line env label_size (temp_collect env name feature).2
              (temp_limits (temp_collect env name feature).2).crit_displayed)
        ++ temp_sensor (temp_collect env name feature).2
        ++ [Chunk.lit "\n"] := by
  unfold print_chip_temp print_chip_temp_body
  rw [hl]
  simp only [List.append_assoc]

/-- C6, counterexample: the sensor-type role of the sample feature is present with the value
3000000000, whose integer truncation 3000000000 is greater than 1000, so that the name should
be `thermistor`; the truncation does not fit an `int`, the conversion of line 256 gives
`INT_MIN`, and the text written is `sensor = unknown`. -/
theorem C6_counterexample :
    sensors_get_label sample_chip4 (sample_typed 23) = some "temp3"
    ∧ (temp_collect sample_env sample_chip4 (sample_typed 23)).2.has_features
        (SENSORS_SUBFEATURE_TEMP_TYPE - SENSORS_SUBFEATURE_TEMP_INPUT) = true
    ∧ (temp_collect sample_env sample_chip4 (sample_typed 23)).2.feature_vals
        (SENSORS_SUBFEATURE_TEMP_TYPE - SENSORS_SUBFEATURE_TEMP_INPUT) = 3000000000
    ∧ truncates 3000000000 3000000000
    ∧ (3000000000 : Int) > 1000
    ∧ claimed_sensor_name 3000000000 = "thermistor"
    ∧ render (print_chip_temp sample_env sample_chip4 (sample_typed 23) 12)
        = "temp3:       +25.0°C                                    sensor = unknown\n"
    ∧ Chunk.str "thermistor" ∉ print_chip_temp sample_env sample_chip4 (sample_typed 23) 12 := by
  refine ⟨rfl, by decide, by decide, ?_, by decide, by decide, by decide, by decide⟩
  unfold truncates
  norm_num

/-- C6 (amended): when the label fetch succeeds and the sensor-type entry of the collected
arrays is present with a value `v` whose integer truncation `c` fits an `int`,
`print_chip_temp` ends its output with `sensor = <name>` and the newline, `<name>` being the
name the specification gives for `c` (`claimed_sensor_name`); when the entry is absent the
output ends with the newline alone; the text `sensor = ` is written exactly when the entry is
present. -/
theorem C6_sensor_type (env : Env) (name : sensors_chip_name) (feature : sensors_feature)
    (label_size : Int) (label : String) (hl : sensors_get_label name feature = some label) :
    (∀ (v : ℚ) (c : Int),
        (temp_collect env name feature).2.has_features
          (SENSORS_SUBFEATURE_TEMP_TYPE - SENSORS_SUBFEATURE_TEMP_INPUT) = true →
        (temp_collect env name feature).2.feature_vals
          (SENSORS_SUBFEATURE_TEMP_TYPE - SENSORS_SUBFEATURE_TEMP_INPUT) = v →
        truncates v c → -2147483648 ≤ c → c ≤ 2147483647 →
        print_chip_temp env name feature label_size
          = ((temp_collect env name feature).1
              ++ print_label label label_size
              ++ temp_primary env (temp_collect env name feature).2
              ++ temp_first_block env (temp_collect env name feature).2
              ++ temp_crit_line env label_size (temp_collect env name feature).2
                  (temp_limits (temp_collect env name feature).2).crit_displayed)
            ++ [Chunk.lit "sensor = ", Chunk.str (claimed_sensor_name c), Chunk.lit "\n"])
    ∧ ((temp_collect env name feature).2.has_features
          (SENSORS_SUBFEATURE_TEMP_TYPE - SENSORS_SUBFEATURE_TEMP_INPUT) = false →
        print_chip_temp env name feature label_size
          = ((temp_collect env name feature).1
              ++ print_label label label_size
              ++ temp_primary env (temp_collect env name feature).2
              ++ temp_first_block env (temp_collect env name feature).2
              ++ temp_crit_line env label_size (temp_collect env name feature).2
                  (temp_limits (temp_collect env name feature).2).crit_displayed)
            ++ [Chunk.lit "\n"])
    ∧ (Chunk.lit "sensor = " ∈ print_chip_temp env name feature label_size ↔
        (temp_collect env name feature).2.has_features
          (SENSORS_SUBFEATURE_TEMP_TYPE - SENSORS_SUBFEATURE_TEMP_INPUT) = true) := by
  have heq := print_chip_temp_sensor env name feature label_size label hl
  refine ⟨?_, ?_, ?_⟩
  · intro v c hp hv ht hlo hhi
    rw [heq]
    unfold temp_sensor TEMP_FEATURE TEMP_FEATURE_VAL
    rw [hp, hv, c_int_of_truncates v c ht hlo hhi]
    simp only [if_true, sensor_type_name_eq, List.append_assoc, List.cons_append,
      List.nil_append]
  · intro hp
    rw [heq]
    unfold temp_sensor TEMP_FEATURE
    rw [hp]
    simp only [Bool.false_eq_true, if_false, List.append_nil]
  · rw [heq, ← mem_lits]
    simp only [lits_append, List.mem_append]
    constructor
    · rintro ((((((h | h) | h) | h) | h) | h) | h)
      · have := collect_lits _ _ _ _ _ _ _ h
        simp at this
      · rw [print_label_lits] at h; simp at h
      · have := temp_primary_lits _ _ _ h
        simp at this
      · have := print_temp_limits_lits _ _ _ _ _ _ _ (by unfold temp_first_block at h; exact h)
        simp at this
      · have := temp_crit_line_lits _ _ _ _ _ h
        simp at this
      · unfold temp_sensor TEMP_FEATURE at h
        split at h
        · assumption
        · simp at h
      · simp at h
    · intro h
      unfold temp_sensor TEMP_FEATURE
      rw [h]
      simp

theorem C6_witness :
    sensors_get_label sample_chip4 (sample_typed 21) = some "temp3"
    ∧ truncates (mkRat 7 2) 3
    ∧ render (print_chip_temp sample_env sample_chip4 (sample_typed 21) 12)
        = "temp3:       +25.0°C                                    sensor = thermal diode\n"
    ∧ truncates (mkRat (-1) 2) 0
    ∧ render (print_chip_temp sample_env sample_chip4 (sample_typed 22) 12)
        = "temp3:       +25.0°C                                    sensor = disabled\n"
    ∧ truncates (mkRat 2001 2) 1000
    ∧ render (print_chip_temp sample_env sample_chip4 (sample_typed 24) 12)
        = "temp3:       +25.0°C                                    sensor = unknown\n"
    ∧ truncates (mkRat (-7) 2) (-3)
    ∧ render (print_chip_temp sample_env sample_chip4 (sample_typed 25) 12)
        = "temp3:       +25.0°C                                    sensor = unknown\n"
    ∧ truncates 3435 3435
    ∧ render (print_chip_temp sample_env sample_chip4 (sample_typed 26) 12)
        = "temp3:       +25.0°C                                    sensor = thermistor\n" := by
  have t1 : truncates (mkRat 7 2) 3 := by
    unfold truncates; norm_num [Rat.mkRat_eq_div]
  have t2 : truncates (mkRat (-1) 2) 0 := by
    unfold truncates; norm_num [Rat.mkRat_eq_div]
  have t3 : truncates (mkRat 2001 2) 1000 := by
    unfold truncates; norm_num [Rat.mkRat_eq_div]
  have t4 : truncates (mkRat (-7) 2) (-3) := by
    unfold truncates; norm_num [Rat.mkRat_eq_div]
  have t5 : truncates 3435 3435 := by
    unfold truncates; norm_num
  refine ⟨rfl, t1, ?_, t2, ?_, t3, ?_, t4, ?_, t5, ?_⟩
  · rw [(C6_sensor_type sample_env sample_chip4 (sample_typed 21) 12 "temp3" rfl).1
      (mkRat 7 2) 3 (by decide) (by decide) t1 (by decide) (by decide)]
    decide
  · rw [(C6_sensor_type sample_env sample_chip4 (sample_typed 22) 12 "temp3" rfl).1
      (mkRat (-1) 2) 0 (by decide) (by decide) t2 (by decide) (by decide)]
    decide
  · rw [(C6_sensor_type sample_env sample_chip4 (sample_typed 24) 12 "temp3" rfl).1
      (mkRat 2001 2) 1000 (by decide) (by decide) t3 (by decide) (by decide)]
    decide
  · rw [(C6_sensor_type sample_env sample_chip4 (sample_typed 25) 12 "temp3" rfl).1
      (mkRat (-7) 2) (-3) (by decide) (by decide) t4 (by decide) (by decide)]
    decide
  · rw [(C6_sensor_type sample_env sample_chip4 (sample_typed 26) 12 "temp3" rfl).1
      3435 3435 (by decide) (by decide) t5 (by decide) (by decide)]
    decide

/-! ## Absent and failed entries (C9) -/

/-- C13: when the label fetch succeeds, the primary reading that `print_chip_temp` and
`print_chip_fan` write right after the label column is the fixed text `FAULT`, without any
number, if the fault entry of the collected arrays is present and its value is not zero, and
otherwise the input entry (entry 0 of the value array) as a number, converted when the
Fahrenheit flag is set and followed by the unit for a temperature, followed by ` RPM` for a
fan, whether the input entry is present or not; the text `FAULT` is written exactly when the
fault entry is present and not zero. -/
theorem C13_fault (env : Env) (name : sensors_chip_name) (feature : sensors_feature)
    (label_size : Int) (label : String) (hl : sensors_get_label name feature = some label) :
    (print_chip_temp env name feature label_size
        = (temp_collect env name feature).1 ++ print_label label label_size
          ++ (if (temp_collect env name feature).2.has_features
                  (SENSORS_SUBFEATURE_TEMP_FAULT - SENSORS_SUBFEATURE_TEMP_INPUT) = true
                ∧ (temp_collect env name feature).2.feature_vals
                  (SENSORS_SUBFEATURE_TEMP_FAULT - SENSORS_SUBFEATURE_TEMP_INPUT) ≠ 0
              then [Chunk.lit "   FAULT  "]
              else [Chunk.flt true 6 1
                      (if env.fahrenheit = true
                        then deg_ctof ((temp_collect env name feature).2.feature_vals 0)
                        else (temp_collect env name feature).2.feature_vals 0),
                    Chunk.str env.degstr, Chunk.lit "  "])
          ++ (temp_first_block env (temp_collect env name feature).2
              ++ temp_crit_line env label_size (temp_collect env name feature).2
                  (temp_limits (temp_collect env name feature).2).crit_displayed
              ++ temp_sensor (temp_collect env name feature).2
              ++ [Chunk.lit "\n"])
      ∧ (Chunk.lit "   FAULT  " ∈ print_chip_temp env name feature label_size ↔
          (temp_collect env name feature).2.has_features
              (SENSORS_SUBFEATURE_TEMP_FAULT - SENSORS_SUBFEATURE_TEMP_INPUT) = true
            ∧ (temp_collect env name feature).2.feature_vals
              (SENSORS_SUBFEATURE_TEMP_FAULT - SENSORS_SUBFEATURE_TEMP_INPUT) ≠ 0))
    ∧ (print_chip_fan env name feature label_size
        = print_label label label_size ++ (fan_collect env name feature).1
          ++ (if (fan_collect env name feature).2.has_features
                  (SENSORS_SUBFEATURE_FAN_FAULT - SENSORS_SUBFEATURE_FAN_INPUT) = true
                ∧ (fan_collect env name feature).2.feature_vals
                  (SENSORS_SUBFEATURE_FAN_FAULT - SENSORS_SUBFEATURE_FAN_INPUT) ≠ 0
              then [Chunk.lit "   FAULT"]
              else [Chunk.flt false 4 0 ((fan_collect env name feature).2.feature_vals 0),
                    Chunk.lit " RPM"])
          ++ fan_rest (fan_collect env name feature).2
      ∧ (Chunk.lit "   FAULT" ∈ print_chip_fan env name feature label_size ↔
          (fan_collect env name feature).2.has_features
              (SENSORS_SUBFEATURE_FAN_FAULT - SENSORS_SUBFEATURE_FAN_INPUT) = true
            ∧ (fan_collect env name feature).2.feature_vals
              (SENSORS_SUBFEATURE_FAN_FAULT - SENSORS_SUBFEATURE_FAN_INPUT) ≠ 0)) := by
  have hprim : temp_primary env (temp_collect env name feature).2
      = (if (temp_collect env name feature).2.has_features
              (SENSORS_SUBFEATURE_TEMP_FAULT - SENSORS_SUBFEATURE_TEMP_INPUT) = true
            ∧ (temp_collect env name feature).2.feature_vals
              (SENSORS_SUBFEATURE_TEMP_FAULT - SENSORS_SUBFEATURE_TEMP_INPUT) ≠ 0
          then [Chunk.lit "   FAULT  "]
          else [Chunk.flt true 6 1
                  (if env.fahrenheit = true
                    then deg_ctof ((temp_collect env name feature).2.feature_vals 0)
                    else (temp_collect env name feature).2.feature_vals 0),
                Chunk.str env.degstr, Chunk.lit "  "]) := by
    unfold temp_primary TEMP_FEATURE TEMP_FEATURE_VAL truthy
    simp only [Bool.and_eq_true, decide_eq_true_eq, sub_self]
  have hfan : fan_primary (fan_collect env name feature).2
      = (if (fan_collect env name feature).2.has_features
              (SENSORS_SUBFEATURE_FAN_FAULT - SENSORS_SUBFEATURE_FAN_INPUT) = true
            ∧ (fan_collect env name feature).2.feature_vals
              (SENSORS_SUBFEATURE_FAN_FAULT - SENSORS_SUBFEATURE_FAN_INPUT) ≠ 0
          then [Chunk.lit "   FAULT"]
          else [Chunk.flt false 4 0 ((fan_collect env name feature).2.feature_vals 0),
                Chunk.lit " RPM"]) := by
    unfold fan_primary FAN_FEATURE FAN_FEATURE_VAL truthy
    simp only [Bool.and_eq_true, decide_eq_true_eq, sub_self]
  have e1 : print_chip_temp env name feature label_size
        = (temp_collect env name feature).1 ++ print_label label label_size
          ++ temp_primary env (temp_collect env name feature).2
          ++ (temp_first_block env (temp_collect env name feature).2
              ++ temp_crit_line env label_size (temp_collect env name feature).2
                  (temp_limits (temp_collect env name feature).2).crit_displayed
              ++ temp_sensor (temp_collect env name feature).2
              ++ [Chunk.lit "\n"]) := by
    unfold print_chip_temp print_chip_temp_body
    rw [hl]
    simp only [List.append_assoc]
  have e2 : print_chip_fan env name feature label_size
        = print_label label label_size ++ (fan_collect env name feature).1
          ++ fan_primary (fan_collect env name feature).2
          ++ fan_rest (fan_collect env name feature).2 := by
    unfold print_chip_fan
    rw [hl]
    simp only [print_chip_fan_body_parts, List.append_assoc]
  refine ⟨⟨by rw [e1, hprim], ?_⟩, ⟨by rw [e2, hfan], ?_⟩⟩
  · rw [e1, hprim, ← mem_lits]
    simp only [lits_append, List.mem_append]
    constructor
    · rintro (((h | h) | h) | (((h | h) | h) | h))
      · have := collect_lits _ _ _ _ _ _ _ h
        simp at this
      · rw [print_label_lits] at h; simp at h
      · split at h
        · assumption
        · simp at h
      · have := print_temp_limits_lits _ _ _ _ _ _ _ (by unfold temp_first_block at h; exact h)
        simp at this
      · have := temp_crit_line_lits _ _ _ _ _ h
        simp at this
      · unfold temp_sensor at h
        simp only at h
        split at h <;> simp at h
      · simp at h
    · intro h
      rw [if_pos h]
      simp
  · rw [e2, hfan, ← mem_lits]
    simp only [lits_append, List.mem_append]
    constructor
    · rintro (((h | h) | h) | h)
      · rw [print_label_lits] at h; simp at h
      · have := collect_lits _ _ _ _ _ _ _ h
        simp at this
      · split at h
        · assumption
        · simp at h
      · have := fan_rest_lits _ _ h
        simp at this
    · intro h
      rw [if_pos h]
      simp

theorem C13_witness :
    (sensors_get_label sample_chip (sample_faulty_fan true 2) = some "fan3"
      ∧ sample_value 1 = .ok 25 ∧ sample_value 2 = .ok 60 ∧ sample_value 7 = .ok 0
      ∧ sample_value 9 = .error (-5))
    ∧ render (print_chip_fan sample_env sample_chip (sample_faulty_fan true 2) 12)
        = "fan3:          FAULT\n"
    ∧ render (print_chip_fan sample_env sample_chip (sample_faulty_fan false 2) 12)
        = "fan3:          FAULT\n"
    ∧ render (print_chip_fan sample_env sample_chip (sample_faulty_fan true 7) 12)
        = "fan3:         25 RPM\n"
    ∧ render (print_chip_fan sample_env sample_chip (sample_faulty_fan false 7) 12)
        = "fan3:          0 RPM\n"
    ∧ render (print_chip_fan sample_env sample_chip (sample_faulty_fan true 9) 12)
        = "fan3:       ERROR: Can\x27t get fan3_fault data: read error\n  25 RPM\n"
    ∧ render (print_chip_temp sample_env sample_chip (sample_faulty_temp true 2) 12)
        = "temp4:         FAULT                                    \n"
    ∧ render (print_chip_temp sample_env sample_chip (sample_faulty_temp false 2) 12)
        = "temp4:         FAULT                                    \n"
    ∧ render (print_chip_temp sample_env sample_chip (sample_faulty_temp true 7) 12)
        = "temp4:       +25.0°C                                    \n"
    ∧ render (print_chip_temp sample_env sample_chip (sample_faulty_temp false 7) 12)
        = "temp4:        +0.0°C                                    \n"
    ∧ render (print_chip_temp sample_env sample_chip (sample_faulty_temp true 9) 12)
        = "ERROR: Can\x27t get temp4_fault data: read error\n"
          ++ "temp4:       +25.0°C                                    \n" := by
  refine ⟨⟨rfl, rfl, rfl, rfl, rfl⟩, ?_, ?_, ?_, ?_, ?_, ?_, ?_, ?_, ?_, ?_⟩
  · rw [(C13_fault sample_env sample_chip (sample_faulty_fan true 2) 12 "fan3" rfl).2.1]
    decide
  · rw [(C13_fault sample_env sample_chip (sample_faulty_fan false 2) 12 "fan3" rfl).2.1]
    decide
  · rw [(C13_fault sample_env sample_chip (sample_faulty_fan true 7) 12 "fan3" rfl).2.1]
    decide
  · rw [(C13_fault sample_env sample_chip (sample_faulty_fan false 7) 12 "fan3" rfl).2.1]
    decide
  · rw [(C13_fault sample_env sample_chip (sample_faulty_fan true 9) 12 "fan3" rfl).2.1]
    decide
  · rw [(C13_fault sample_env sample_chip (sample_faulty_temp true 2) 12 "temp4" rfl).1.1]
    decide
  · rw [(C13_fault sample_env sample_chip (sample_faulty_temp false 2) 12 "temp4" rfl).1.1]
    decide
  · rw [(C13_fault sample_env sample_chip (sample_faulty_temp true 7) 12 "temp4" rfl).1.1]
    decide
  · rw [(C13_fault sample_env sample_chip (sample_faulty_temp false 7) 12 "temp4" rfl).1.1]
    decide
  · rw [(C13_fault sample_env sample_chip (sample_faulty_temp true 9) 12 "temp4" rfl).1.1]
    decide

/-! ## Label column (C18) -/

/-- C18: `print_chip_fan` on a fan feature one of whose subfeatures cannot be read.  The label
`fan2` is fetched, the label width of the chip is 12 and `print_label` writes 12 characters;
the collector runs after `print_label` (line 352 before lines 355-357), its diagnostic follows
the label on the same line, and the primary value `  25 RPM` starts in column 0 of the next
line, not in column 12.  `print_chip_temp` collects first (lines 160-162 before line 222): its
diagnostic is a line of its own and the primary value starts in column 12. -/
theorem C18_fan_diagnostic_after_label :
    sensors_get_label sample_chip_fail sample_fan_fail = some "fan2"
    ∧ sensors_get_label_size sample_chip_fail = 12
    ∧ sample_chip_fail.value 9 = .error (-5)
    ∧ render (print_label "fan2" 12) = "fan2:       "
    ∧ print_chip_fan sample_env sample_chip_fail sample_fan_fail 12
        = print_label "fan2" 12
          ++ [Chunk.lit "ERROR: Can\x27t get ", Chunk.str "fan2_min", Chunk.lit " data: ",
              Chunk.str "read error", Chunk.lit "\n"]
          ++ [Chunk.flt false 4 0 25, Chunk.lit " RPM", Chunk.lit "\n"]
    ∧ column (render (print_label "fan2" 12
          ++ [Chunk.lit "ERROR: Can\x27t get ", Chunk.str "fan2_min", Chunk.lit " data: ",
              Chunk.str "read error", Chunk.lit "\n"])) = 0
    ∧ render (print_chip_fan sample_env sample_chip_fail sample_fan_fail 12)
        = "fan2:       ERROR: Can\x27t get fan2_min data: read error\n  25 RPM\n"
    ∧ List.IsPrefix
        ([Chunk.lit "ERROR: Can\x27t get ", Chunk.str "temp3_min", Chunk.lit " data: ",
           Chunk.str "read error", Chunk.lit "\n"]
          ++ print_label "temp3" 12
          ++ [Chunk.flt true 6 1 25, Chunk.str "°C", Chunk.lit "  "])
        (print_chip_temp sample_env sample_chip_fail sample_temp_fail 12)
    ∧ column (render ([Chunk.lit "ERROR: Can\x27t get ", Chunk.str "temp3_min",
          Chunk.lit " data: ", Chunk.str "read error", Chunk.lit "\n"]
          ++ print_label "temp3" 12)) = 12
    ∧ render (print_chip_temp sample_env sample_chip_fail sample_temp_fail 12)
        = "ERROR: Can\x27t get temp3_min data: read error\n"
          ++ "temp3:       +25.0°C  (high = +60.0°C)                  \n" := by
  refine ⟨rfl, by decide, rfl, by decide, by decide, by decide, by decide, by decide, by decide,
    by decide⟩

end Sensors
